import Mathlib

/-! Radio task manager and Si446x transceiver driver.

Shallow embedding of `pkt/devices/si446x.c` and `pkt/managers/pktradio.c`.

* Machine integers are natural numbers reduced modulo `2^w` where a C
  conversion or a wrap-around can occur.
* Every effect of the code on its surroundings (SPI transfers, delays, RTOS
  calls) is appended, in program order, to the `log` of the state.
* Everything the code reads from its surroundings (SPI responses, the CCA
  line, the system clock, thread events) comes from an `Env`, one stream per
  kind of input, consumed through a cursor kept in the state.
* Loops whose number of iterations depends on the surroundings take an
  iteration budget; running out of it is reported as `Halt.fuel`.
-/

namespace PecanPico

/-! ## Definitions taken from headers that are not part of the sources -/

/-- Names of the Si446x property addresses used by the driver (`Si446x_*`
macros of the driver header). -/
inductive PropertyName
  | Si446x_GLOBAL_XO_TUNE
  | Si446x_FRR_CTL_A_MODE
  | Si446x_FRR_CTL_B_MODE
  | Si446x_FRR_CTL_C_MODE
  | Si446x_FRR_CTL_D_MODE
  | Si446x_INT_CTL_ENABLE
  | Si446x_GLOBAL_CONFIG
  | Si446x_PREAMBLE_TX_LENGTH
  | Si446x_SYNC_CONFIG
  | Si446x_GLOBAL_CLK_CFG
  | Si446x_MODEM_RSSI_CONTROL
  | Si446x_PREAMBLE_CONFIG_STD_1
  | Si446x_PKT_CONFIG1
  | Si446x_MODEM_MAP_CONTROL
  | Si446x_MODEM_DSM_CTRL
  | Si446x_MODEM_CLKGEN_BAND
  | Si446x_MODEM_FREQ_DEV
  | Si446x_MODEM_TX_RAMP_DELAY
  | Si446x_PA_TC
  | Si446x_FREQ_CONTROL_INTE
  | Si446x_FREQ_CONTROL_FRAC
  | Si446x_FREQ_CONTROL_CHANNEL_STEP_SIZE
  | Si446x_FREQ_CONTROL_W_SIZE
  | Si446x_FREQ_CONTROL_VCOCNT_RX_ADJ
  | Si446x_MODEM_MDM_CTRL
  | Si446x_MODEM_IF_CONTROL
  | Si446x_MODEM_IF_FREQ
  | Si446x_MODEM_DECIMATION_CFG1
  | Si446x_MODEM_DECIMATION_CFG0
  | Si446x_MODEM_BCR_OSR
  | Si446x_MODEM_BCR_NCO_OFFSET
  | Si446x_MODEM_BCR_GAIN
  | Si446x_MODEM_BCR_GEAR
  | Si446x_MODEM_BCR_MISC1
  | Si446x_MODEM_AFC_GEAR
  | Si446x_MODEM_AFC_WAIT
  | Si446x_MODEM_AFC_GAIN
  | Si446x_MODEM_AFC_LIMITER
  | Si446x_MODEM_AFC_MISC
  | Si446x_MODEM_AGC_CONTROL
  | Si446x_MODEM_AGC_WINDOW_SIZE
  | Si446x_MODEM_AGC_RFPD_DECAY
  | Si446x_MODEM_AGC_IFPD_DECAY
  | Si446x_MODEM_FSK4_GAIN1
  | Si446x_MODEM_FSK4_GAIN0
  | Si446x_MODEM_FSK4_TH
  | Si446x_MODEM_FSK4_MAP
  | Si446x_MODEM_OOK_PDTC
  | Si446x_MODEM_OOK_CNT1
  | Si446x_MODEM_OOK_MISC
  | Si446x_MODEM_RAW_SEARCH
  | Si446x_MODEM_RAW_CONTROL
  | Si446x_MODEM_RAW_EYE
  | Si446x_MODEM_ANT_DIV_MODE
  | Si446x_MODEM_ANT_DIV_CONTROL
  | Si446x_MODEM_RSSI_COMP
  | Si446x_MODEM_TX_NCO_MODE
  | Si446x_MODEM_MOD_TYPE
  | Si446x_MODEM_CHFLT_RX1_CHFLT_COE13_7_0
  | Si446x_MODEM_CHFLT_RX1_CHFLT_COE12_7_0
  | Si446x_MODEM_CHFLT_RX1_CHFLT_COE11_7_0
  | Si446x_MODEM_CHFLT_RX1_CHFLT_COE10_7_0
  | Si446x_MODEM_CHFLT_RX1_CHFLT_COE9_7_0
  | Si446x_MODEM_CHFLT_RX1_CHFLT_COE8_7_0
  | Si446x_MODEM_CHFLT_RX1_CHFLT_COE7_7_0
  | Si446x_MODEM_CHFLT_RX1_CHFLT_COE6_7_0
  | Si446x_MODEM_CHFLT_RX1_CHFLT_COE5_7_0
  | Si446x_MODEM_CHFLT_RX1_CHFLT_COE4_7_0
  | Si446x_MODEM_CHFLT_RX1_CHFLT_COE3_7_0
  | Si446x_MODEM_CHFLT_RX1_CHFLT_COE2_7_0
  | Si446x_MODEM_CHFLT_RX1_CHFLT_COE1_7_0
  | Si446x_MODEM_CHFLT_RX1_CHFLT_COE0_7_0
  | Si446x_MODEM_CHFLT_RX1_CHFLT_COEM0
  | Si446x_MODEM_CHFLT_RX1_CHFLT_COEM1
  | Si446x_MODEM_CHFLT_RX1_CHFLT_COEM2
  | Si446x_MODEM_CHFLT_RX1_CHFLT_COEM3
  | Si446x_MODEM_DATA_RATE
  | Si446x_MODEM_RSSI_THRESH
  deriving DecidableEq, Repr

/-- Macros of the driver and RTOS headers. Their values are not visible in
the sources, so the embedding takes them as parameters. -/
structure Si446xDefs where
  /-- Reference clock in Hz, `Si446x_CCLK`. -/
  Si446x_CCLK : Nat
  /-- Oscillator selection flag, `Si446x_CLK_TCXO_EN`. -/
  Si446x_CLK_TCXO_EN : Nat
  /-- Address of each property, a 16 bit value. -/
  prop : PropertyName → Nat
  Si446x_REQUEST_DEVICE_STATE : Nat
  Si446x_FIFO_INFO : Nat
  Si446x_STATE_READY : Nat
  Si446x_STATE_RX : Nat
  Si446x_STATE_TX : Nat
  Si446x_MIN_FREQ : Nat
  Si446x_MAX_FREQ : Nat
  /-- Operating frequency of a channel, `pktComputeOperatingFrequency`. -/
  pktComputeOperatingFrequency : Nat → Nat → Nat → Nat
  /-- Conversion of seconds to system ticks, `TIME_S2I`. -/
  TIME_S2I : Nat → Nat

/-- Results of the two floating point expressions of
`Si446x_setBandParameters`; floating point is outside the embedding. -/
structure FloatUnit where
  /-- Value of `(uint32_t)(rest * 524288UL)` with
  `rest = (float)freq / (float)f_pfd - (float)n`. -/
  pll_m : (freq f_pfd n : Nat) → Nat
  /-- Value of `((((uint32_t)1 << 19) * outdiv * 1300.0)/(2*Si446x_CCLK))*2`
  converted to `uint32_t`. -/
  dev_x : (outdiv cclk : Nat) → Nat

/-- Inputs read from the surroundings, as streams. -/
structure Env where
  /-- Response bytes clocked in by the k-th `Si446x_read`. -/
  rxData : Nat → List Nat
  /-- Value of the k-th `Si446x_getCCA()`. -/
  cca : Nat → Nat
  /-- Value of the k-th `chVTGetSystemTime()`. -/
  time : Nat → Nat
  /-- Event mask returned by the k-th `chEvtWaitAnyTimeout`. -/
  evt : Nat → Nat

/-! ## State and effects -/

/-- Reasons for which the embedded code stops without a result. -/
inductive Halt
  | fuel
  | divZero
  | outOfBounds
  | nullPointer
  deriving DecidableEq, Repr

/-- Thread exit messages of the RTOS. -/
inductive msg_t
  | MSG_OK
  | MSG_TIMEOUT
  | MSG_RESET
  deriving DecidableEq, Repr

/-- Effects of the driver on its surroundings. -/
inductive Action
  | spiWrite (txData : List Nat)
  | spiRead (txData : List Nat) (rxData : List Nat)
  | chThdSleep (us : Nat)
  | pktConfigureRadioGPIO
  | pktDeconfigureRadioGPIO
  | pktAcquireRadio
  | pktReleaseRadio
  | chVTObjectInit
  | chVTSet (seconds : Nat)
  | chVTReset
  | chEvtWaitAnyTimeout (us : Nat) (evt : Nat)
  | pktReleaseSendObject
  | pktScheduleThreadRelease
  /-- The value of `lower` printed by the last `TRACE_INFO` of a feeder. -/
  | TRACE_lowest_free (lower : Nat)
  | chThdExit (msg : msg_t)
  deriving DecidableEq, Repr

/-- Radio unit state together with the file scope variables of the driver
and the cursors into the input streams. -/
structure RadioState where
  /-- Flag `handler->radio_init`. -/
  radio_init : Bool
  /-- Static `lastTemp`. -/
  lastTemp : Int
  phase_delta : Nat
  phase : Nat
  packet_pos : Nat
  current_sample_in_baud : Nat
  current_byte : Nat
  /-- Effects so far, oldest first. -/
  log : List Action
  /-- Number of `Si446x_read` transfers so far. -/
  nRead : Nat
  /-- Number of CCA samples so far. -/
  nCca : Nat
  /-- Number of clock readings so far. -/
  nTime : Nat
  /-- Number of event waits so far. -/
  nEvt : Nat

/-- State after power-up: nothing initialised, `lastTemp = 0x7FFF`. -/
def RadioState.powerUp : RadioState :=
  { radio_init := false, lastTemp := 0x7FFF, phase_delta := 0, phase := 0,
    packet_pos := 0, current_sample_in_baud := 0, current_byte := 0,
    log := [], nRead := 0, nCca := 0, nTime := 0, nEvt := 0 }

/-- Append one effect to the log. -/
def RadioState.emit (st : RadioState) (a : Action) : RadioState :=
  { st with log := st.log ++ [a] }

/-! ## SPI communication -/

/-- Model of `Si446x_write`: one command transfer. The clear-to-send poll that
precedes the transfer is part of the transfer. -/
def Si446x_write (st : RadioState) (txData : List Nat) : RadioState :=
  st.emit (.spiWrite txData)

/-- Model of `Si446x_read`: one command transfer followed by `rxlen` response bytes
taken from the surroundings. -/
def Si446x_read (env : Env) (st : RadioState) (txData : List Nat) (rxlen : Nat) :
    List Nat × RadioState :=
  let rxData := (List.range rxlen).map (fun i => (env.rxData st.nRead).getD i 0 % 256)
  (rxData, { st with log := st.log ++ [.spiRead txData rxData], nRead := st.nRead + 1 })

/-- Command bytes of `Si446x_setProperty8`. -/
def Si446x_setProperty8_msg (reg val : Nat) : List Nat :=
  [0x11, ((reg % 65536) >>> 8) &&& 0xFF, 0x01, reg % 65536 &&& 0xFF, val % 256]

/-- Command bytes of `Si446x_setProperty16`. -/
def Si446x_setProperty16_msg (reg val1 val2 : Nat) : List Nat :=
  [0x11, ((reg % 65536) >>> 8) &&& 0xFF, 0x02, reg % 65536 &&& 0xFF, val1 % 256, val2 % 256]

/-- Command bytes of `Si446x_setProperty24`. -/
def Si446x_setProperty24_msg (reg val1 val2 val3 : Nat) : List Nat :=
  [0x11, ((reg % 65536) >>> 8) &&& 0xFF, 0x03, reg % 65536 &&& 0xFF,
    val1 % 256, val2 % 256, val3 % 256]

/-- Command bytes of `Si446x_setProperty32`. -/
def Si446x_setProperty32_msg (reg val1 val2 val3 val4 : Nat) : List Nat :=
  [0x11, ((reg % 65536) >>> 8) &&& 0xFF, 0x04, reg % 65536 &&& 0xFF,
    val1 % 256, val2 % 256, val3 % 256, val4 % 256]

def Si446x_setProperty8 (st : RadioState) (reg val : Nat) : RadioState :=
  Si446x_write st (Si446x_setProperty8_msg reg val)

def Si446x_setProperty16 (st : RadioState) (reg val1 val2 : Nat) : RadioState :=
  Si446x_write st (Si446x_setProperty16_msg reg val1 val2)

def Si446x_setProperty24 (st : RadioState) (reg val1 val2 val3 : Nat) : RadioState :=
  Si446x_write st (Si446x_setProperty24_msg reg val1 val2 val3)

def Si446x_setProperty32 (st : RadioState) (reg val1 val2 val3 val4 : Nat) : RadioState :=
  Si446x_write st (Si446x_setProperty32_msg reg val1 val2 val3 val4)

/-! ## Initialisation -/

/-- Power-up and GPIO configuration commands at the start of `Si446x_init`. -/
def Si446x_init_power_up (cfg : Si446xDefs) : List Action :=
  let x3 := ((cfg.Si446x_CCLK % 2^32) >>> 24) &&& 0x0FF
  let x2 := ((cfg.Si446x_CCLK % 2^32) >>> 16) &&& 0x0FF
  let x1 := ((cfg.Si446x_CCLK % 2^32) >>> 8) &&& 0x0FF
  let x0 := ((cfg.Si446x_CCLK % 2^32) >>> 0) &&& 0x0FF
  [ Action.pktConfigureRadioGPIO,
    .spiWrite [0x02, 0x01, cfg.Si446x_CLK_TCXO_EN &&& 0x1, x3, x2, x1, x0],
    .chThdSleep 25000,
    .spiWrite [0x13, 0x00, 0x15, 0x21, 0x20, 0x1B, 0x0B, 0x00],
    .chThdSleep 25000 ]

/-- The write to `Si446x_GLOBAL_XO_TUNE`, compiled in when
`Si446x_CLK_TCXO_EN` is zero. -/
def Si446x_init_xo_tune (cfg : Si446xDefs) : List Action :=
  if cfg.Si446x_CLK_TCXO_EN = 0 then
    [Action.spiWrite (Si446x_setProperty8_msg (cfg.prop .Si446x_GLOBAL_XO_TUNE) 0x00)]
  else []

/-- Fast response register, interrupt and FIFO mode settings followed by the
FIFO reset. -/
def Si446x_init_fifo (cfg : Si446xDefs) : List Action :=
  [
    .spiWrite (Si446x_setProperty8_msg (cfg.prop .Si446x_FRR_CTL_A_MODE) 0x00),
    .spiWrite (Si446x_setProperty8_msg (cfg.prop .Si446x_FRR_CTL_B_MODE) 0x00),
    .spiWrite (Si446x_setProperty8_msg (cfg.prop .Si446x_FRR_CTL_C_MODE) 0x00),
    .spiWrite (Si446x_setProperty8_msg (cfg.prop .Si446x_FRR_CTL_D_MODE) 0x00),
    .spiWrite (Si446x_setProperty8_msg (cfg.prop .Si446x_INT_CTL_ENABLE) 0x00),
    .spiWrite (Si446x_setProperty8_msg (cfg.prop .Si446x_GLOBAL_CONFIG) 0x70),
    .spiWrite [0x15, 0x01] ]

/-- Baseline packet handler and modem registers. -/
def Si446x_init_modem (cfg : Si446xDefs) : List Action :=
  [
    .spiWrite (Si446x_setProperty8_msg (cfg.prop .Si446x_PREAMBLE_TX_LENGTH) 0x00),
    .spiWrite (Si446x_setProperty8_msg (cfg.prop .Si446x_SYNC_CONFIG) 0x80),
    .spiWrite (Si446x_setProperty8_msg (cfg.prop .Si446x_GLOBAL_CLK_CFG) 0x00),
    .spiWrite (Si446x_setProperty8_msg (cfg.prop .Si446x_MODEM_RSSI_CONTROL) 0x00),
    .spiWrite (Si446x_setProperty8_msg (cfg.prop .Si446x_PREAMBLE_CONFIG_STD_1) 0x14),
    .spiWrite (Si446x_setProperty8_msg (cfg.prop .Si446x_PKT_CONFIG1) 0x41),
    .spiWrite (Si446x_setProperty8_msg (cfg.prop .Si446x_MODEM_MAP_CONTROL) 0x00),
    .spiWrite (Si446x_setProperty8_msg (cfg.prop .Si446x_MODEM_DSM_CTRL) 0x07),
    .spiWrite (Si446x_setProperty8_msg (cfg.prop .Si446x_MODEM_CLKGEN_BAND) 0x0D),
    .spiWrite (Si446x_setProperty24_msg (cfg.prop .Si446x_MODEM_FREQ_DEV) 0x00 0x00 0x79),
    .spiWrite (Si446x_setProperty8_msg (cfg.prop .Si446x_MODEM_TX_RAMP_DELAY) 0x01),
    .spiWrite (Si446x_setProperty8_msg (cfg.prop .Si446x_PA_TC) 0x3D),
    .spiWrite (Si446x_setProperty8_msg (cfg.prop .Si446x_FREQ_CONTROL_INTE) 0x41),
    .spiWrite (Si446x_setProperty24_msg (cfg.prop .Si446x_FREQ_CONTROL_FRAC) 0x0B 0xB1 0x3B),
    .spiWrite (Si446x_setProperty16_msg (cfg.prop .Si446x_FREQ_CONTROL_CHANNEL_STEP_SIZE) 0x0B 0xD1),
    .spiWrite (Si446x_setProperty8_msg (cfg.prop .Si446x_FREQ_CONTROL_W_SIZE) 0x20),
    .spiWrite (Si446x_setProperty8_msg (cfg.prop .Si446x_FREQ_CONTROL_VCOCNT_RX_ADJ) 0xFA),
    .spiWrite (Si446x_setProperty8_msg (cfg.prop .Si446x_MODEM_MDM_CTRL) 0x80),
    .spiWrite (Si446x_setProperty8_msg (cfg.prop .Si446x_MODEM_IF_CONTROL) 0x08),
    .spiWrite (Si446x_setProperty24_msg (cfg.prop .Si446x_MODEM_IF_FREQ) 0x02 0x80 0x00),
    .spiWrite (Si446x_setProperty8_msg (cfg.prop .Si446x_MODEM_DECIMATION_CFG1) 0x70),
    .spiWrite (Si446x_setProperty8_msg (cfg.prop .Si446x_MODEM_DECIMATION_CFG0) 0x10),
    .spiWrite (Si446x_setProperty16_msg (cfg.prop .Si446x_MODEM_BCR_OSR) 0x01 0xC3),
    .spiWrite (Si446x_setProperty24_msg (cfg.prop .Si446x_MODEM_BCR_NCO_OFFSET) 0x01 0x22 0x60),
    .spiWrite (Si446x_setProperty16_msg (cfg.prop .Si446x_MODEM_BCR_GAIN) 0x00 0x91),
    .spiWrite (Si446x_setProperty8_msg (cfg.prop .Si446x_MODEM_BCR_GEAR) 0x00),
    .spiWrite (Si446x_setProperty8_msg (cfg.prop .Si446x_MODEM_BCR_MISC1) 0xC2),
    .spiWrite (Si446x_setProperty8_msg (cfg.prop .Si446x_MODEM_AFC_GEAR) 0x54),
    .spiWrite (Si446x_setProperty8_msg (cfg.prop .Si446x_MODEM_AFC_WAIT) 0x36),
    .spiWrite (Si446x_setProperty16_msg (cfg.prop .Si446x_MODEM_AFC_GAIN) 0x80 0xAB),
    .spiWrite (Si446x_setProperty16_msg (cfg.prop .Si446x_MODEM_AFC_LIMITER) 0x02 0x50),
    .spiWrite (Si446x_setProperty8_msg (cfg.prop .Si446x_MODEM_AFC_MISC) 0x80),
    .spiWrite (Si446x_setProperty8_msg (cfg.prop .Si446x_MODEM_AGC_CONTROL) 0xE2),
    .spiWrite (Si446x_setProperty8_msg (cfg.prop .Si446x_MODEM_AGC_WINDOW_SIZE) 0x11),
    .spiWrite (Si446x_setProperty8_msg (cfg.prop .Si446x_MODEM_AGC_RFPD_DECAY) 0x63),
    .spiWrite (Si446x_setProperty8_msg (cfg.prop .Si446x_MODEM_AGC_IFPD_DECAY) 0x63),
    .spiWrite (Si446x_setProperty8_msg (cfg.prop .Si446x_MODEM_FSK4_GAIN1) 0x00),
    .spiWrite (Si446x_setProperty8_msg (cfg.prop .Si446x_MODEM_FSK4_GAIN0) 0x02),
    .spiWrite (Si446x_setProperty16_msg (cfg.prop .Si446x_MODEM_FSK4_TH) 0x35 0x55),
    .spiWrite (Si446x_setProperty8_msg (cfg.prop .Si446x_MODEM_FSK4_MAP) 0x00),
    .spiWrite (Si446x_setProperty8_msg (cfg.prop .Si446x_MODEM_OOK_PDTC) 0x2A),
    .spiWrite (Si446x_setProperty8_msg (cfg.prop .Si446x_MODEM_OOK_CNT1) 0x85),
    .spiWrite (Si446x_setProperty8_msg (cfg.prop .Si446x_MODEM_OOK_MISC) 0x23),
    .spiWrite (Si446x_setProperty8_msg (cfg.prop .Si446x_MODEM_RAW_SEARCH) 0xD6),
    .spiWrite (Si446x_setProperty8_msg (cfg.prop .Si446x_MODEM_RAW_CONTROL) 0x8F),
    .spiWrite (Si446x_setProperty16_msg (cfg.prop .Si446x_MODEM_RAW_EYE) 0x00 0x3B),
    .spiWrite (Si446x_setProperty8_msg (cfg.prop .Si446x_MODEM_ANT_DIV_MODE) 0x01),
    .spiWrite (Si446x_setProperty8_msg (cfg.prop .Si446x_MODEM_ANT_DIV_CONTROL) 0x80),
    .spiWrite (Si446x_setProperty8_msg (cfg.prop .Si446x_MODEM_RSSI_COMP) 0x40) ]

/-- Effects of `Si446x_init`, in program order. -/
def Si446x_init_actions (cfg : Si446xDefs) : List Action :=
  Si446x_init_power_up cfg ++ Si446x_init_xo_tune cfg ++ Si446x_init_fifo cfg
    ++ Si446x_init_modem cfg

/-- Model of `Si446x_init`: configure the chip and set `radio_init`. -/
def Si446x_init (cfg : Si446xDefs) (st : RadioState) : RadioState :=
  { st with log := st.log ++ Si446x_init_actions cfg, radio_init := true }

/-- Model of `Si446x_conditional_init`: initialise unless already done. -/
def Si446x_conditional_init (cfg : Si446xDefs) (st : RadioState) : RadioState :=
  if !st.radio_init then Si446x_init cfg st else st

/-! ## Band, frequency and power settings -/

/-- Output divider and band code chosen by `Si446x_setBandParameters`
(the five threshold tests on the frequency, in program order). -/
def Si446x_selectBand (freq : Nat) : Nat × Nat :=
  let ob : Nat × Nat := (0, 0)
  let ob := if freq < 705000000 then (6, 1) else ob
  let ob := if freq < 525000000 then (8, 2) else ob
  let ob := if freq < 353000000 then (12, 3) else ob
  let ob := if freq < 239000000 then (16, 4) else ob
  let ob := if freq < 177000000 then (24, 5) else ob
  ob

/-- The band command `set_band_property_command`. -/
def set_band_property_command (band : Nat) : List Nat :=
  [0x11, 0x20, 0x01, 0x51, (band + 8) % 256]

/-- The frequency command `set_frequency_property_command`: PLL integer `n`,
the three bytes of the fraction `m` and the two bytes of the channel step,
for the phase detector frequency `f_pfd` and `cclk2 = 2 * Si446x_CCLK`. -/
def set_frequency_property_command (fl : FloatUnit) (freq step outdiv cclk2 f_pfd : Nat) :
    List Nat :=
  let n := (freq / f_pfd + 2^32 - 1) % 2^32
  let m := fl.pll_m freq f_pfd n % 2^32
  let m2 := m >>> 16
  let m1 := (m - m2 * 0x10000) >>> 8
  let m0 := m - m2 * 0x10000 - (m1 <<< 8)
  let channel_increment := (524288 * outdiv * (step % 65536) % 2^32) / cclk2
  let c1 := channel_increment / 0x100 % 256
  let c0 := (channel_increment + 2^32 - 0x100 * c1) % 2^32 % 256
  [0x11, 0x40, 0x04, 0x00, n % 256, m2 % 256, m1 % 256, m0 % 256, c1, c0]

/-- The deviation command `set_deviation`. -/
def set_deviation (fl : FloatUnit) (outdiv cclk2 : Nat) : List Nat :=
  let x := fl.dev_x outdiv cclk2 % 2^32
  let x2 := (x >>> 16) &&& 0xFF
  let x1 := (x >>> 8) &&& 0xFF
  let x0 := (x >>> 0) &&& 0xFF
  [0x11, 0x20, 0x03, 0x0a, x2, x1, x0]

/-- Model of `Si446x_setBandParameters`: range check, band selection, then the band,
frequency and deviation commands. The unsigned divisions by `outdiv`, by
`f_pfd` and by `2 * Si446x_CCLK` stop with `Halt.divZero` when the divisor is
zero. -/
def Si446x_setBandParameters (cfg : Si446xDefs) (fl : FloatUnit) (st : RadioState)
    (freq step : Nat) : Except Halt (Bool × RadioState) :=
  if freq < 144000000 ∨ freq > 900000000 then .ok (false, st) else
  let outdiv := (Si446x_selectBand freq).1
  let band := (Si446x_selectBand freq).2
  let st := Si446x_conditional_init cfg st
  let st := Si446x_write st (set_band_property_command band)
  let cclk2 := 2 * (cfg.Si446x_CCLK % 2^32) % 2^32
  if outdiv = 0 then .error .divZero else
  let f_pfd := cclk2 / outdiv
  if f_pfd = 0 then .error .divZero else
  if cclk2 = 0 then .error .divZero else
  let st := Si446x_write st (set_frequency_property_command fl freq step outdiv cclk2 f_pfd)
  let st := Si446x_write st (set_deviation fl outdiv cclk2)
  .ok (true, st)

/-- Model of `Si446x_setPowerLevel`. -/
def Si446x_setPowerLevel (st : RadioState) (level : Nat) : RadioState :=
  Si446x_write st [0x11, 0x22, 0x01, 0x01, level % 256]

/-! ## Modulation settings -/

/-- The nine filter coefficient writes shared by the two transmit modems:
`{0x11, 0x20, 0x01, 0x17-i, coeff[i]}` for `i = 0 .. 8`. -/
def Si446x_filter_actions (coeff : List Nat) : List Action :=
  (List.range coeff.length).map
    (fun i => Action.spiWrite [0x11, 0x20, 0x01, (0x17 + 256 - i) % 256, coeff.getD i 0])

/-- Model of `Si446x_setModemAFSK_TX`. -/
def Si446x_setModemAFSK_TX (cfg : Si446xDefs) (st : RadioState) : RadioState :=
  let s := cfg.Si446x_CCLK % 2^32 / 10
  let f3 := (s >>> 24) &&& 0xFF
  let f2 := (s >>> 16) &&& 0xFF
  let f1 := (s >>> 8) &&& 0xFF
  let f0 := (s >>> 0) &&& 0xFF
  let st := Si446x_setProperty32 st (cfg.prop .Si446x_MODEM_TX_NCO_MODE) f3 f2 f1 f0
  let st := Si446x_setProperty24 st (cfg.prop .Si446x_MODEM_DATA_RATE) 0x00 0x33 0x90
  let st := Si446x_setProperty8 st (cfg.prop .Si446x_MODEM_MOD_TYPE) 0x02
  { st with log := st.log ++
      Si446x_filter_actions [0x81, 0x9f, 0xc4, 0xee, 0x18, 0x3e, 0x5c, 0x70, 0x76] }

/-- Effects of `Si446x_setModemAFSK_RX`. -/
def Si446x_setModemAFSK_RX_actions (cfg : Si446xDefs) : List Action :=
  [
    .spiWrite (Si446x_setProperty8_msg (cfg.prop .Si446x_MODEM_MOD_TYPE) 0x0A),
    .spiWrite (Si446x_setProperty8_msg (cfg.prop .Si446x_MODEM_CHFLT_RX1_CHFLT_COE13_7_0) 0xFF),
    .spiWrite (Si446x_setProperty8_msg (cfg.prop .Si446x_MODEM_CHFLT_RX1_CHFLT_COE12_7_0) 0xC4),
    .spiWrite (Si446x_setProperty8_msg (cfg.prop .Si446x_MODEM_CHFLT_RX1_CHFLT_COE11_7_0) 0x30),
    .spiWrite (Si446x_setProperty8_msg (cfg.prop .Si446x_MODEM_CHFLT_RX1_CHFLT_COE10_7_0) 0x7F),
    .spiWrite (Si446x_setProperty8_msg (cfg.prop .Si446x_MODEM_CHFLT_RX1_CHFLT_COE9_7_0) 0x5F),
    .spiWrite (Si446x_setProperty8_msg (cfg.prop .Si446x_MODEM_CHFLT_RX1_CHFLT_COE8_7_0) 0xB5),
    .spiWrite (Si446x_setProperty8_msg (cfg.prop .Si446x_MODEM_CHFLT_RX1_CHFLT_COE7_7_0) 0xB8),
    .spiWrite (Si446x_setProperty8_msg (cfg.prop .Si446x_MODEM_CHFLT_RX1_CHFLT_COE6_7_0) 0xDE),
    .spiWrite (Si446x_setProperty8_msg (cfg.prop .Si446x_MODEM_CHFLT_RX1_CHFLT_COE5_7_0) 0x05),
    .spiWrite (Si446x_setProperty8_msg (cfg.prop .Si446x_MODEM_CHFLT_RX1_CHFLT_COE4_7_0) 0x17),
    .spiWrite (Si446x_setProperty8_msg (cfg.prop .Si446x_MODEM_CHFLT_RX1_CHFLT_COE3_7_0) 0x16),
    .spiWrite (Si446x_setProperty8_msg (cfg.prop .Si446x_MODEM_CHFLT_RX1_CHFLT_COE2_7_0) 0x0C),
    .spiWrite (Si446x_setProperty8_msg (cfg.prop .Si446x_MODEM_CHFLT_RX1_CHFLT_COE1_7_0) 0x03),
    .spiWrite (Si446x_setProperty8_msg (cfg.prop .Si446x_MODEM_CHFLT_RX1_CHFLT_COE0_7_0) 0x00),
    .spiWrite (Si446x_setProperty8_msg (cfg.prop .Si446x_MODEM_CHFLT_RX1_CHFLT_COEM0) 0x15),
    .spiWrite (Si446x_setProperty8_msg (cfg.prop .Si446x_MODEM_CHFLT_RX1_CHFLT_COEM1) 0xFF),
    .spiWrite (Si446x_setProperty8_msg (cfg.prop .Si446x_MODEM_CHFLT_RX1_CHFLT_COEM2) 0x00),
    .spiWrite (Si446x_setProperty8_msg (cfg.prop .Si446x_MODEM_CHFLT_RX1_CHFLT_COEM3) 0x00) ]

/-- Model of `Si446x_setModemAFSK_RX`. -/
def Si446x_setModemAFSK_RX (cfg : Si446xDefs) (st : RadioState) : RadioState :=
  { st with log := st.log ++ Si446x_setModemAFSK_RX_actions cfg }

/-- Model of `Si446x_setModem2FSK_TX`. -/
def Si446x_setModem2FSK_TX (cfg : Si446xDefs) (st : RadioState) (speed : Nat) : RadioState :=
  let s := cfg.Si446x_CCLK % 2^32 / 10
  let f3 := (s >>> 24) &&& 0xFF
  let f2 := (s >>> 16) &&& 0xFF
  let f1 := (s >>> 8) &&& 0xFF
  let f0 := (s >>> 0) &&& 0xFF
  let st := Si446x_setProperty32 st (cfg.prop .Si446x_MODEM_TX_NCO_MODE) f3 f2 f1 f0
  let st := Si446x_setProperty24 st (cfg.prop .Si446x_MODEM_DATA_RATE)
    ((speed % 2^32) >>> 16) ((speed % 2^32) >>> 8) (speed % 2^32)
  let st := Si446x_setProperty8 st (cfg.prop .Si446x_MODEM_MOD_TYPE) 0x03
  { st with log := st.log ++
      Si446x_filter_actions [0x01, 0x03, 0x08, 0x11, 0x21, 0x36, 0x4d, 0x60, 0x67] }

/-! ## FIFO and chip state -/

/-- Model of `Si446x_writeFIFO`: opcode `0x66` followed by `size` bytes of `msg`. -/
def Si446x_writeFIFO (st : RadioState) (msg : List Nat) (size : Nat) : RadioState :=
  Si446x_write st (0x66 :: msg.take (size % 256))

/-- Model of `Si446x_getTXfreeFIFO`: fourth response byte of the FIFO info request. -/
def Si446x_getTXfreeFIFO (cfg : Si446xDefs) (env : Env) (st : RadioState) :
    Nat × RadioState :=
  let r := Si446x_read env st [cfg.Si446x_FIFO_INFO % 256, 0x00] 4
  (r.1.getD 3 0, r.2)

/-- Model of `Si446x_getState`: low nibble of the third response byte of the device
state request. -/
def Si446x_getState (cfg : Si446xDefs) (env : Env) (st : RadioState) : Nat × RadioState :=
  let r := Si446x_read env st [cfg.Si446x_REQUEST_DEVICE_STATE % 256] 4
  (r.1.getD 2 0 &&& 0xF, r.2)

/-- The START_TX command of `Si446x_setTXState`. -/
def Si446x_setTXState_msg (cfg : Si446xDefs) (chan size : Nat) : List Nat :=
  [0x31, chan % 256, (cfg.Si446x_STATE_READY <<< 4) % 256,
    ((size % 65536) >>> 8) &&& 0x1F, size % 65536 &&& 0xFF]

/-- Model of `Si446x_setTXState`. -/
def Si446x_setTXState (cfg : Si446xDefs) (st : RadioState) (chan size : Nat) : RadioState :=
  Si446x_write st (Si446x_setTXState_msg cfg chan size)

/-- Model of `Si446x_setReadyState`. -/
def Si446x_setReadyState (st : RadioState) : RadioState :=
  Si446x_write st [0x34, 0x03]

/-- Model of `Si446x_setRXState`. -/
def Si446x_setRXState (st : RadioState) (chan : Nat) : RadioState :=
  Si446x_write st [0x32, chan % 256, 0x00, 0x00, 0x00, 0x00, 0x08, 0x08]

/-- Model of `Si446x_shutdown`. -/
def Si446x_shutdown (st : RadioState) : RadioState :=
  { st.emit Action.pktDeconfigureRadioGPIO with radio_init := false }

/-- Model of `chThdSleep` with the delay in microseconds. -/
def chThdSleep (st : RadioState) (us : Nat) : RadioState :=
  st.emit (.chThdSleep us)

/-- Model of `chVTGetSystemTime`. -/
def chVTGetSystemTime (env : Env) (st : RadioState) : Nat × RadioState :=
  (env.time st.nTime % 2^32, { st with nTime := st.nTime + 1 })

/-! ## Transmit and receive -/

/-- Model of `Si446x_isRadioInBand`. -/
def Si446x_isRadioInBand (cfg : Si446xDefs) (freq : Nat) : Bool :=
  decide (cfg.Si446x_MIN_FREQ ≤ freq) && decide (freq < cfg.Si446x_MAX_FREQ)

/-- The sampling loop of `Si446x_getLatchedCCA`: `n` samples, 100 us apart,
summed into the 16 bit counter `cca`. -/
def Si446x_sampleCCA (env : Env) : Nat → Nat → RadioState → Nat × RadioState
  | 0, cca, st => (cca, st)
  | n + 1, cca, st =>
    let cca := (cca + env.cca st.nCca) % 65536
    Si446x_sampleCCA env n cca (chThdSleep { st with nCca := st.nCca + 1 } 100)

/-- Model of `Si446x_getLatchedCCA`: `ms * 10` samples, busy when more than `ms` of
them are set. -/
def Si446x_getLatchedCCA (env : Env) (st : RadioState) (ms : Nat) : Bool × RadioState :=
  let r := Si446x_sampleCCA env ((ms % 256) * 10) 0 st
  (decide (r.1 > ms % 256), r.2)

/-- The condition
`Si446x_getState(radio) != Si446x_STATE_RX || Si446x_getLatchedCCA(radio, 50)`
of `Si446x_transmit`; the CCA is sampled only when the chip is in RX. -/
def Si446x_channelBusy (cfg : Si446xDefs) (env : Env) (st : RadioState) : Bool × RadioState :=
  let r := Si446x_getState cfg env st
  if r.1 ≠ cfg.Si446x_STATE_RX then (true, r.2) else Si446x_getLatchedCCA env r.2 50

/-- The clear channel wait loop of `Si446x_transmit`: repeat while the
channel is busy and less than `sql_timeout` ticks have passed since `t0`. -/
def Si446x_waitClearChannel (cfg : Si446xDefs) (env : Env) (t0 sql_timeout : Nat) :
    Nat → RadioState → Except Halt RadioState
  | 0, _ => .error .fuel
  | fuel + 1, st =>
    let b := Si446x_channelBusy cfg env st
    if b.1 then
      let t := chVTGetSystemTime env b.2
      if (t.1 + 2^32 - t0) % 2^32 < sql_timeout then
        Si446x_waitClearChannel cfg env t0 sql_timeout fuel (chThdSleep t.2 100)
      else .ok t.2
    else .ok b.2

/-- The loop `while(Si446x_getState(radio) != Si446x_STATE_TX)` of
`Si446x_transmit`. -/
def Si446x_waitTXState (cfg : Si446xDefs) (env : Env) : Nat → RadioState → Except Halt RadioState
  | 0, _ => .error .fuel
  | fuel + 1, st =>
    let r := Si446x_getState cfg env st
    if r.1 ≠ cfg.Si446x_STATE_TX then Si446x_waitTXState cfg env fuel (chThdSleep r.2 500)
    else .ok r.2

/-- Model of `Si446x_transmit`: wait for a clear channel, then start the
transmission. -/
def Si446x_transmit (cfg : Si446xDefs) (fl : FloatUnit) (env : Env) (fuel : Nat)
    (st : RadioState) (freq step chan power size rssi sql_timeout : Nat) :
    Except Halt (Bool × RadioState) :=
  let op_freq := cfg.pktComputeOperatingFrequency freq step chan
  if !Si446x_isRadioInBand cfg op_freq then .ok (false, st) else
  let r := Si446x_getState cfg env st
  let st := if r.1 = cfg.Si446x_STATE_RX then chThdSleep (Si446x_setReadyState r.2) 1000
            else r.2
  let st := Si446x_setProperty8 st (cfg.prop .Si446x_MODEM_RSSI_THRESH) rssi
  match Si446x_setBandParameters cfg fl st freq step with
  | .error e => .error e
  | .ok (_, st) =>
    let st := Si446x_setRXState st chan
    let b := Si446x_channelBusy cfg env st
    let waited :=
      if b.1 then
        let t0 := chVTGetSystemTime env b.2
        Si446x_waitClearChannel cfg env t0.1 sql_timeout fuel t0.2
      else .ok b.2
    match waited with
    | .error e => .error e
    | .ok st =>
      let st := Si446x_setReadyState st
      let st := Si446x_setPowerLevel st power
      let st := Si446x_setTXState cfg st chan size
      match Si446x_waitTXState cfg env fuel st with
      | .error e => .error e
      | .ok st => .ok (true, st)

/-- The loop `while(Si446x_getState(radio) == Si446x_STATE_RX);` of
`Si446x_pauseReceive`. -/
def Si446x_pauseReceive_wait (cfg : Si446xDefs) (env : Env) :
    Nat → RadioState → Except Halt RadioState
  | 0, _ => .error .fuel
  | fuel + 1, st =>
    let r := Si446x_getState cfg env st
    if r.1 = cfg.Si446x_STATE_RX then Si446x_pauseReceive_wait cfg env fuel r.2
    else .ok r.2

/-- Model of `Si446x_pauseReceive`. -/
def Si446x_pauseReceive (cfg : Si446xDefs) (env : Env) (fuel : Nat) (st : RadioState) :
    Except Halt RadioState :=
  let r := Si446x_getState cfg env st
  if r.1 = cfg.Si446x_STATE_RX then
    Si446x_pauseReceive_wait cfg env fuel (Si446x_setReadyState r.2)
  else .ok r.2

/-! ## AFSK up-sampler -/

def PLAYBACK_RATE : Nat := 13200
def BAUD_RATE : Nat := 1200
def SAMPLES_PER_BAUD : Nat := PLAYBACK_RATE / BAUD_RATE
def PHASE_DELTA_1200 : Nat := ((2 * 1200) <<< 16) / PLAYBACK_RATE
def PHASE_DELTA_2200 : Nat := ((2 * 2200) <<< 16) / PLAYBACK_RATE

/-- One pass through the body of the `for` loop of
`Si446x_getUpsampledAFSKbits`: sample `i` of the output byte `b`. Reading
`buf` past its end stops with `Halt.outOfBounds`. -/
def Si446x_upsampleStep (buf : List Nat) (i b : Nat) (st : RadioState) :
    Except Halt (Nat × RadioState) :=
  let loaded : Option Nat :=
    if st.current_sample_in_baud = 0 then
      if st.packet_pos &&& 7 = 0 then buf[st.packet_pos >>> 3]?
      else some (st.current_byte / 2)
    else some st.current_byte
  match loaded with
  | none => .error .outOfBounds
  | some current_byte =>
    let phase_delta := if current_byte &&& 1 ≠ 0 then PHASE_DELTA_1200 else PHASE_DELTA_2200
    let phase := (st.phase + phase_delta) % 2^32
    let b := (b ||| (((phase >>> 16) &&& 1) <<< i)) % 256
    let current_sample_in_baud := (st.current_sample_in_baud + 1) % 2^32
    if current_sample_in_baud = SAMPLES_PER_BAUD then
      .ok (b, { st with current_byte := current_byte, phase_delta := phase_delta,
                        phase := phase, current_sample_in_baud := 0,
                        packet_pos := (st.packet_pos + 1) % 2^32 })
    else
      .ok (b, { st with current_byte := current_byte, phase_delta := phase_delta,
                        phase := phase, current_sample_in_baud := current_sample_in_baud })

/-- The `for` loop of `Si446x_getUpsampledAFSKbits` with `n` passes left,
the next one for sample `i`. -/
def Si446x_upsampleLoop (buf : List Nat) : Nat → Nat → Nat → RadioState →
    Except Halt (Nat × RadioState)
  | 0, _, b, st => .ok (b, st)
  | n + 1, i, b, st =>
    match Si446x_upsampleStep buf i b st with
    | .error e => .error e
    | .ok (b, st) => Si446x_upsampleLoop buf n (i + 1) b st

/-- Model of `Si446x_getUpsampledAFSKbits`: the next eight modulation samples. -/
def Si446x_getUpsampledAFSKbits (buf : List Nat) (st : RadioState) :
    Except Halt (Nat × RadioState) :=
  Si446x_upsampleLoop buf 8 0 0 st

/-! ## FIFO feeder threads -/

/-- Fields of the packet object read by the feeders. -/
structure packet_t where
  radio : Nat
  base_frequency : Nat
  radio_step : Nat
  radio_chan : Nat
  radio_pwr : Nat
  cca_rssi : Nat
  tx_seq : Nat

/-- The stream encoder as set up by `pktStreamIteratorInit` for one packet;
its code is not part of the sources. -/
structure StreamEncoder where
  /-- Result of the sizing call `pktStreamEncodingIterator(&iterator, NULL, 0)`. -/
  size : Nat
  /-- Byte `i` written by the encoding call. -/
  byte : Nat → Nat

/-- Length `all` reported by the sizing pass, a 16 bit value. -/
def StreamEncoder.all (enc : StreamEncoder) : Nat := enc.size % 65536

/-- The buffer `layer0` after the encoding pass. -/
def StreamEncoder.layer0 (enc : StreamEncoder) : List Nat :=
  (List.range enc.all).map (fun i => enc.byte i % 256)

/-- The loops `for(i = 0; i < n; i++) localBuffer[i] =
Si446x_getUpsampledAFSKbits(layer0);` of the AFSK feeder. The capacity of
`localBuffer` is a header constant and is not modelled. -/
def Si446x_loadLocalBuffer (layer0 : List Nat) : Nat → RadioState →
    Except Halt (List Nat × RadioState)
  | 0, st => .ok ([], st)
  | n + 1, st =>
    match Si446x_getUpsampledAFSKbits layer0 st with
    | .error e => .error e
    | .ok (b, st) =>
      match Si446x_loadLocalBuffer layer0 n st with
      | .error e => .error e
      | .ok (bs, st) => .ok (b :: bs, st)

/-- One `chEvtWaitAnyTimeout(SI446X_EVT_AFSK_TX_TIMEOUT, ...)`. -/
def chEvtWaitAnyTimeout (env : Env) (st : RadioState) (us : Nat) : Nat × RadioState :=
  (env.evt st.nEvt,
   { st with log := st.log ++ [.chEvtWaitAnyTimeout us (env.evt st.nEvt)],
             nEvt := st.nEvt + 1 })

/-- State of a feed loop when it is left. -/
structure FeedState where
  exit_msg : msg_t
  c : Nat
  lower : Nat
  st : RadioState

/-- The feed loop `while((all - c) > 0)` of the AFSK feeder. -/
def afsk_feed_loop (cfg : Si446xDefs) (env : Env) (layer0 : List Nat) (all : Nat) :
    Nat → Nat → Nat → RadioState → Except Halt FeedState
  | 0, _, _, _ => .error .fuel
  | fuel + 1, c, lower, st =>
    if c < all then
      let f := Si446x_getTXfreeFIFO cfg env st
      let more := f.1
      let lower := if more > lower then more else lower
      let more := if more > all - c then (all - c) % 256 else more
      match Si446x_loadLocalBuffer layer0 more f.2 with
      | .error e => .error e
      | .ok (localBuffer, st) =>
        let st := Si446x_writeFIFO st localBuffer more
        let c := (c + more) % 65536
        let w := chEvtWaitAnyTimeout env st (833 * 8)
        if w.1 ≠ 0 then
          .ok { exit_msg := .MSG_TIMEOUT, c := c, lower := lower,
                st := Si446x_setReadyState w.2 }
        else afsk_feed_loop cfg env layer0 all fuel c lower w.2
    else .ok { exit_msg := .MSG_OK, c := c, lower := lower, st := st }

/-- The feed loop `while((all - c) > 0)` of the 2FSK feeder; `bufp` is the
offset of the read pointer into `layer0`. -/
def fsk_feed_loop (cfg : Si446xDefs) (env : Env) (layer0 : List Nat) (all : Nat) :
    Nat → Nat → Nat → Nat → RadioState → Except Halt FeedState
  | 0, _, _, _, _ => .error .fuel
  | fuel + 1, bufp, c, lower, st =>
    if c < all then
      let f := Si446x_getTXfreeFIFO cfg env st
      let more := f.1
      let lower := if more > lower then more else lower
      let more := if more > all - c then (all - c) % 256 else more
      let st := Si446x_writeFIFO f.2 (layer0.drop bufp) more
      let bufp := bufp + more
      let c := (c + more) % 65536
      let w := chEvtWaitAnyTimeout env st (104 * 8 * 10)
      if w.1 ≠ 0 then
        .ok { exit_msg := .MSG_TIMEOUT, c := c, lower := lower,
              st := Si446x_setReadyState w.2 }
      else fsk_feed_loop cfg env layer0 all fuel bufp c lower w.2
    else .ok { exit_msg := .MSG_OK, c := c, lower := lower, st := st }

/-- The completion wait
`while(Si446x_getState(radio) == Si446x_STATE_TX && exit_msg == MSG_OK)`
of the feeders, sleeping `us` microseconds per pass. -/
def feeder_wait_tx_end (cfg : Si446xDefs) (env : Env) (exit_msg : msg_t) (us : Nat) :
    Nat → RadioState → Except Halt RadioState
  | 0, _ => .error .fuel
  | fuel + 1, st =>
    let r := Si446x_getState cfg env st
    if r.1 = cfg.Si446x_STATE_TX ∧ exit_msg = .MSG_OK then
      feeder_wait_tx_end cfg env exit_msg us fuel (chThdSleep r.2 us)
    else .ok r.2

/-- The end of both feeders, from `chVTReset(&send_timer)` to
`chThdExit(exit_msg)`. -/
def feeder_finish (cfg : Si446xDefs) (env : Env) (fuel us : Nat) (fs : FeedState) :
    Except Halt (msg_t × RadioState) :=
  let st := fs.st.emit .chVTReset
  match feeder_wait_tx_end cfg env fs.exit_msg us fuel st with
  | .error e => .error e
  | .ok st =>
    let st := st.emit (.TRACE_lowest_free fs.lower)
    let st := st.emit .pktReleaseSendObject
    let st := st.emit .pktScheduleThreadRelease
    .ok (fs.exit_msg, st.emit (.chThdExit fs.exit_msg))

/-- The exit taken by both feeders when the sizing pass reports no data. -/
def feeder_no_data (st : RadioState) : msg_t × RadioState :=
  let st := st.emit .pktReleaseSendObject
  let st := st.emit .pktScheduleThreadRelease
  (.MSG_RESET, st.emit (.chThdExit .MSG_RESET))

/-- The assignments with which `min_si_fifo_feeder_afsk` initialises the
variables of the up-sampler. -/
def afsk_upsampler_reset (st : RadioState) : RadioState :=
  { st with phase_delta := PHASE_DELTA_1200, phase := 0, packet_pos := 0,
            current_sample_in_baud := 0, current_byte := 0 }

/-- First part of `min_si_fifo_feeder_afsk`, from `pktAcquireRadio` to
`chVTObjectInit`: take the radio and configure the chip for AFSK. -/
def afsk_feeder_setup (cfg : Si446xDefs) (fl : FloatUnit) (env : Env) (fuel : Nat)
    (pp : packet_t) (st : RadioState) : Except Halt RadioState :=
  let st := st.emit .pktAcquireRadio
  let st := Si446x_conditional_init cfg st
  match Si446x_setBandParameters cfg fl st pp.base_frequency pp.radio_step with
  | .error e => .error e
  | .ok (_, st) =>
    match Si446x_pauseReceive cfg env fuel st with
    | .error e => .error e
    | .ok st =>
      let st := Si446x_setModemAFSK_TX cfg st
      .ok (st.emit .chVTObjectInit)

/-- Second part of `min_si_fifo_feeder_afsk` for a non-empty stream, from the
encoding pass to `chThdExit(exit_msg)`; `all` is the length reported by the
sizing pass. -/
def afsk_feeder_send (cfg : Si446xDefs) (fl : FloatUnit) (env : Env) (layer0 : List Nat)
    (all : Nat) (fuel : Nat) (pp : packet_t) (st : RadioState) :
    Except Halt (msg_t × RadioState) :=
  let all := all * SAMPLES_PER_BAUD % 65536
  let st := Si446x_write st [0x15, 0x01]
  let st := afsk_upsampler_reset st
  let f := Si446x_getTXfreeFIFO cfg env st
  let free := f.1
  let c := if all > free then free else all
  let st := f.2.emit (.chVTSet 10)
  match Si446x_loadLocalBuffer layer0 c st with
  | .error e => .error e
  | .ok (localBuffer, st) =>
    let st := Si446x_writeFIFO st localBuffer c
    let lower := 0
    match Si446x_transmit cfg fl env fuel st pp.base_frequency pp.radio_step
        pp.radio_chan pp.radio_pwr all pp.cca_rssi (cfg.TIME_S2I 10) with
    | .error e => .error e
    | .ok (true, st) =>
      match afsk_feed_loop cfg env layer0 all fuel c lower st with
      | .error e => .error e
      | .ok fs => feeder_finish cfg env fuel (833 * 8) fs
    | .ok (false, st) =>
      feeder_finish cfg env fuel (833 * 8)
        { exit_msg := .MSG_OK, c := c, lower := lower, st := st }

/-- Thread function `min_si_fifo_feeder_afsk`. -/
def min_si_fifo_feeder_afsk (cfg : Si446xDefs) (fl : FloatUnit) (env : Env)
    (enc : StreamEncoder) (fuel : Nat) (pp : packet_t) (st : RadioState) :
    Except Halt (msg_t × RadioState) :=
  match afsk_feeder_setup cfg fl env fuel pp st with
  | .error e => .error e
  | .ok st =>
    if enc.all = 0 then .ok (feeder_no_data st)
    else afsk_feeder_send cfg fl env enc.layer0 enc.all fuel pp st

/-- First part of `min_si_fifo_feeder_fsk`, from `pktAcquireRadio` to
`chVTObjectInit`: take the radio and configure the chip for 2FSK. -/
def fsk_feeder_setup (cfg : Si446xDefs) (fl : FloatUnit) (env : Env) (fuel : Nat)
    (pp : packet_t) (st : RadioState) : Except Halt RadioState :=
  let st := st.emit .pktAcquireRadio
  let st := Si446x_conditional_init cfg st
  match Si446x_pauseReceive cfg env fuel st with
  | .error e => .error e
  | .ok st =>
    match Si446x_setBandParameters cfg fl st pp.base_frequency pp.radio_step with
    | .error e => .error e
    | .ok (_, st) =>
      let st := Si446x_setModem2FSK_TX cfg st 9600
      .ok (st.emit .chVTObjectInit)

/-- Second part of `min_si_fifo_feeder_fsk` for a non-empty stream, from the
encoding pass to `chThdExit(exit_msg)`; `all` is the length reported by the
sizing pass. -/
def fsk_feeder_send (cfg : Si446xDefs) (fl : FloatUnit) (env : Env) (layer0 : List Nat)
    (all : Nat) (fuel : Nat) (pp : packet_t) (st : RadioState) :
    Except Halt (msg_t × RadioState) :=
  let st := Si446x_write st [0x15, 0x01]
  let f := Si446x_getTXfreeFIFO cfg env st
  let free := f.1
  let c := if all > free then free else all
  let st := f.2.emit (.chVTSet 10)
  let bufp := 0
  let st := Si446x_writeFIFO st (layer0.drop bufp) c
  let bufp := bufp + c
  let lower := 0
  match Si446x_transmit cfg fl env fuel st pp.base_frequency pp.radio_step
      pp.radio_chan pp.radio_pwr all pp.cca_rssi (cfg.TIME_S2I 10) with
  | .error e => .error e
  | .ok (true, st) =>
    match fsk_feed_loop cfg env layer0 all fuel bufp c lower st with
    | .error e => .error e
    | .ok fs => feeder_finish cfg env fuel (104 * 8 * 10) fs
  | .ok (false, st) =>
    feeder_finish cfg env fuel (104 * 8 * 10)
      { exit_msg := .MSG_OK, c := c, lower := lower, st := st }

/-- Thread function `min_si_fifo_feeder_fsk`. -/
def min_si_fifo_feeder_fsk (cfg : Si446xDefs) (fl : FloatUnit) (env : Env)
    (enc : StreamEncoder) (fuel : Nat) (pp : packet_t) (st : RadioState) :
    Except Halt (msg_t × RadioState) :=
  match fsk_feeder_setup cfg fl env fuel pp st with
  | .error e => .error e
  | .ok st =>
    if enc.all = 0 then .ok (feeder_no_data st)
    else fsk_feeder_send cfg fl env enc.layer0 enc.all fuel pp st

/-! ## Classification of effects -/

/-- A FIFO write: an SPI command with opcode `0x66`. -/
def Action.isFifoWrite : Action → Bool
  | .spiWrite txData => txData.head? == some 0x66
  | _ => false

/-- A START_TX command: an SPI command with opcode `0x31`. -/
def Action.isStartTx : Action → Bool
  | .spiWrite txData => txData.head? == some 0x31
  | _ => false

/-- A start of the transmit timeout timer. -/
def Action.isTimerStart : Action → Bool
  | .chVTSet _ => true
  | _ => false

/-- An event wait of a feed loop. -/
def Action.isEvtWait : Action → Bool
  | .chEvtWaitAnyTimeout _ _ => true
  | _ => false

/-- Chip set-up traffic: SPI reads, SPI commands other than FIFO writes and
START_TX, GPIO configuration and delays. -/
def Action.isSetup : Action → Bool
  | .spiWrite txData => txData.head? != some 0x66 && txData.head? != some 0x31
  | .spiRead _ _ => true
  | .chThdSleep _ => true
  | Action.pktConfigureRadioGPIO => true
  | _ => false

/-- The exit message of a feeder run, when it has one. -/
def exitMsg (r : Except Halt (msg_t × RadioState)) : Option msg_t :=
  match r with
  | .ok (msg, _) => some msg
  | .error _ => none

/-- The log at the end of a feeder run; empty when the run has no end. -/
def exitLog (r : Except Halt (msg_t × RadioState)) : List Action :=
  match r with
  | .ok (_, st) => st.log
  | .error _ => []

/-! ## Radio manager (`pktradio.c`) -/

/-- Commands handled by the `switch` of `pktRadioManager`; `other` stands
for any further value of the enumeration, for which the `switch` has no
case. -/
inductive radio_command_t
  | PKT_RADIO_OPEN
  | PKT_RADIO_RX
  | PKT_RADIO_RX_STOP
  | PKT_RADIO_TX
  | PKT_RADIO_CLOSE
  | other (n : Nat)
  deriving DecidableEq, Repr

/-- Decoder type of a task (`task_object->type`). -/
inductive encoding_type_t
  | DECODE_NOT_SET
  | DECODE_AFSK
  | DECODE_FSK
  deriving DecidableEq, Repr

/-- The fields of `AFSKDemodDriver` read by the manager. -/
structure AFSKDemodDriver where
  id : Nat
  /-- Thread handle `decoder_thd`, `none` for `NULL`. -/
  decoder_thd : Option Nat
  deriving DecidableEq, Repr

/-- Radio task object: the fields read by the manager. `id` identifies the
object (its address), `handler` the packet handler it points to and
`callback` the function to call, `none` for `NULL`. -/
structure radio_task_object_t where
  id : Nat
  command : radio_command_t
  type : encoding_type_t
  base_frequency : Nat
  squelch : Nat
  callback : Option Nat
  handler : Nat
  deriving DecidableEq, Repr

/-- Calls made by the radio manager, in program order. -/
inductive MgrAction
  | pktBufferManagerCreate (handler : Nat)
  | pktCallbackManagerCreate (handler : Nat)
  | pktCreateAFSKDecoder (handler : Nat)
  | Si446x_conditional_init
  | pktStartDecoder (handler : Nat)
  | Si446x_receive_noLock (freq sq : Nat)
  | pktStopDecoder (handler : Nat)
  | pktPauseDecoder (handler : Nat)
  | pktResumeDecoder (handler : Nat)
  | pktRegisterEventListener (driver : Nat)
  | chEvtSignal (thread : Nat)
  | chEvtWaitAny
  | pktUnregisterEventListener (driver : Nat)
  | chThdWait (thread : Nat)
  | pktBufferManagerRelease (handler : Nat)
  | pktCallbackManagerRelease (handler : Nat)
  | chBSemSignal (handler : Nat)
  | callback (cb handler : Nat)
  | chFifoReturnObject (object : Nat)
  deriving DecidableEq, Repr

/-- Inputs of the radio manager. -/
structure MgrEnv where
  /-- Result of the k-th `pktCreateAFSKDecoder`, `none` for `NULL`. -/
  createAFSKDecoder : Nat → Option AFSKDemodDriver
  /-- Flags returned by the k-th `chEvtGetAndClearFlags`. -/
  flags : Nat → Nat
  /-- Value of the macro `DEC_CLOSE_EXEC`. -/
  DEC_CLOSE_EXEC : Nat

/-- State of the radio manager thread: its local `rx_active`, the
`link_controller` field of each packet handler, the calls made so far and
the cursors into the inputs. -/
structure MgrState where
  rx_active : Bool
  link_controller : Nat → Option AFSKDemodDriver
  log : List MgrAction
  nCreate : Nat
  nFlags : Nat

/-- State on entry to the loop of `pktRadioManager`. -/
def MgrState.start (link_controller : Nat → Option AFSKDemodDriver) : MgrState :=
  { rx_active := false, link_controller := link_controller, log := [],
    nCreate := 0, nFlags := 0 }

def MgrState.emit (st : MgrState) (a : MgrAction) : MgrState :=
  { st with log := st.log ++ [a] }

/-- The loop `do { chEvtWaitAny(...); evt = chEvtGetAndClearFlags(&el); }
while (evt != DEC_CLOSE_EXEC)` of the CLOSE command. -/
def pktRadioManager_close_wait (env : MgrEnv) : Nat → MgrState → Except Halt MgrState
  | 0, _ => .error .fuel
  | fuel + 1, st =>
    let evt := env.flags st.nFlags
    let st := { st.emit .chEvtWaitAny with nFlags := st.nFlags + 1 }
    if evt ≠ env.DEC_CLOSE_EXEC then pktRadioManager_close_wait env fuel st
    else .ok st

/-- The `switch(task_object->command)` of `pktRadioManager`. Dereferencing a
`NULL` driver or signalling a `NULL` thread stops with `Halt.nullPointer`. -/
def pktRadioManager_command (env : MgrEnv) (fuel : Nat) (task_object : radio_task_object_t)
    (st : MgrState) : Except Halt MgrState :=
  let handler := task_object.handler
  match task_object.command with
  | .PKT_RADIO_OPEN =>
    let st := st.emit (.pktBufferManagerCreate handler)
    let st := st.emit (.pktCallbackManagerCreate handler)
    let st :=
      match task_object.type with
      | .DECODE_AFSK =>
        let driver := env.createAFSKDecoder st.nCreate
        { st.emit (.pktCreateAFSKDecoder handler) with
            nCreate := st.nCreate + 1,
            link_controller := Function.update st.link_controller handler driver }
      | .DECODE_NOT_SET => st
      | .DECODE_FSK => st
    .ok (st.emit .Si446x_conditional_init)
  | .PKT_RADIO_RX =>
    let st := st.emit (.pktStartDecoder handler)
    let sq := task_object.squelch
    let freq := task_object.base_frequency
    let st := st.emit (.Si446x_receive_noLock freq sq)
    .ok { st with rx_active := true }
  | .PKT_RADIO_RX_STOP =>
    let st := st.emit (.pktStopDecoder handler)
    .ok { st with rx_active := false }
  | .PKT_RADIO_TX =>
    let st := if st.rx_active then st.emit (.pktPauseDecoder handler) else st
    let st := if st.rx_active then st.emit (.pktResumeDecoder handler) else st
    .ok st
  | .PKT_RADIO_CLOSE =>
    match task_object.type with
    | .DECODE_AFSK =>
      match st.link_controller handler with
      | none => .error .nullPointer
      | some driver =>
        let st := st.emit (.pktRegisterEventListener driver.id)
        match driver.decoder_thd with
        | none => .error .nullPointer
        | some decoder =>
          let st := st.emit (.chEvtSignal decoder)
          match pktRadioManager_close_wait env fuel st with
          | .error e => .error e
          | .ok st =>
            let st := st.emit (.pktUnregisterEventListener driver.id)
            let st := st.emit (.chThdWait decoder)
            let st := st.emit (.pktBufferManagerRelease handler)
            let st := st.emit (.pktCallbackManagerRelease handler)
            .ok (st.emit (.chBSemSignal handler))
    | .DECODE_NOT_SET => .ok st
    | .DECODE_FSK => .ok st
  | .other _ => .ok st

/-- One pass through the `while` loop of `pktRadioManager`. `received` is
the outcome of `chFifoReceiveObjectTimeout`: `none` for `MSG_TIMEOUT`,
otherwise the task object taken from the queue. -/
def pktRadioManager_iteration (env : MgrEnv) (fuel : Nat)
    (received : Option radio_task_object_t) (st : MgrState) : Except Halt MgrState :=
  match received with
  | none => .ok st
  | some task_object =>
    match pktRadioManager_command env fuel task_object st with
    | .error e => .error e
    | .ok st =>
      let st :=
        match task_object.callback with
        | some cb => st.emit (.callback cb task_object.handler)
        | none => st
      .ok (st.emit (.chFifoReturnObject task_object.id))

/-- The loop of `pktRadioManager` over the outcomes of the successive queue
polls, up to the pass in which termination is requested. -/
def pktRadioManager (env : MgrEnv) (fuel : Nat) :
    List (Option radio_task_object_t) → MgrState → Except Halt MgrState
  | [], st => .ok st
  | received :: rest, st =>
    match pktRadioManager_iteration env fuel received st with
    | .error e => .error e
    | .ok st => pktRadioManager env fuel rest st

/-! ## Temperature -/

/-- Conversion of an `int` to `int16_t`. -/
def toInt16 (x : Int) : Int :=
  (x + 32768) % 65536 - 32768

/-- The ADC value `rxData[7] | ((rxData[6] & 0x7) << 8)` of
`Si446x_getTemperature`, a 16 bit value. -/
def Si446x_temperature_adc (rxData : List Nat) : Nat :=
  (rxData.getD 7 0 ||| ((rxData.getD 6 0 &&& 0x7) <<< 8)) % 65536

/-- The value `(89900*adc)/4096 - 29300` returned by `Si446x_getTemperature`
as `int16_t`. -/
def Si446x_temperature_of_adc (adc : Nat) : Int :=
  toInt16 ((89900 * (adc : Int)) / 4096 - 29300)

/-- Model of `Si446x_getTemperature`: one ADC request with eight response
bytes. -/
def Si446x_getTemperature (env : Env) (st : RadioState) : Int × RadioState :=
  let r := Si446x_read env st [0x14, 0x10] 8
  (Si446x_temperature_of_adc (Si446x_temperature_adc r.1), r.2)

/-- Model of `Si446x_getLastTemperature`: measure when `lastTemp` still holds
`0x7FFF` and the radio is initialised, otherwise return the stored value (or
0 when nothing is stored and the radio is not initialised). -/
def Si446x_getLastTemperature (env : Env) (st : RadioState) : Int × RadioState :=
  if st.lastTemp = 0x7FFF then
    if st.radio_init then
      let st := st.emit .pktAcquireRadio
      let t := Si446x_getTemperature env st
      let st := { t.2 with lastTemp := t.1 }
      let st := st.emit .pktReleaseRadio
      (st.lastTemp, st)
    else (0, st)
  else (st.lastTemp, st)

/-! ## Task object API (`pktradio.c`) -/

/-- The dynamic objects FIFO of a radio manager as seen by the task API: the
number of `chFactoryFindObjectsFIFO` and of `chFactoryReleaseObjectsFIFO`
calls made on it so far, and the objects sent to the manager, oldest
first. -/
structure TaskFifo where
  finds : Nat
  releases : Nat
  queue : List radio_task_object_t

/-- Model of `pktGetRadioTaskObject`. `taken` is the outcome of
`chFifoTakeObjectTimeout`: `none` for `NULL`, otherwise the object taken from
the pool. The result is the returned message, the pointer stored in `*rt`
and the FIFO afterwards. -/
def pktGetRadioTaskObject (handler : Nat) (taken : Option radio_task_object_t)
    (task_fifo : TaskFifo) : msg_t × Option radio_task_object_t × TaskFifo :=
  let task_fifo := { task_fifo with finds := task_fifo.finds + 1 }
  match taken with
  | none =>
    (.MSG_TIMEOUT, none, { task_fifo with releases := task_fifo.releases + 1 })
  | some rt => (.MSG_OK, some { rt with handler := handler }, task_fifo)

/-- Model of `pktSubmitRadioTask`. -/
def pktSubmitRadioTask (handler : Nat) (object : radio_task_object_t) (cb : Option Nat)
    (task_fifo : TaskFifo) : TaskFifo :=
  let task_fifo := { task_fifo with finds := task_fifo.finds + 1 }
  let object := { object with handler := handler, callback := cb }
  let task_fifo := { task_fifo with queue := task_fifo.queue ++ [object] }
  { task_fifo with releases := task_fifo.releases + 1 }

/-! ## Predicates on logs and runs -/

/-- A return of a task object to the pool. -/
def MgrAction.isReturn : MgrAction → Bool
  | .chFifoReturnObject _ => true
  | _ => false

/-- Device state nibble carried by the k-th SPI response. -/
def chipState (env : Env) (k : Nat) : Nat :=
  ((env.rxData k).getD 2 0 % 256) &&& 0xF

/-- The log of `st'` continues the log of `st` with effects that all satisfy
`P`. -/
def Grows (P : Action → Bool) (st st' : RadioState) : Prop :=
  ∃ l, st'.log = st.log ++ l ∧ ∀ a ∈ l, P a = true

/-- An event wait that returned a timeout event. -/
def Action.isTimeoutEvt : Action → Bool
  | .chEvtWaitAnyTimeout _ evt => evt != 0
  | _ => false

/-- Set-up traffic or a START_TX command: the effects of `Si446x_transmit`. -/
def Action.isTransmitStep (a : Action) : Bool :=
  a.isSetup || a.isStartTx

/-- Any effect other than an event wait that returned a timeout event. -/
def Action.noTimeout (a : Action) : Bool :=
  !a.isTimeoutEvt

/-- The effects with which a feeder ends once a feed loop wait has returned
the timeout event `e`: that wait, the READY command, the timer reset, the one
state request of the loop condition of the completion wait, and the exit
with `MSG_TIMEOUT`. -/
def timeoutTail (cfg : Si446xDefs) (us e lower : Nat) (rxData : List Nat) : List Action :=
  [.chEvtWaitAnyTimeout us e, .spiWrite [0x34, 0x03], .chVTReset,
   .spiRead [cfg.Si446x_REQUEST_DEVICE_STATE % 256] rxData, .TRACE_lowest_free lower,
   .pktReleaseSendObject, .pktScheduleThreadRelease, .chThdExit .MSG_TIMEOUT]

/-- How a feed loop that started in state `st` has ended in `fs`: without a
timeout event and with `MSG_OK`, or with `MSG_TIMEOUT` right after the READY
command that follows the first wait that returned a timeout event. -/
def FeedEnds (st : RadioState) (fs : FeedState) : Prop :=
  (fs.exit_msg = .MSG_OK ∧ Grows Action.noTimeout st fs.st) ∨
  (fs.exit_msg = .MSG_TIMEOUT ∧ ∃ pre us e, e ≠ 0 ∧ (∀ a ∈ pre, a.noTimeout = true) ∧
    fs.st.log = st.log ++ pre ++ [.chEvtWaitAnyTimeout us e, .spiWrite [0x34, 0x03]])

/-- How a feeder that started in state `st` has ended with message `msg` in
state `st'`: either no wait returned a timeout event and the message is not
`MSG_TIMEOUT`, or the message is `MSG_TIMEOUT` and what the feeder did ends
with `timeoutTail`, before which no wait returned a timeout event. -/
def FeederEnds (cfg : Si446xDefs) (st : RadioState) (msg : msg_t) (st' : RadioState) : Prop :=
  ∃ l, st'.log = st.log ++ l ∧
    ((msg ≠ .MSG_TIMEOUT ∧ ∀ a ∈ l, a.isTimeoutEvt = false) ∨
     (msg = .MSG_TIMEOUT ∧ ∃ pre us e lower rxData, e ≠ 0 ∧
        (∀ a ∈ pre, a.isTimeoutEvt = false) ∧ l = pre ++ timeoutTail cfg us e lower rxData))

/-- The state in which a feeder run ends; the power-up state when the run has
no end. -/
def exitState (r : Except Halt (msg_t × RadioState)) : RadioState :=
  match r with
  | .ok (_, st) => st
  | .error _ => RadioState.powerUp

/-! ## Floating point arithmetic

The two floating point expressions of `Si446x_setBandParameters` in IEEE 754
arithmetic with rounding to nearest, ties to even. Values are fractions with
a power of two as denominator; the exponent range is not modelled, no value
computed from 32 bit operands leaves it. -/

/-- The integer nearest to `num / den`, a tie going to the even one. -/
def roundHalfEven (num den : Nat) : Nat :=
  let q := num / den
  let r := num % den
  if 2 * r < den then q else if den < 2 * r then q + 1 else if q % 2 = 0 then q else q + 1

/-- The position of the highest set bit of `n`, searched with `fuel`
halvings: `floor(log2 n)` when `fuel` is at least that. -/
def floorLog2 : Nat → Nat → Nat
  | 0, _ => 0
  | fuel + 1, n => if n < 2 then 0 else floorLog2 fuel (n / 2) + 1

/-- The value `num / den` rounded to a binary floating point number with a
significand of `p` bits, as a fraction whose denominator is a power of two:
`num / den` is scaled by a power of two into `[2^(p-1), 2^p)`, rounded to an
integer and scaled back. -/
def roundToFloat (p num den : Nat) : Nat × Nat :=
  if num = 0 ∨ den = 0 then (0, 1) else
  let ln := floorLog2 num num
  let ld := floorLog2 den den
  let ud : Nat × Nat :=
    if ln ≤ p - 1 + ld then (p - 1 + ld - ln, 0) else (0, ln - (p - 1 + ld))
  let ud : Nat × Nat :=
    if num * 2^ud.1 < den * 2^ud.2 * 2^(p - 1) then
      (if 0 < ud.2 then (ud.1, ud.2 - 1) else (ud.1 + 1, ud.2))
    else ud
  let m := roundHalfEven (num * 2^ud.1) (den * 2^ud.2)
  (m * 2^ud.2, 2^ud.1)

/-- The value of `(uint32_t)(rest * 524288UL)` with
`ratio = (float)freq / (float)f_pfd` and `rest = ratio - (float)n` in single
precision (24 bit significand). The conversion of a negative `rest` is
undefined in C; it is 0 here. -/
def binary32_pll_m (freq f_pfd n : Nat) : Nat :=
  let ff := roundToFloat 24 freq 1
  let fp := roundToFloat 24 f_pfd 1
  let ratio := roundToFloat 24 (ff.1 * fp.2) (ff.2 * fp.1)
  let fn := roundToFloat 24 n 1
  let rest := roundToFloat 24 (ratio.1 * fn.2 - fn.1 * ratio.2) (ratio.2 * fn.2)
  let prod := roundToFloat 24 (rest.1 * 524288) rest.2
  prod.1 / prod.2

/-- The value of `((((uint32_t)1 << 19) * outdiv * 1300.0)/(2*Si446x_CCLK))*2`
converted to `uint32_t`: the product with `outdiv` in 32 bit unsigned
arithmetic, the rest in double precision (53 bit significand). -/
def binary64_dev_x (outdiv cclk2 : Nat) : Nat :=
  let a := (524288 * outdiv) % 2^32
  let prod := roundToFloat 53 (a * 1300) 1
  let c := roundToFloat 53 cclk2 1
  let quot := roundToFloat 53 (prod.1 * c.2) (prod.2 * c.1)
  let dbl := roundToFloat 53 (quot.1 * 2) quot.2
  dbl.1 / dbl.2

/-! ## A reference configuration

Values for the header macros and inputs, used to run the embedding on
concrete data. -/

/-- Header values of a 26 MHz board: chip states READY = 3, TX = 7, RX = 8,
a 144 to 148 MHz band and a 5 kHz system tick. -/
def refDefs : Si446xDefs :=
  { Si446x_CCLK := 26000000, Si446x_CLK_TCXO_EN := 1, prop := fun _ => 0x204A,
    Si446x_REQUEST_DEVICE_STATE := 0x33, Si446x_FIFO_INFO := 0x15,
    Si446x_STATE_READY := 3, Si446x_STATE_RX := 8, Si446x_STATE_TX := 7,
    Si446x_MIN_FREQ := 144000000, Si446x_MAX_FREQ := 148000000,
    pktComputeOperatingFrequency := fun freq step chan => freq + step * chan,
    TIME_S2I := fun s => 5000 * s }

/-- The two floating point expressions evaluated in IEEE 754 arithmetic:
single precision for the PLL fraction, double precision for the deviation. -/
def refFloat : FloatUnit :=
  { pll_m := binary32_pll_m, dev_x := binary64_dev_x }

/-- A 144.8 MHz packet on channel 0. -/
def refPacket : packet_t :=
  { radio := 1, base_frequency := 144800000, radio_step := 12500, radio_chan := 0,
    radio_pwr := 0x7F, cca_rssi := 0x4F, tx_seq := 1 }

/-- A transmit task with callback 7 for handler 1, held in task object 42. -/
def refTxTask : radio_task_object_t :=
  { id := 42, command := .PKT_RADIO_TX, type := .DECODE_AFSK, base_frequency := 144800000,
    squelch := 0x4F, callback := some 7, handler := 1 }

/-- Inputs of the radio manager in which the decoder acknowledges a close at
the second wait. -/
def refMgrEnv : MgrEnv :=
  { createAFSKDecoder := fun k => some { id := 100 + k, decoder_thd := some (200 + k) },
    flags := fun k => if k = 0 then 0 else 4,
    DEC_CLOSE_EXEC := 4 }

/-- A close task for the AFSK decoder of handler 1, without callback. -/
def refCloseTask : radio_task_object_t :=
  { id := 43, command := .PKT_RADIO_CLOSE, type := .DECODE_AFSK, base_frequency := 144800000,
    squelch := 0x4F, callback := none, handler := 1 }

/-- Manager state in which handler 1 owns AFSK driver 100 with decoder
thread 200. -/
def refMgrState : MgrState :=
  MgrState.start (fun h => if h = 1 then some { id := 100, decoder_thd := some 200 } else none)

/-- A chip that reports TX (7) in every response, with 64 bytes of free FIFO
space; no CCA spikes, a clock that jumps by 100000 ticks per reading and a
timeout event in every wait. -/
def refTimeoutEnv : Env :=
  { rxData := fun _ => [0, 0, 7, 64], cca := fun _ => 0, time := fun k => 100000 * k,
    evt := fun _ => 1 }

/-- An encoder that produces a stream of 100 bytes. -/
def refLongEncoder : StreamEncoder := { size := 100, byte := fun i => 0x7E + i }

/-- The reference packet moved to 150 MHz: inside the range of the band
set-up, outside the 144 to 148 MHz band of the radio. -/
def refPacket150 : packet_t := { refPacket with base_frequency := 150000000 }

/-- An encoder that produces a stream of 3 bytes. -/
def refShortEncoder : StreamEncoder := { size := 3, byte := fun i => 0x7E + i }

/-- A chip that reports TX (7) in its first six responses and READY (3)
afterwards, with 64 bytes of free FIFO space; no CCA spikes, a clock that
jumps by 100000 ticks per reading and no timeout event. -/
def refTxEnv : Env :=
  { rxData := fun k => if k < 6 then [0, 0, 7, 64] else [0, 0, 3, 64], cca := fun _ => 0,
    time := fun k => 100000 * k, evt := fun _ => 0 }

/-- An encoder whose sizing pass reports no data. -/
def refEmptyEncoder : StreamEncoder := { size := 0, byte := fun _ => 0 }

/-- A chip that reports READY (3) in every response, with 64 bytes of free
FIFO space; no CCA spikes, a clock that advances by 100 ticks per reading and
no timeout event. -/
def refIdleEnv : Env :=
  { rxData := fun _ => [0, 0, 3, 64], cca := fun _ => 0, time := fun k => 100 * k,
    evt := fun _ => 0 }

/-- A CCA line that is active in every third sample. -/
def refCcaEnv : Env :=
  { rxData := fun _ => [0, 0, 8, 64], cca := fun k => if k % 3 = 0 then 1 else 0,
    time := fun k => 100 * k, evt := fun _ => 0 }

/-- A state in which the radio is initialised and 2500 (25.00 degrees) has
been measured and stored in `lastTemp`. -/
def refMeasuredState : RadioState :=
  { RadioState.powerUp with radio_init := true, lastTemp := 2500 }

/-- A chip whose first response carries the ADC value `0x5C8` (31.83
degrees) and whose later responses carry `0x200`. -/
def refTempEnv : Env :=
  { rxData := fun k => if k = 0 then [0, 0, 0, 0, 0, 0, 5, 200] else [0, 0, 0, 0, 0, 0, 2, 0],
    cca := fun _ => 0, time := fun k => 100 * k, evt := fun _ => 0 }

/-- The state after the first `Si446x_getLastTemperature` on an initialised
radio with the inputs `refTempEnv`. -/
def refAfterMeasure : RadioState :=
  (Si446x_getLastTemperature refTempEnv { RadioState.powerUp with radio_init := true }).2

/-- State `base` with the up-sampler variables of `st`. -/
def withUpsampler (st base : RadioState) : RadioState :=
  { base with phase_delta := st.phase_delta, phase := st.phase, packet_pos := st.packet_pos,
              current_sample_in_baud := st.current_sample_in_baud,
              current_byte := st.current_byte }

/-- The result of an up-sampler function moved into the state `base`. -/
def moveResult {α : Type} (base : RadioState) (r : Except Halt (α × RadioState)) :
    Except Halt (α × RadioState) :=
  match r with
  | .error e => .error e
  | .ok (a, st) => .ok (a, withUpsampler st base)

/-- An open task for handler 1 with decoder type `type`, task object 44. -/
def refOpenTaskOf (type : encoding_type_t) : radio_task_object_t :=
  { id := 44, command := .PKT_RADIO_OPEN, type := type, base_frequency := 144800000,
    squelch := 0x4F, callback := none, handler := 1 }

/-- A close task for handler 1 with decoder type `type`, task object 45. -/
def refCloseTaskOf (type : encoding_type_t) : radio_task_object_t :=
  { id := 45, command := .PKT_RADIO_CLOSE, type := type, base_frequency := 144800000,
    squelch := 0x4F, callback := none, handler := 1 }

/-- A release of a packet service or the signal of the closed semaphore. -/
def MgrAction.isRelease : MgrAction → Bool
  | .pktBufferManagerRelease _ => true
  | .pktCallbackManagerRelease _ => true
  | .chBSemSignal _ => true
  | _ => false

/-- The calls made by the manager for an OPEN followed by a CLOSE of handler
1, both with decoder type `type`. -/
def refOpenCloseLog (type : encoding_type_t) : Option (List MgrAction) :=
  (pktRadioManager refMgrEnv 2 [some (refOpenTaskOf type), some (refCloseTaskOf type)]
    (MgrState.start (fun _ => none))).toOption.map (·.log)

/-- The fourth response byte of every FIFO info request in a log. -/
def freeCounts (cfg : Si446xDefs) : List Action → List Nat
  | [] => []
  | .spiRead txData rxData :: l =>
    if txData = [cfg.Si446x_FIFO_INFO % 256, 0x00] then rxData.getD 3 0 :: freeCounts cfg l
    else freeCounts cfg l
  | _ :: l => freeCounts cfg l

/-- The free FIFO byte counts read after the START_TX command: those read
by the feed loop. -/
def feedLoopFree (cfg : Si446xDefs) : List Action → List Nat
  | [] => []
  | a :: l => if a.isStartTx then freeCounts cfg l else feedLoopFree cfg l

/-- The level reported by the trace at the end of a feeder. -/
def reportedLowest : List Action → Option Nat
  | [] => none
  | .TRACE_lowest_free lower :: _ => some lower
  | _ :: l => reportedLowest l

/-- A chip with 64 bytes of free FIFO space before the transmission starts,
20 at the first pass of the feed loop and 30 at the second; it reports TX (7)
up to then and READY (3) afterwards. No CCA spikes, no timeout event. -/
def refLevelEnv : Env :=
  { rxData := fun k => if k = 6 then [0, 0, 7, 20] else if k = 7 then [0, 0, 7, 30]
                       else if k < 6 then [0, 0, 7, 64] else [0, 0, 3, 64],
    cca := fun _ => 0, time := fun k => 100000 * k, evt := fun _ => 0 }

/-- An encoder that produces a stream of 10 bytes. -/
def refTenEncoder : StreamEncoder := { size := 10, byte := fun i => 0x7E + i }

/-- The 2FSK feeder run on a stream of 100 bytes with the levels of
`refLevelEnv`. -/
def refLevelRunFsk : Except Halt (msg_t × RadioState) :=
  min_si_fifo_feeder_fsk refDefs refFloat refLevelEnv refLongEncoder 10 refPacket
    RadioState.powerUp

/-- The AFSK feeder run on a stream of 10 bytes (110 up-sampled bytes) with
the levels of `refLevelEnv`. -/
def refLevelRunAfsk : Except Halt (msg_t × RadioState) :=
  min_si_fifo_feeder_afsk refDefs refFloat refLevelEnv refTenEncoder 10 refPacket
    RadioState.powerUp

/-- The payload of a FIFO write; empty for every other effect. -/
def Action.fifoBytes : Action → List Nat
  | .spiWrite txData => if txData.head? = some 0x66 then txData.tail else []
  | _ => []

/-- The bytes written to the FIFO by a sequence of effects, in the order of
the writes. -/
def fifoPayload : List Action → List Nat
  | [] => []
  | a :: l => a.fifoBytes ++ fifoPayload l

/-- The log of `st'` continues the log of `st` with effects whose FIFO writes
carry the bytes `p`. -/
def Writes (p : List Nat) (st st' : RadioState) : Prop :=
  ∃ l, st'.log = st.log ++ l ∧ fifoPayload l = p

/-- Reference from the specification: the source bit used for sample `j` is
bit `(j / 11) % 8`, least significant first, of `buf[(j / 11) / 8]`. -/
def refSourceBit (buf : List Nat) (j : Nat) : Bool :=
  (buf.getD (j / 11 / 8) 0).testBit (j / 11 % 8)

/-- Reference from the specification: the phase after `j` samples, advanced
modulo `2^32` by 11915 for a source bit 1 and by 21845 for a source bit 0. -/
def refPhase (buf : List Nat) : Nat → Nat
  | 0 => 0
  | j + 1 => (refPhase buf j + (if refSourceBit buf j then 11915 else 21845)) % 2^32

/-- Reference from the specification: the output bit for sample `j` is bit 16
of the phase after the advance for that sample. -/
def refOutBit (buf : List Nat) (j : Nat) : Bool :=
  (refPhase buf (j + 1)).testBit 16

/-- The value of `current_byte` while sample `m` is produced: the source
byte shifted so that the source bit is its lowest bit. -/
def srcByte (buf : List Nat) (m : Nat) : Nat :=
  buf.getD (m / 11 / 8) 0 >>> (m / 11 % 8)

/-- The up-sampler variables after `n` samples from the reset state. -/
def UpInv (buf : List Nat) (n : Nat) (st : RadioState) : Prop :=
  st.phase = refPhase buf n ∧ st.packet_pos = n / 11 ∧
  st.current_sample_in_baud = n % 11 ∧ (n = 0 ∨ st.current_byte = srcByte buf (n - 1))

/-- Modulation selector `mod_t`. The enumeration is declared in a header
that is not part of the sources; `Si446x_receiveNoLock` tells `MOD_AFSK` from
every other value. -/
inductive mod_t
  | MOD_AFSK
  | other (n : Nat)
  deriving DecidableEq, Repr

/-- The loop `while(Si446x_getState(radio) == Si446x_STATE_TX)` of
`Si446x_receiveNoLock` with its pass counter `tot`: after 500 passes the chip
is forced to READY and the loop is left. -/
def Si446x_receive_waitTX (cfg : Si446xDefs) (env : Env) :
    Nat → Nat → RadioState → Except Halt RadioState
  | 0, _, _ => .error .fuel
  | fuel + 1, tot, st =>
    let r := Si446x_getState cfg env st
    if r.1 = cfg.Si446x_STATE_TX then
      let st := chThdSleep r.2 10000
      if tot < 500 then Si446x_receive_waitTX cfg env fuel ((tot + 1) % 65536) st
      else .ok (Si446x_setReadyState st)
    else .ok r.2

/-- The loop `while(Si446x_getState(radio) != Si446x_STATE_RX)` of
`Si446x_receiveNoLock`. -/
def Si446x_receive_waitRX (cfg : Si446xDefs) (env : Env) :
    Nat → RadioState → Except Halt RadioState
  | 0, _ => .error .fuel
  | fuel + 1, st =>
    let r := Si446x_getState cfg env st
    if r.1 ≠ cfg.Si446x_STATE_RX then Si446x_receive_waitRX cfg env fuel (chThdSleep r.2 1000)
    else .ok r.2

/-- Model of `Si446x_receiveNoLock`. -/
def Si446x_receiveNoLock (cfg : Si446xDefs) (env : Env) (fuel : Nat) (st : RadioState)
    (freq step channel rssi : Nat) (mod : mod_t) : Except Halt (Bool × RadioState) :=
  let op_freq := cfg.pktComputeOperatingFrequency freq step channel
  if !Si446x_isRadioInBand cfg op_freq then .ok (false, st) else
  match Si446x_receive_waitTX cfg env fuel 0 st with
  | .error e => .error e
  | .ok st =>
    match mod with
    | .MOD_AFSK =>
      let st := Si446x_setModemAFSK_RX cfg st
      let st := Si446x_setProperty8 st (cfg.prop .Si446x_MODEM_RSSI_THRESH) rssi
      let st := Si446x_setRXState st channel
      match Si446x_receive_waitRX cfg env fuel st with
      | .error e => .error e
      | .ok st => .ok (true, st)
    | .other _ => .ok (false, st)

/-- The state in which a run of a driver function ends; the power-up state
when the run has no end. -/
def endState {α : Type} (r : Except Halt (α × RadioState)) : RadioState :=
  match r with
  | .ok (_, st) => st
  | .error _ => RadioState.powerUp

/-- The transmit request of the reference packet, 100 bytes, on a chip that
reports TX. -/
def refTransmitRun : Except Halt (Bool × RadioState) :=
  Si446x_transmit refDefs refFloat refTxEnv 5 RadioState.powerUp 144800000 12500 0 0x7F 100
    0x4F 50000

/-- Reference from the specification: the receive flag after a command, given
the flag before it: true after RX, false after RX_STOP, unchanged after any
other command. -/
def rxActiveAfter (command : radio_command_t) (rx_active : Bool) : Bool :=
  match command with
  | .PKT_RADIO_RX => true
  | .PKT_RADIO_RX_STOP => false
  | _ => rx_active

/-- Reference from the specification: the receive flag after a history of
queue polls, a poll that timed out leaving it unchanged. -/
def rxActiveHistory : List (Option radio_task_object_t) → Bool → Bool
  | [], rx_active => rx_active
  | none :: rest, rx_active => rxActiveHistory rest rx_active
  | some task :: rest, rx_active => rxActiveHistory rest (rxActiveAfter task.command rx_active)

/-- A start receive task for handler 1, task object 46. -/
def refRxTask : radio_task_object_t :=
  { id := 46, command := .PKT_RADIO_RX, type := .DECODE_AFSK, base_frequency := 144800000,
    squelch := 0x4F, callback := none, handler := 1 }

/-- A stop receive task for handler 1, task object 47. -/
def refRxStopTask : radio_task_object_t :=
  { id := 47, command := .PKT_RADIO_RX_STOP, type := .DECODE_AFSK, base_frequency := 144800000,
    squelch := 0x4F, callback := none, handler := 1 }

/-- The state in which a run of the manager ends; the start state when the
run has no end. -/
def mgrEndState (r : Except Halt MgrState) : MgrState :=
  match r with
  | .ok st => st
  | .error _ => MgrState.start (fun _ => none)

/-- A history of queue polls: RX, TX, a poll that timed out, RX_STOP, OPEN,
RX and CLOSE. -/
def refHistory : List (Option radio_task_object_t) :=
  [some refRxTask, some refTxTask, none, some refRxStopTask,
   some (refOpenTaskOf .DECODE_AFSK), some refRxTask, some (refCloseTaskOf .DECODE_AFSK)]

/-- The manager run over `refHistory` from its start state. -/
def refHistoryRun : Except Halt MgrState :=
  pktRadioManager refMgrEnv 3 refHistory (MgrState.start (fun _ => none))

/-- An empty task FIFO on which no reference is outstanding. -/
def refTaskFifo : TaskFifo := { finds := 0, releases := 0, queue := [] }

/-- Reference from the specification: the scaled fraction
`floor((F / f_pfd - n) * 2^19)` of the PLL under exact arithmetic. -/
def pll_m_exact (freq f_pfd n : Nat) : Int :=
  ⌊((freq : ℚ) / (f_pfd : ℚ) - (n : ℚ)) * 524288⌋

/-- The transmit length carried by the first START_TX command of a log: the
big-endian value of its bytes 3 and 4. -/
def startTxLength : List Action → Option Nat
  | [] => none
  | .spiWrite txData :: l =>
    if txData.head? = some 0x31 then some (txData.getD 3 0 * 256 + txData.getD 4 0)
    else startTxLength l
  | _ :: l => startTxLength l

/-- An encoder that produces a stream of 745 bytes. -/
def refEncoder745 : StreamEncoder := { size := 745, byte := fun i => 0x7E + i }

/-- The AFSK feeder run on a stream of 745 bytes on a chip that reports TX
and 64 free bytes; the first wait of the feed loop returns the timeout
event. -/
def refLongRunAfsk : Except Halt (msg_t × RadioState) :=
  min_si_fifo_feeder_afsk refDefs refFloat refTimeoutEnv refEncoder745 2 refPacket
    RadioState.powerUp

/-- The part of `min_si_fifo_feeder_fsk` from the FIFO reset to the initial
FIFO load; the result is the fill count `c` and the state after the load. -/
def fsk_feeder_fill (cfg : Si446xDefs) (env : Env) (layer0 : List Nat) (all : Nat)
    (st : RadioState) : Nat × RadioState :=
  let st := Si446x_write st [0x15, 0x01]
  let f := Si446x_getTXfreeFIFO cfg env st
  let free := f.1
  let c := if all > free then free else all
  let st := f.2.emit (.chVTSet 10)
  let bufp := 0
  let st := Si446x_writeFIFO st (layer0.drop bufp) c
  (c, st)

/-- The part of `min_si_fifo_feeder_afsk` from `all *= SAMPLES_PER_BAUD` to
the initial FIFO load; the result is the fill count `c` and the state after
the load. -/
def afsk_feeder_fill (cfg : Si446xDefs) (env : Env) (layer0 : List Nat) (all : Nat)
    (st : RadioState) : Except Halt (Nat × RadioState) :=
  let all := all * SAMPLES_PER_BAUD % 65536
  let st := Si446x_write st [0x15, 0x01]
  let st := afsk_upsampler_reset st
  let f := Si446x_getTXfreeFIFO cfg env st
  let free := f.1
  let c := if all > free then free else all
  let st := f.2.emit (.chVTSet 10)
  match Si446x_loadLocalBuffer layer0 c st with
  | .error e => .error e
  | .ok (localBuffer, st) => .ok (c, Si446x_writeFIFO st localBuffer c)

/-- The variables of the up-sampler read by `Si446x_getUpsampledAFSKbits`. -/
def upsamplerOf (st : RadioState) : Nat × Nat × Nat × Nat :=
  (st.phase, st.packet_pos, st.current_sample_in_baud, st.current_byte)

/-- A run that started in `st` has kept the up-sampler variables, or has
stopped for a reason other than a read past a buffer. -/
def QuietS (st : RadioState) (r : Except Halt RadioState) : Prop :=
  match r with
  | .ok st' => upsamplerOf st' = upsamplerOf st
  | .error e => e ≠ .outOfBounds

/-- The same for a run that also returns a value. -/
def QuietP {α : Type} (st : RadioState) (r : Except Halt (α × RadioState)) : Prop :=
  match r with
  | .ok (_, st') => upsamplerOf st' = upsamplerOf st
  | .error e => e ≠ .outOfBounds

/-- How a feed loop of the AFSK feeder over `buf` may end: with a cursor `c`
of at most `all` after `c` up-sampler calls, or for a reason other than a
read past the buffer. -/
def SafeEnd (buf : List Nat) (all : Nat) (r : Except Halt FeedState) : Prop :=
  match r with
  | .ok fs => fs.c ≤ all ∧ UpInv buf (8 * fs.c) fs.st
  | .error e => e ≠ .outOfBounds

/-- Inputs of the radio manager in which `pktCreateAFSKDecoder` fails:
every call returns `NULL`. -/
def refNullDecoderEnv : MgrEnv :=
  { createAFSKDecoder := fun _ => none, flags := fun _ => 4, DEC_CLOSE_EXEC := 4 }

/-! # Properties -/

/-! ## Band parameters -/

/-- C1: for a frequency below 144 MHz or above 900 MHz and any step,
`Si446x_setBandParameters` returns false and leaves the radio state, and
with it the log of SPI transfers, exactly as it was. -/
theorem C1_out_of_range_rejected (cfg : Si446xDefs) (fl : FloatUnit) (st : RadioState)
    (freq step : Nat) (h : freq < 144000000 ∨ freq > 900000000) :
    Si446x_setBandParameters cfg fl st freq step = .ok (false, st) := by
  unfold Si446x_setBandParameters
  rw [if_pos h]

/-- Witness of C1 at 100 MHz, from the power-up state. -/
theorem C1_out_of_range_rejected_witness :
    (100000000 < 144000000 ∨ 100000000 > 900000000) ∧
    Si446x_setBandParameters refDefs refFloat RadioState.powerUp 100000000 12500
      = .ok (false, RadioState.powerUp) :=
  ⟨by decide, C1_out_of_range_rejected refDefs refFloat RadioState.powerUp 100000000 12500
    (by decide)⟩

/-- C2 (failing input): at 705 MHz, a frequency accepted by the range check,
no band threshold matches, the output divider stays zero and the computation
of the phase detector frequency divides by zero. -/
theorem C2_divider_zero_at_705MHz (cfg : Si446xDefs) (fl : FloatUnit) (st : RadioState)
    (step : Nat) :
    ¬ (705000000 < 144000000 ∨ 705000000 > 900000000) ∧
    (Si446x_selectBand 705000000).1 = 0 ∧
    Si446x_setBandParameters cfg fl st 705000000 step = .error .divZero := by
  refine ⟨by decide, by decide, ?_⟩
  unfold Si446x_setBandParameters
  rw [if_neg (by decide)]
  have h : (Si446x_selectBand 705000000).1 = 0 := by decide
  simp only [h, if_true]

/-- The band table in closed form: the entry of the lowest threshold above
the frequency. -/
theorem Si446x_selectBand_eq (freq : Nat) (hhi : freq < 705000000) :
    Si446x_selectBand freq =
      (if freq < 177000000 then (24, 5) else if freq < 239000000 then (16, 4)
       else if freq < 353000000 then (12, 3) else if freq < 525000000 then (8, 2)
       else (6, 1)) := by
  unfold Si446x_selectBand
  split_ifs <;> rfl

/-- Below 705 MHz the selected divider is 6, 8, 12, 16 or 24 and the band
code is at most 5. -/
theorem Si446x_selectBand_bounds (freq : Nat) (hhi : freq < 705000000) :
    (Si446x_selectBand freq).1 ≠ 0 ∧ (Si446x_selectBand freq).1 ≤ 24 ∧
    (Si446x_selectBand freq).2 ≤ 5 := by
  rw [Si446x_selectBand_eq freq hhi]
  split_ifs <;> simp

/-- For an accepted frequency below 705 MHz and a reference clock of at least
12 Hz, `Si446x_setBandParameters` succeeds and writes the band, frequency and
deviation commands after the conditional initialisation. -/
theorem Si446x_setBandParameters_ok (cfg : Si446xDefs) (fl : FloatUnit) (st : RadioState)
    (freq step : Nat) (hlo : 144000000 ≤ freq) (hhi : freq < 705000000)
    (hclk : 24 ≤ 2 * (cfg.Si446x_CCLK % 2^32) % 2^32) :
    Si446x_setBandParameters cfg fl st freq step =
      .ok (true,
        { Si446x_conditional_init cfg st with
          log := (Si446x_conditional_init cfg st).log ++
            [.spiWrite (set_band_property_command (Si446x_selectBand freq).2),
             .spiWrite (set_frequency_property_command fl freq step (Si446x_selectBand freq).1
                (2 * (cfg.Si446x_CCLK % 2^32) % 2^32)
                (2 * (cfg.Si446x_CCLK % 2^32) % 2^32 / (Si446x_selectBand freq).1)),
             .spiWrite (set_deviation fl (Si446x_selectBand freq).1
                (2 * (cfg.Si446x_CCLK % 2^32) % 2^32))] }) := by
  obtain ⟨h1, h2, _⟩ := Si446x_selectBand_bounds freq hhi
  have hf : 2 * (cfg.Si446x_CCLK % 2^32) % 2^32 / (Si446x_selectBand freq).1 ≠ 0 := by
    have hle : (Si446x_selectBand freq).1 ≤ 2 * (cfg.Si446x_CCLK % 2^32) % 2^32 := by omega
    have := Nat.div_pos hle (Nat.pos_of_ne_zero h1)
    omega
  have hc : 2 * (cfg.Si446x_CCLK % 2^32) % 2^32 ≠ 0 := by omega
  unfold Si446x_setBandParameters
  rw [if_neg (by omega)]
  simp only [h1, hf, hc, if_false]
  simp only [Si446x_write, RadioState.emit, List.append_assoc, List.singleton_append,
    List.cons_append, List.nil_append]

/-- C3: for an accepted frequency below 705 MHz the selected (output divider,
band code) pair is (24,5) below 177 MHz, (16,4) below 239 MHz, (12,3) below
353 MHz, (8,2) below 525 MHz and (6,1) otherwise, and the first command
written after the conditional initialisation is the band command
`{0x11, 0x20, 0x01, 0x51, band + 8}`, followed by the frequency and the
deviation command. -/
theorem C3_band_table (cfg : Si446xDefs) (fl : FloatUnit) (st : RadioState)
    (freq step : Nat) (hlo : 144000000 ≤ freq) (hhi : freq < 705000000)
    (hclk : 24 ≤ 2 * (cfg.Si446x_CCLK % 2^32) % 2^32) :
    Si446x_selectBand freq =
      (if freq < 177000000 then (24, 5) else if freq < 239000000 then (16, 4)
       else if freq < 353000000 then (12, 3) else if freq < 525000000 then (8, 2)
       else (6, 1)) ∧
    ∃ st' fcmd dcmd,
      Si446x_setBandParameters cfg fl st freq step = .ok (true, st') ∧
      st'.log = (Si446x_conditional_init cfg st).log ++
        [.spiWrite [0x11, 0x20, 0x01, 0x51, (Si446x_selectBand freq).2 + 8],
         .spiWrite fcmd, .spiWrite dcmd] := by
  obtain ⟨_, _, h3⟩ := Si446x_selectBand_bounds freq hhi
  have hb : ((Si446x_selectBand freq).2 + 8) % 256 = (Si446x_selectBand freq).2 + 8 := by
    omega
  refine ⟨Si446x_selectBand_eq freq hhi, _,
    set_frequency_property_command fl freq step (Si446x_selectBand freq).1
      (2 * (cfg.Si446x_CCLK % 2^32) % 2^32)
      (2 * (cfg.Si446x_CCLK % 2^32) % 2^32 / (Si446x_selectBand freq).1),
    set_deviation fl (Si446x_selectBand freq).1 (2 * (cfg.Si446x_CCLK % 2^32) % 2^32),
    Si446x_setBandParameters_ok cfg fl st freq step hlo hhi hclk, ?_⟩
  simp only [set_band_property_command, hb]

/-- Witness of C3 at 144.8 MHz: divider 24, band code 5, band command
`{0x11, 0x20, 0x01, 0x51, 13}`. -/
theorem C3_band_table_witness :
    (144000000 ≤ 144800000 ∧ 144800000 < 705000000 ∧
      24 ≤ 2 * (refDefs.Si446x_CCLK % 2^32) % 2^32) ∧
    Si446x_selectBand 144800000 = (24, 5) ∧
    ∃ st' fcmd dcmd,
      Si446x_setBandParameters refDefs refFloat RadioState.powerUp 144800000 12500
        = .ok (true, st') ∧
      st'.log = (Si446x_conditional_init refDefs RadioState.powerUp).log ++
        [.spiWrite [0x11, 0x20, 0x01, 0x51, 13], .spiWrite fcmd, .spiWrite dcmd] :=
  ⟨by decide,
   C3_band_table refDefs refFloat RadioState.powerUp 144800000 12500 (by decide) (by decide)
     (by decide)⟩

/-! ## Radio manager -/

/-- C4 (failing input): for the transmit task `refTxTask`, whose callback is
not `NULL`, processed while receive is active, the manager calls the callback
first and returns the task object to the pool afterwards. -/
theorem C4_callback_before_return :
    (pktRadioManager_iteration refMgrEnv 0 (some refTxTask)
        { MgrState.start (fun _ => none) with rx_active := true }).toOption.map (·.log)
      = some [.pktPauseDecoder 1, .pktResumeDecoder 1, .callback 7 1,
              .chFifoReturnObject 42] := by
  decide

/-- The close wait only appends `chEvtWaitAny` calls, none of which returns a
task object. -/
theorem pktRadioManager_close_wait_log (env : MgrEnv) (fuel : Nat) :
    ∀ st st', pktRadioManager_close_wait env fuel st = .ok st' →
      st'.rx_active = st.rx_active ∧
      ∃ l, st'.log = st.log ++ l ∧ l.filter MgrAction.isReturn = [] := by
  induction fuel with
  | zero => intro st st' h; simp [pktRadioManager_close_wait] at h
  | succ n ih =>
    intro st st' h
    unfold pktRadioManager_close_wait at h
    simp only [] at h
    split at h
    · obtain ⟨hrx, l, hl, hf⟩ := ih _ _ h
      refine ⟨by simpa [MgrState.emit] using hrx, .chEvtWaitAny :: l, ?_, ?_⟩
      · simpa [MgrState.emit] using hl
      · simpa [MgrAction.isReturn] using hf
    · injection h with h
      subst h
      exact ⟨rfl, [.chEvtWaitAny], by simp [MgrState.emit], by simp [MgrAction.isReturn]⟩

/-- The close wait ends once the acknowledgement flag is delivered: if the
flags read `k` waits from now equal `DEC_CLOSE_EXEC`, `k + 1` passes are
enough. -/
theorem pktRadioManager_close_wait_terminates (env : MgrEnv) (k : Nat) :
    ∀ st, env.flags (st.nFlags + k) = env.DEC_CLOSE_EXEC →
      ∃ st', pktRadioManager_close_wait env (k + 1) st = .ok st' := by
  induction k with
  | zero =>
    intro st h
    simp only [Nat.add_zero] at h
    simp [pktRadioManager_close_wait, h]
  | succ n ih =>
    intro st h
    unfold pktRadioManager_close_wait
    simp only []
    split
    · apply ih
      simp only [MgrState.emit]
      rw [← h]; congr 1; omega
    · exact ⟨_, rfl⟩

/-- The command `switch` returns no task object to the pool. -/
theorem pktRadioManager_command_log (env : MgrEnv) (fuel : Nat) (task : radio_task_object_t)
    (st st' : MgrState) (h : pktRadioManager_command env fuel task st = .ok st') :
    ∃ l, st'.log = st.log ++ l ∧ l.filter MgrAction.isReturn = [] := by
  obtain ⟨id, command, type, bf, sq, cb, hd⟩ := task
  cases command
  case PKT_RADIO_OPEN =>
    cases type <;> simp only [pktRadioManager_command, Except.ok.injEq] at h <;> subst h
    · exact ⟨[.pktBufferManagerCreate hd, .pktCallbackManagerCreate hd,
        .Si446x_conditional_init], by simp [MgrState.emit], by simp [MgrAction.isReturn]⟩
    · exact ⟨[.pktBufferManagerCreate hd, .pktCallbackManagerCreate hd,
        .pktCreateAFSKDecoder hd, .Si446x_conditional_init],
        by simp [MgrState.emit], by simp [MgrAction.isReturn]⟩
    · exact ⟨[.pktBufferManagerCreate hd, .pktCallbackManagerCreate hd,
        .Si446x_conditional_init], by simp [MgrState.emit], by simp [MgrAction.isReturn]⟩
  case PKT_RADIO_RX =>
    simp only [pktRadioManager_command, Except.ok.injEq] at h; subst h
    exact ⟨[.pktStartDecoder hd, .Si446x_receive_noLock bf sq],
      by simp [MgrState.emit], by simp [MgrAction.isReturn]⟩
  case PKT_RADIO_RX_STOP =>
    simp only [pktRadioManager_command, Except.ok.injEq] at h; subst h
    exact ⟨[.pktStopDecoder hd], by simp [MgrState.emit], by simp [MgrAction.isReturn]⟩
  case PKT_RADIO_TX =>
    simp only [pktRadioManager_command, Except.ok.injEq] at h; subst h
    cases hrx : st.rx_active
    · exact ⟨[], by simp [hrx], rfl⟩
    · exact ⟨[.pktPauseDecoder hd, .pktResumeDecoder hd],
        by simp [hrx, MgrState.emit], by simp [MgrAction.isReturn]⟩
  case PKT_RADIO_CLOSE =>
    cases type
    case DECODE_NOT_SET =>
      simp only [pktRadioManager_command, Except.ok.injEq] at h; subst h
      exact ⟨[], by simp, rfl⟩
    case DECODE_FSK =>
      simp only [pktRadioManager_command, Except.ok.injEq] at h; subst h
      exact ⟨[], by simp, rfl⟩
    case DECODE_AFSK =>
      simp only [pktRadioManager_command] at h
      split at h
      · simp at h
      · rename_i driver _
        split at h
        · simp at h
        · rename_i decoder _
          split at h
          · simp at h
          · rename_i st1 hw
            simp only [Except.ok.injEq] at h; subst h
            obtain ⟨_, l, hl, hf⟩ := pktRadioManager_close_wait_log env fuel _ _ hw
            refine ⟨.pktRegisterEventListener driver.id :: .chEvtSignal decoder ::
              (l ++ [.pktUnregisterEventListener driver.id, .chThdWait decoder,
                .pktBufferManagerRelease hd, .pktCallbackManagerRelease hd,
                .chBSemSignal hd]), ?_, ?_⟩
            · simp only [MgrState.emit] at hl ⊢
              rw [hl]; simp
            · simp [MgrAction.isReturn, hf]
  case other n =>
    simp only [pktRadioManager_command, Except.ok.injEq] at h; subst h
    exact ⟨[], by simp, rfl⟩

/-- One pass of the manager loop that ends returns the dequeued task object
to the pool exactly once, whatever its command and decoder type, and a pass
whose queue poll times out returns nothing. The pass ends for every command
other than the close of an AFSK decoder, and for that one when the driver and
its decoder thread exist and the decoder delivers the acknowledgement flag,
for which the code waits without a time limit. -/
theorem pktRadioManager_iteration_returns_once (env : MgrEnv) (task : radio_task_object_t)
    (st : MgrState)
    (hclose : task.command = .PKT_RADIO_CLOSE → task.type = .DECODE_AFSK →
      (∃ driver decoder, st.link_controller task.handler = some driver ∧
        driver.decoder_thd = some decoder) ∧
      ∃ k, env.flags (st.nFlags + k) = env.DEC_CLOSE_EXEC) :
    (∃ fuel st', pktRadioManager_iteration env fuel (some task) st = .ok st') ∧
    (∀ fuel st', pktRadioManager_iteration env fuel (some task) st = .ok st' →
      ∃ l, st'.log = st.log ++ l ∧
        l.filter MgrAction.isReturn = [.chFifoReturnObject task.id]) ∧
    (∀ fuel, pktRadioManager_iteration env fuel none st = .ok st) := by
  refine ⟨?_, ?_, fun _ => rfl⟩
  · have hcmd : ∃ fuel st1, pktRadioManager_command env fuel task st = .ok st1 := by
      obtain ⟨id, command, type, bf, sq, cb, hd⟩ := task
      cases command
      case PKT_RADIO_CLOSE =>
        cases type
        case DECODE_AFSK =>
          obtain ⟨⟨driver, decoder, hl, hd'⟩, k, hk⟩ := hclose rfl rfl
          simp only at hl
          obtain ⟨st2, h2⟩ := pktRadioManager_close_wait_terminates env k
            ((st.emit (.pktRegisterEventListener driver.id)).emit (.chEvtSignal decoder))
            (by simpa [MgrState.emit] using hk)
          refine ⟨k + 1, ?_⟩
          simp only [pktRadioManager_command, hl, hd', h2]
          exact ⟨_, rfl⟩
        all_goals exact ⟨0, _, rfl⟩
      all_goals exact ⟨0, _, rfl⟩
    obtain ⟨fuel, st1, h1⟩ := hcmd
    refine ⟨fuel, ?_⟩
    simp only [pktRadioManager_iteration, h1]
    exact ⟨_, rfl⟩
  · intro fuel st' h
    simp only [pktRadioManager_iteration] at h
    split at h
    · simp at h
    · rename_i st1 h1
      obtain ⟨l, hl, hf⟩ := pktRadioManager_command_log env fuel task st st1 h1
      simp only [Except.ok.injEq] at h; subst h
      cases hcb : task.callback
      · exact ⟨l ++ [.chFifoReturnObject task.id], by simp [MgrState.emit, hl],
          by simp [MgrAction.isReturn, hf]⟩
      · rename_i cb
        exact ⟨l ++ [.callback cb task.handler, .chFifoReturnObject task.id],
          by simp [MgrState.emit, hl], by simp [MgrAction.isReturn, hf]⟩

/-- C5 (failing input): an OPEN of type AFSK for which
`pktCreateAFSKDecoder` returns `NULL` stores the `NULL` driver in
`link_controller`, goes on and returns its task object 44. The CLOSE of type
AFSK that follows reads the event source and `decoder_thd` through that
pointer: the pass stops at the `NULL` dereference for every iteration budget
and task object 45 is not returned to the pool. -/
theorem C5_close_dereferences_null_driver :
    (pktRadioManager_iteration refNullDecoderEnv 0 (some (refOpenTaskOf .DECODE_AFSK))
        (MgrState.start (fun _ => none))).toOption.map (fun s => (s.log, s.link_controller 1))
      = some ([.pktBufferManagerCreate 1, .pktCallbackManagerCreate 1,
               .pktCreateAFSKDecoder 1, .Si446x_conditional_init, .chFifoReturnObject 44],
              none) ∧
    (∀ fuel, pktRadioManager_command refNullDecoderEnv fuel (refCloseTaskOf .DECODE_AFSK)
        (mgrEndState (pktRadioManager_iteration refNullDecoderEnv 0
          (some (refOpenTaskOf .DECODE_AFSK)) (MgrState.start (fun _ => none))))
      = .error .nullPointer) ∧
    (∀ fuel, pktRadioManager refNullDecoderEnv fuel
        [some (refOpenTaskOf .DECODE_AFSK), some (refCloseTaskOf .DECODE_AFSK)]
        (MgrState.start (fun _ => none)) = .error .nullPointer) :=
  ⟨by decide, fun _ => rfl, fun _ => rfl⟩

/-- C6: a TX command processed while `rx_active` is true calls
`pktPauseDecoder` and then `pktResumeDecoder`, once each and in that order;
while `rx_active` is false it calls neither. Nothing else is called and
`rx_active` keeps its value. -/
theorem C6_tx_pauses_and_resumes (env : MgrEnv) (fuel : Nat) (task : radio_task_object_t)
    (st : MgrState) :
    pktRadioManager_command env fuel { task with command := .PKT_RADIO_TX } st =
      .ok { st with log := st.log ++
              (if st.rx_active then
                 [.pktPauseDecoder task.handler, .pktResumeDecoder task.handler]
               else []) } := by
  obtain ⟨rx_active, link_controller, log, nCreate, nFlags⟩ := st
  cases rx_active <;> simp [pktRadioManager_command, MgrState.emit]

/-! ## Feeder threads -/

theorem Grows_refl (P : Action → Bool) (st : RadioState) : Grows P st st :=
  ⟨[], by simp, by simp⟩

theorem Grows_trans {P : Action → Bool} {st1 st2 st3 : RadioState}
    (h12 : Grows P st1 st2) (h23 : Grows P st2 st3) : Grows P st1 st3 := by
  obtain ⟨l1, e1, p1⟩ := h12
  obtain ⟨l2, e2, p2⟩ := h23
  refine ⟨l1 ++ l2, by rw [e2, e1, List.append_assoc], ?_⟩
  intro a ha
  rcases List.mem_append.mp ha with h | h
  · exact p1 a h
  · exact p2 a h

theorem Grows_mono {P Q : Action → Bool} {st st' : RadioState}
    (hPQ : ∀ a, P a = true → Q a = true) (h : Grows P st st') : Grows Q st st' := by
  obtain ⟨l, e, p⟩ := h
  exact ⟨l, e, fun a ha => hPQ a (p a ha)⟩

/-- Appending a list of effects that satisfy `P`. -/
theorem Grows_append {P : Action → Bool} (st st' : RadioState) (l : List Action)
    (hl : st'.log = st.log ++ l) (hp : ∀ a ∈ l, P a = true) : Grows P st st' :=
  ⟨l, hl, hp⟩

theorem Grows_emit {P : Action → Bool} (st : RadioState) (a : Action) (ha : P a = true) :
    Grows P st (st.emit a) :=
  ⟨[a], rfl, by simpa using ha⟩

theorem Si446x_getState_eq (cfg : Si446xDefs) (env : Env) (st : RadioState) :
    (Si446x_getState cfg env st).1 = chipState env st.nRead := by
  simp [Si446x_getState, Si446x_read, chipState, List.getD_eq_getElem?_getD]

theorem Si446x_getState_nRead (cfg : Si446xDefs) (env : Env) (st : RadioState) :
    (Si446x_getState cfg env st).2.nRead = st.nRead + 1 := rfl

theorem Si446x_getState_grows (cfg : Si446xDefs) (env : Env) (st : RadioState) :
    Grows Action.isSetup st (Si446x_getState cfg env st).2 :=
  ⟨[_], rfl, by simp [Action.isSetup]⟩

/-- Every effect of `Si446x_init` is set-up traffic. -/
theorem Si446x_init_actions_setup (cfg : Si446xDefs) :
    ∀ a ∈ Si446x_init_actions cfg, a.isSetup = true := by
  intro a ha
  simp only [Si446x_init_actions, Si446x_init_power_up, Si446x_init_xo_tune,
    Si446x_init_fifo, Si446x_init_modem, List.mem_append] at ha
  rcases ha with ((ha | ha) | ha) | ha
  · simp only [List.mem_cons, List.mem_singleton, List.not_mem_nil, or_false] at ha
    rcases ha with rfl | rfl | rfl | rfl | rfl <;> rfl
  · split at ha
    · simp only [List.mem_singleton] at ha; subst ha; rfl
    · simp at ha
  · simp only [List.mem_cons, List.mem_singleton, List.not_mem_nil, or_false] at ha
    rcases ha with rfl | rfl | rfl | rfl | rfl | rfl | rfl <;> rfl
  · simp only [List.mem_cons, List.mem_singleton, List.not_mem_nil, or_false] at ha
    repeat (rcases ha with rfl | ha; · rfl)

theorem Si446x_conditional_init_grows (cfg : Si446xDefs) (st : RadioState) :
    Grows Action.isSetup st (Si446x_conditional_init cfg st) := by
  unfold Si446x_conditional_init
  split
  · exact ⟨_, rfl, Si446x_init_actions_setup cfg⟩
  · exact Grows_refl _ _

theorem Si446x_conditional_init_nRead (cfg : Si446xDefs) (st : RadioState) :
    (Si446x_conditional_init cfg st).nRead = st.nRead := by
  unfold Si446x_conditional_init
  split <;> rfl

theorem Si446x_write_grows (st : RadioState) (txData : List Nat)
    (h : (Action.spiWrite txData).isSetup = true) :
    Grows Action.isSetup st (Si446x_write st txData) :=
  Grows_emit st _ h

/-- A successful `Si446x_setBandParameters` only adds set-up traffic and
reads nothing. -/
theorem Si446x_setBandParameters_grows (cfg : Si446xDefs) (fl : FloatUnit)
    (st st' : RadioState) (freq step : Nat) (b : Bool)
    (h : Si446x_setBandParameters cfg fl st freq step = .ok (b, st')) :
    Grows Action.isSetup st st' ∧ st'.nRead = st.nRead := by
  unfold Si446x_setBandParameters at h
  split at h
  · simp only [Except.ok.injEq, Prod.mk.injEq] at h
    obtain ⟨_, rfl⟩ := h
    exact ⟨Grows_refl _ _, rfl⟩
  · simp only [] at h
    split at h
    · simp at h
    · split at h
      · simp at h
      · split at h
        · simp at h
        · simp only [Except.ok.injEq, Prod.mk.injEq] at h
          obtain ⟨_, rfl⟩ := h
          refine ⟨?_, ?_⟩
          · refine Grows_trans (Si446x_conditional_init_grows cfg st) ?_
            exact Grows_trans (Si446x_write_grows _ _ (by rfl))
              (Grows_trans (Si446x_write_grows _ _ (by rfl))
                (Si446x_write_grows _ _ (by rfl)))
          · simp [Si446x_write, RadioState.emit, Si446x_conditional_init_nRead]

/-- A call of `Si446x_setBandParameters` has a result unless the frequency lies in
705..900 MHz, given a reference clock of at least 12 Hz. -/
theorem Si446x_setBandParameters_total (cfg : Si446xDefs) (fl : FloatUnit) (st : RadioState)
    (freq step : Nat) (hband : ¬ (705000000 ≤ freq ∧ freq ≤ 900000000))
    (hclk : 24 ≤ 2 * (cfg.Si446x_CCLK % 2^32) % 2^32) :
    ∃ b st', Si446x_setBandParameters cfg fl st freq step = .ok (b, st') := by
  by_cases hr : freq < 144000000 ∨ freq > 900000000
  · exact ⟨false, st, by unfold Si446x_setBandParameters; rw [if_pos hr]⟩
  · exact ⟨true, _, Si446x_setBandParameters_ok cfg fl st freq step (by omega) (by omega) hclk⟩

theorem Si446x_pauseReceive_wait_grows (cfg : Si446xDefs) (env : Env) (fuel : Nat) :
    ∀ st st', Si446x_pauseReceive_wait cfg env fuel st = .ok st' →
      Grows Action.isSetup st st' := by
  induction fuel with
  | zero => intro st st' h; simp [Si446x_pauseReceive_wait] at h
  | succ n ih =>
    intro st st' h
    unfold Si446x_pauseReceive_wait at h
    simp only [] at h
    split at h
    · exact Grows_trans (Si446x_getState_grows cfg env st) (ih _ _ h)
    · simp only [Except.ok.injEq] at h
      subst h
      exact Si446x_getState_grows cfg env st

theorem Si446x_pauseReceive_grows (cfg : Si446xDefs) (env : Env) (fuel : Nat)
    (st st' : RadioState) (h : Si446x_pauseReceive cfg env fuel st = .ok st') :
    Grows Action.isSetup st st' := by
  unfold Si446x_pauseReceive at h
  simp only [] at h
  split at h
  · refine Grows_trans (Si446x_getState_grows cfg env st) ?_
    refine Grows_trans ?_ (Si446x_pauseReceive_wait_grows cfg env fuel _ _ h)
    exact Si446x_write_grows _ _ (by rfl)
  · simp only [Except.ok.injEq] at h
    subst h
    exact Si446x_getState_grows cfg env st

/-- The wait of `Si446x_pauseReceive` ends once the chip reports a state
other than RX: if it does so `k` reads from now, any budget above `k` is
enough. -/
theorem Si446x_pauseReceive_wait_terminates (cfg : Si446xDefs) (env : Env) (k : Nat) :
    ∀ fuel st, k < fuel → chipState env (st.nRead + k) ≠ cfg.Si446x_STATE_RX →
      ∃ st', Si446x_pauseReceive_wait cfg env fuel st = .ok st' := by
  induction k with
  | zero =>
    intro fuel st hf h
    obtain ⟨f, rfl⟩ : ∃ f, fuel = f + 1 := ⟨fuel - 1, by omega⟩
    unfold Si446x_pauseReceive_wait
    simp only [Si446x_getState_eq]
    rw [if_neg (by simpa using h)]
    exact ⟨_, rfl⟩
  | succ n ih =>
    intro fuel st hf h
    obtain ⟨f, rfl⟩ : ∃ f, fuel = f + 1 := ⟨fuel - 1, by omega⟩
    unfold Si446x_pauseReceive_wait
    simp only []
    split
    · apply ih f _ (by omega)
      rw [Si446x_getState_nRead]
      rw [show st.nRead + 1 + n = st.nRead + (n + 1) by omega]
      exact h
    · exact ⟨_, rfl⟩

/-- A call of `Si446x_pauseReceive` ends once the chip reports a state other than
RX. -/
theorem Si446x_pauseReceive_terminates (cfg : Si446xDefs) (env : Env) (k fuel : Nat)
    (st : RadioState) (hf : k < fuel)
    (h : chipState env (st.nRead + k) ≠ cfg.Si446x_STATE_RX) :
    ∃ st', Si446x_pauseReceive cfg env fuel st = .ok st' := by
  unfold Si446x_pauseReceive
  simp only []
  split
  · rename_i hrx
    cases k with
    | zero =>
      rw [Si446x_getState_eq] at hrx
      exact absurd hrx (by simpa using h)
    | succ n =>
      exact Si446x_pauseReceive_wait_terminates cfg env n fuel
        (Si446x_setReadyState (Si446x_getState cfg env st).2) (by omega) (by
          have : (Si446x_setReadyState (Si446x_getState cfg env st).2).nRead = st.nRead + 1 :=
            rfl
          rw [this, show st.nRead + 1 + n = st.nRead + (n + 1) by omega]
          exact h)
  · exact ⟨_, rfl⟩

theorem Si446x_filter_actions_setup (coeff : List Nat) :
    ∀ a ∈ Si446x_filter_actions coeff, a.isSetup = true := by
  intro a ha
  simp only [Si446x_filter_actions, List.mem_map] at ha
  obtain ⟨i, _, rfl⟩ := ha
  rfl

theorem Si446x_setModemAFSK_TX_grows (cfg : Si446xDefs) (st : RadioState) :
    Grows Action.isSetup st (Si446x_setModemAFSK_TX cfg st) := by
  unfold Si446x_setModemAFSK_TX
  exact Grows_trans (Si446x_write_grows st _ (by rfl))
    (Grows_trans (Si446x_write_grows _ _ (by rfl))
      (Grows_trans (Si446x_write_grows _ _ (by rfl))
        ⟨_, rfl, Si446x_filter_actions_setup _⟩))

theorem Si446x_setModem2FSK_TX_grows (cfg : Si446xDefs) (st : RadioState) (speed : Nat) :
    Grows Action.isSetup st (Si446x_setModem2FSK_TX cfg st speed) := by
  unfold Si446x_setModem2FSK_TX
  exact Grows_trans (Si446x_write_grows st _ (by rfl))
    (Grows_trans (Si446x_write_grows _ _ (by rfl))
      (Grows_trans (Si446x_write_grows _ _ (by rfl))
        ⟨_, rfl, Si446x_filter_actions_setup _⟩))

/-- Set-up traffic contains no FIFO write, no START_TX command, no timer
start and no event wait. -/
theorem Action.isSetup_quiet (a : Action) (h : a.isSetup = true) :
    a.isFifoWrite = false ∧ a.isStartTx = false ∧ a.isTimerStart = false ∧
    a.isEvtWait = false := by
  cases a <;> simp_all [Action.isSetup, Action.isFifoWrite, Action.isStartTx,
    Action.isTimerStart, Action.isEvtWait]

/-- The set-up part of the AFSK feeder takes the radio, then only produces
set-up traffic, then initialises the timer object. -/
theorem afsk_feeder_setup_log (cfg : Si446xDefs) (fl : FloatUnit) (env : Env) (fuel : Nat)
    (pp : packet_t) (st st' : RadioState)
    (h : afsk_feeder_setup cfg fl env fuel pp st = .ok st') :
    ∃ l, st'.log = st.log ++ .pktAcquireRadio :: l ++ [.chVTObjectInit] ∧
      ∀ a ∈ l, a.isSetup = true := by
  unfold afsk_feeder_setup at h
  simp only [] at h
  split at h
  · simp at h
  · rename_i b st1 hb
    split at h
    · simp at h
    · rename_i st2 hp
      simp only [Except.ok.injEq] at h
      subst h
      have g1 := Si446x_conditional_init_grows cfg (st.emit .pktAcquireRadio)
      have g2 := (Si446x_setBandParameters_grows cfg fl _ _ _ _ _ hb).1
      have g3 := Si446x_pauseReceive_grows cfg env fuel _ _ hp
      have g4 := Si446x_setModemAFSK_TX_grows cfg st2
      obtain ⟨l, hl, hs⟩ := Grows_trans g1 (Grows_trans g2 (Grows_trans g3 g4))
      exact ⟨l, by simp [RadioState.emit, hl], hs⟩

/-- The set-up part of the 2FSK feeder takes the radio, then only produces
set-up traffic, then initialises the timer object. -/
theorem fsk_feeder_setup_log (cfg : Si446xDefs) (fl : FloatUnit) (env : Env) (fuel : Nat)
    (pp : packet_t) (st st' : RadioState)
    (h : fsk_feeder_setup cfg fl env fuel pp st = .ok st') :
    ∃ l, st'.log = st.log ++ .pktAcquireRadio :: l ++ [.chVTObjectInit] ∧
      ∀ a ∈ l, a.isSetup = true := by
  unfold fsk_feeder_setup at h
  simp only [] at h
  split at h
  · simp at h
  · rename_i st1 hp
    split at h
    · simp at h
    · rename_i b st2 hb
      simp only [Except.ok.injEq] at h
      subst h
      have g1 := Si446x_conditional_init_grows cfg (st.emit .pktAcquireRadio)
      have g2 := Si446x_pauseReceive_grows cfg env fuel _ _ hp
      have g3 := (Si446x_setBandParameters_grows cfg fl _ _ _ _ _ hb).1
      have g4 := Si446x_setModem2FSK_TX_grows cfg st2 9600
      obtain ⟨l, hl, hs⟩ := Grows_trans g1 (Grows_trans g2 (Grows_trans g3 g4))
      exact ⟨l, by simp [RadioState.emit, hl], hs⟩

/-- The set-up part of the AFSK feeder has a result once the chip reports a
state other than RX, unless the frequency lies in 705..900 MHz. -/
theorem afsk_feeder_setup_terminates (cfg : Si446xDefs) (fl : FloatUnit) (env : Env)
    (pp : packet_t) (st : RadioState) (k fuel : Nat) (hf : k < fuel)
    (hband : ¬ (705000000 ≤ pp.base_frequency ∧ pp.base_frequency ≤ 900000000))
    (hclk : 24 ≤ 2 * (cfg.Si446x_CCLK % 2^32) % 2^32)
    (hrx : chipState env (st.nRead + k) ≠ cfg.Si446x_STATE_RX) :
    ∃ st', afsk_feeder_setup cfg fl env fuel pp st = .ok st' := by
  obtain ⟨b, st1, hb⟩ := Si446x_setBandParameters_total cfg fl
    (Si446x_conditional_init cfg (st.emit .pktAcquireRadio)) pp.base_frequency pp.radio_step
    hband hclk
  have hn : st1.nRead = st.nRead := by
    rw [(Si446x_setBandParameters_grows cfg fl _ _ _ _ _ hb).2, Si446x_conditional_init_nRead]
    rfl
  obtain ⟨st2, hp⟩ := Si446x_pauseReceive_terminates cfg env k fuel st1 hf (by rw [hn]; exact hrx)
  unfold afsk_feeder_setup
  simp only [hb, hp]
  exact ⟨_, rfl⟩

/-- The set-up part of the 2FSK feeder has a result once the chip reports a
state other than RX, unless the frequency lies in 705..900 MHz. -/
theorem fsk_feeder_setup_terminates (cfg : Si446xDefs) (fl : FloatUnit) (env : Env)
    (pp : packet_t) (st : RadioState) (k fuel : Nat) (hf : k < fuel)
    (hband : ¬ (705000000 ≤ pp.base_frequency ∧ pp.base_frequency ≤ 900000000))
    (hclk : 24 ≤ 2 * (cfg.Si446x_CCLK % 2^32) % 2^32)
    (hrx : chipState env (st.nRead + k) ≠ cfg.Si446x_STATE_RX) :
    ∃ st', fsk_feeder_setup cfg fl env fuel pp st = .ok st' := by
  have hn : (Si446x_conditional_init cfg (st.emit .pktAcquireRadio)).nRead = st.nRead := by
    rw [Si446x_conditional_init_nRead]; rfl
  obtain ⟨st1, hp⟩ := Si446x_pauseReceive_terminates cfg env k fuel
    (Si446x_conditional_init cfg (st.emit .pktAcquireRadio)) hf (by rw [hn]; exact hrx)
  obtain ⟨b, st2, hb⟩ := Si446x_setBandParameters_total cfg fl st1 pp.base_frequency
    pp.radio_step hband hclk
  unfold fsk_feeder_setup
  simp only [hp, hb]
  exact ⟨_, rfl⟩

/-- C7: in both feeders, when the sizing pass of the encoder returns 0 the
feeder releases the packet and exits with `MSG_RESET`, and nothing it did
since it started is a FIFO write (opcode 0x66), a START_TX command (opcode
0x31) or a start of the timeout timer. The exit is reached with every
iteration budget above `k` when the chip stops reporting RX `k` reads after
the start; frequencies in 705..900 MHz, where the band set-up divides by
zero, are left out. -/
theorem C7_no_data_exit (cfg : Si446xDefs) (fl : FloatUnit) (env : Env)
    (enc : StreamEncoder) (pp : packet_t) (st : RadioState) (k fuel : Nat)
    (hall : enc.all = 0) (hf : k < fuel)
    (hband : ¬ (705000000 ≤ pp.base_frequency ∧ pp.base_frequency ≤ 900000000))
    (hclk : 24 ≤ 2 * (cfg.Si446x_CCLK % 2^32) % 2^32)
    (hrx : chipState env (st.nRead + k) ≠ cfg.Si446x_STATE_RX) :
    (∃ st' l, min_si_fifo_feeder_afsk cfg fl env enc fuel pp st = .ok (.MSG_RESET, st') ∧
      st'.log = st.log ++ l ++
        [.pktReleaseSendObject, .pktScheduleThreadRelease, .chThdExit .MSG_RESET] ∧
      ∀ a ∈ l, a.isFifoWrite = false ∧ a.isStartTx = false ∧ a.isTimerStart = false) ∧
    (∃ st' l, min_si_fifo_feeder_fsk cfg fl env enc fuel pp st = .ok (.MSG_RESET, st') ∧
      st'.log = st.log ++ l ++
        [.pktReleaseSendObject, .pktScheduleThreadRelease, .chThdExit .MSG_RESET] ∧
      ∀ a ∈ l, a.isFifoWrite = false ∧ a.isStartTx = false ∧ a.isTimerStart = false) := by
  constructor
  · obtain ⟨st1, h1⟩ := afsk_feeder_setup_terminates cfg fl env pp st k fuel hf hband hclk hrx
    obtain ⟨l, hl, hs⟩ := afsk_feeder_setup_log cfg fl env fuel pp st st1 h1
    refine ⟨(feeder_no_data st1).2, .pktAcquireRadio :: l ++ [.chVTObjectInit], ?_, ?_, ?_⟩
    · simp only [min_si_fifo_feeder_afsk, h1, hall, if_true, feeder_no_data]
    · simp [feeder_no_data, RadioState.emit, hl]
    · intro a ha
      simp only [List.cons_append, List.mem_cons, List.mem_append, List.mem_singleton,
        List.not_mem_nil, or_false] at ha
      rcases ha with rfl | ha | rfl
      · exact ⟨rfl, rfl, rfl⟩
      · obtain ⟨q1, q2, q3, _⟩ := Action.isSetup_quiet a (hs a ha)
        exact ⟨q1, q2, q3⟩
      · exact ⟨rfl, rfl, rfl⟩
  · obtain ⟨st1, h1⟩ := fsk_feeder_setup_terminates cfg fl env pp st k fuel hf hband hclk hrx
    obtain ⟨l, hl, hs⟩ := fsk_feeder_setup_log cfg fl env fuel pp st st1 h1
    refine ⟨(feeder_no_data st1).2, .pktAcquireRadio :: l ++ [.chVTObjectInit], ?_, ?_, ?_⟩
    · simp only [min_si_fifo_feeder_fsk, h1, hall, if_true, feeder_no_data]
    · simp [feeder_no_data, RadioState.emit, hl]
    · intro a ha
      simp only [List.cons_append, List.mem_cons, List.mem_append, List.mem_singleton,
        List.not_mem_nil, or_false] at ha
      rcases ha with rfl | ha | rfl
      · exact ⟨rfl, rfl, rfl⟩
      · obtain ⟨q1, q2, q3, _⟩ := Action.isSetup_quiet a (hs a ha)
        exact ⟨q1, q2, q3⟩
      · exact ⟨rfl, rfl, rfl⟩

/-- Witness of C7: the reference packet with an empty stream, on an idle
chip, from power-up. -/
theorem C7_no_data_exit_witness :
    (∃ st' l, min_si_fifo_feeder_afsk refDefs refFloat refIdleEnv refEmptyEncoder 1 refPacket
        RadioState.powerUp = .ok (.MSG_RESET, st') ∧
      st'.log = RadioState.powerUp.log ++ l ++
        [.pktReleaseSendObject, .pktScheduleThreadRelease, .chThdExit .MSG_RESET] ∧
      ∀ a ∈ l, a.isFifoWrite = false ∧ a.isStartTx = false ∧ a.isTimerStart = false) ∧
    (∃ st' l, min_si_fifo_feeder_fsk refDefs refFloat refIdleEnv refEmptyEncoder 1 refPacket
        RadioState.powerUp = .ok (.MSG_RESET, st') ∧
      st'.log = RadioState.powerUp.log ++ l ++
        [.pktReleaseSendObject, .pktScheduleThreadRelease, .chThdExit .MSG_RESET] ∧
      ∀ a ∈ l, a.isFifoWrite = false ∧ a.isStartTx = false ∧ a.isTimerStart = false) :=
  C7_no_data_exit refDefs refFloat refIdleEnv refEmptyEncoder refPacket RadioState.powerUp 0 1
    (by decide) (by decide) (by decide) (by decide) (by decide)

theorem Action.isSetup_isTransmitStep (a : Action) (h : a.isSetup = true) :
    a.isTransmitStep = true := by
  simp [Action.isTransmitStep, h]

theorem Action.isTransmitStep_noTimeout (a : Action) (h : a.isTransmitStep = true) :
    a.noTimeout = true := by
  cases a <;> simp_all [Action.isTransmitStep, Action.isSetup, Action.isStartTx,
    Action.noTimeout, Action.isTimeoutEvt]

theorem Action.isSetup_noTimeout (a : Action) (h : a.isSetup = true) :
    a.noTimeout = true :=
  a.isTransmitStep_noTimeout (a.isSetup_isTransmitStep h)

theorem chThdSleep_grows (st : RadioState) (us : Nat) :
    Grows Action.isSetup st (chThdSleep st us) :=
  Grows_emit st _ rfl

theorem Si446x_sampleCCA_grows (env : Env) (n : Nat) :
    ∀ cca st, Grows Action.isSetup st (Si446x_sampleCCA env n cca st).2 := by
  induction n with
  | zero => intro cca st; exact Grows_refl _ _
  | succ m ih =>
    intro cca st
    unfold Si446x_sampleCCA
    refine Grows_trans ?_ (ih _ _)
    exact ⟨[.chThdSleep 100], rfl, by simp [Action.isSetup]⟩

theorem Si446x_getLatchedCCA_grows (env : Env) (st : RadioState) (ms : Nat) :
    Grows Action.isSetup st (Si446x_getLatchedCCA env st ms).2 :=
  Si446x_sampleCCA_grows env ((ms % 256) * 10) 0 st

theorem Si446x_channelBusy_grows (cfg : Si446xDefs) (env : Env) (st : RadioState) :
    Grows Action.isSetup st (Si446x_channelBusy cfg env st).2 := by
  unfold Si446x_channelBusy
  simp only []
  split
  · exact Si446x_getState_grows cfg env st
  · exact Grows_trans (Si446x_getState_grows cfg env st)
      (Si446x_getLatchedCCA_grows env (Si446x_getState cfg env st).2 50)

theorem Si446x_waitClearChannel_grows (cfg : Si446xDefs) (env : Env) (t0 sql_timeout : Nat)
    (fuel : Nat) :
    ∀ st st', Si446x_waitClearChannel cfg env t0 sql_timeout fuel st = .ok st' →
      Grows Action.isSetup st st' := by
  induction fuel with
  | zero => intro st st' h; simp [Si446x_waitClearChannel] at h
  | succ n ih =>
    intro st st' h
    unfold Si446x_waitClearChannel at h
    simp only [] at h
    have gb := Si446x_channelBusy_grows cfg env st
    split at h
    · split at h
      · refine Grows_trans gb (Grows_trans ?_ (ih _ _ h))
        exact ⟨[.chThdSleep 100], rfl, by simp [Action.isSetup]⟩
      · simp only [Except.ok.injEq] at h
        subst h
        exact Grows_trans gb ⟨[], by simp [chVTGetSystemTime], by simp⟩
    · simp only [Except.ok.injEq] at h
      subst h
      exact gb

theorem Si446x_waitTXState_grows (cfg : Si446xDefs) (env : Env) (fuel : Nat) :
    ∀ st st', Si446x_waitTXState cfg env fuel st = .ok st' → Grows Action.isSetup st st' := by
  induction fuel with
  | zero => intro st st' h; simp [Si446x_waitTXState] at h
  | succ n ih =>
    intro st st' h
    unfold Si446x_waitTXState at h
    simp only [] at h
    split at h
    · exact Grows_trans (Si446x_getState_grows cfg env st)
        (Grows_trans (chThdSleep_grows _ _) (ih _ _ h))
    · simp only [Except.ok.injEq] at h
      subst h
      exact Si446x_getState_grows cfg env st

/-- A finished `Si446x_transmit` has only produced set-up traffic and
START_TX commands. -/
theorem Si446x_transmit_grows (cfg : Si446xDefs) (fl : FloatUnit) (env : Env) (fuel : Nat)
    (st st' : RadioState) (freq step chan power size rssi sql_timeout : Nat) (b : Bool)
    (h : Si446x_transmit cfg fl env fuel st freq step chan power size rssi sql_timeout
      = .ok (b, st')) :
    Grows Action.isTransmitStep st st' := by
  unfold Si446x_transmit at h
  simp only [] at h
  split at h
  · simp only [Except.ok.injEq, Prod.mk.injEq] at h
    obtain ⟨_, rfl⟩ := h
    exact Grows_refl _ _
  · have g0 : Grows Action.isSetup st
        (if (Si446x_getState cfg env st).1 = cfg.Si446x_STATE_RX then
          chThdSleep (Si446x_setReadyState (Si446x_getState cfg env st).2) 1000
         else (Si446x_getState cfg env st).2) := by
      split
      · exact Grows_trans (Si446x_getState_grows cfg env st)
          (Grows_trans (Si446x_write_grows _ _ (by rfl)) (chThdSleep_grows _ _))
      · exact Si446x_getState_grows cfg env st
    have g1 := Grows_trans g0 (Si446x_write_grows _
      (Si446x_setProperty8_msg (cfg.prop .Si446x_MODEM_RSSI_THRESH) rssi) (by rfl))
    split at h
    · simp at h
    · rename_i b1 st1 hb
      have g2 := Grows_trans g1 (Si446x_setBandParameters_grows cfg fl _ _ _ _ _ hb).1
      have g3 := Grows_trans g2 (Si446x_write_grows st1
        [0x32, chan % 256, 0x00, 0x00, 0x00, 0x00, 0x08, 0x08] (by rfl))
      have g4 := Grows_trans g3 (Si446x_channelBusy_grows cfg env (Si446x_setRXState st1 chan))
      split at h
      · simp at h
      · rename_i st2 hw
        have g5 : Grows Action.isSetup st st2 := by
          split at hw
          · refine Grows_trans g4 (Grows_trans ?_
              (Si446x_waitClearChannel_grows cfg env _ _ _ _ _ hw))
            exact ⟨[], by simp [chVTGetSystemTime], by simp⟩
          · simp only [Except.ok.injEq] at hw
            subst hw
            exact g4
        split at h
        · simp at h
        · rename_i st3 ht
          simp only [Except.ok.injEq, Prod.mk.injEq] at h
          obtain ⟨_, rfl⟩ := h
          have g6 := Grows_trans g5 (Grows_trans (Si446x_write_grows st2 [0x34, 0x03] (by rfl))
            (Si446x_write_grows _ [0x11, 0x22, 0x01, 0x01, power % 256] (by rfl)))
          have g7 : Grows Action.isTransmitStep
              (Si446x_setPowerLevel (Si446x_setReadyState st2) power)
              (Si446x_setTXState cfg (Si446x_setPowerLevel (Si446x_setReadyState st2) power)
                chan size) :=
            Grows_emit _ _ (by rfl)
          exact Grows_trans (Grows_mono Action.isSetup_isTransmitStep g6)
            (Grows_trans g7 (Grows_mono Action.isSetup_isTransmitStep
              (Si446x_waitTXState_grows cfg env fuel _ _ ht)))

theorem FeedEnds_prepend {st0 st : RadioState} {fs : FeedState}
    (g : Grows Action.noTimeout st0 st) (h : FeedEnds st fs) : FeedEnds st0 fs := by
  obtain ⟨l0, e0, p0⟩ := g
  rcases h with ⟨hm, hg⟩ | ⟨hm, pre, us, e, he, hp, hl⟩
  · exact Or.inl ⟨hm, Grows_trans ⟨l0, e0, p0⟩ hg⟩
  · refine Or.inr ⟨hm, l0 ++ pre, us, e, he, ?_, ?_⟩
    · intro a ha
      rcases List.mem_append.mp ha with h | h
      · exact p0 a h
      · exact hp a h
    · rw [hl, e0]; simp

theorem FeederEnds_prepend {cfg : Si446xDefs} {st0 st st' : RadioState} {msg : msg_t}
    (g : Grows Action.noTimeout st0 st) (h : FeederEnds cfg st msg st') :
    FeederEnds cfg st0 msg st' := by
  obtain ⟨l0, e0, p0⟩ := g
  have p0' : ∀ a ∈ l0, a.isTimeoutEvt = false := by
    intro a ha; simpa [Action.noTimeout] using p0 a ha
  obtain ⟨l, hl, h⟩ := h
  refine ⟨l0 ++ l, by rw [hl, e0, List.append_assoc], ?_⟩
  rcases h with ⟨hm, hq⟩ | ⟨hm, pre, us, e, lower, rx, he, hp, hl'⟩
  · refine Or.inl ⟨hm, ?_⟩
    intro a ha
    rcases List.mem_append.mp ha with h | h
    · exact p0' a h
    · exact hq a h
  · refine Or.inr ⟨hm, l0 ++ pre, us, e, lower, rx, he, ?_, by rw [hl', List.append_assoc]⟩
    intro a ha
    rcases List.mem_append.mp ha with h | h
    · exact p0' a h
    · exact hp a h

theorem Si446x_upsampleStep_frame (buf : List Nat) (i b b' : Nat) (st st' : RadioState)
    (h : Si446x_upsampleStep buf i b st = .ok (b', st')) :
    st'.log = st.log ∧ st'.nEvt = st.nEvt ∧ st'.nRead = st.nRead := by
  unfold Si446x_upsampleStep at h
  simp only [] at h
  split at h
  · simp at h
  · split at h <;>
      (simp only [Except.ok.injEq, Prod.mk.injEq] at h; obtain ⟨_, rfl⟩ := h;
       exact ⟨rfl, rfl, rfl⟩)

theorem Si446x_upsampleLoop_frame (buf : List Nat) (n : Nat) :
    ∀ i b b' st st', Si446x_upsampleLoop buf n i b st = .ok (b', st') →
      st'.log = st.log ∧ st'.nEvt = st.nEvt ∧ st'.nRead = st.nRead := by
  induction n with
  | zero =>
    intro i b b' st st' h
    simp only [Si446x_upsampleLoop, Except.ok.injEq, Prod.mk.injEq] at h
    obtain ⟨_, rfl⟩ := h
    exact ⟨rfl, rfl, rfl⟩
  | succ m ih =>
    intro i b b' st st' h
    unfold Si446x_upsampleLoop at h
    split at h
    · simp at h
    · rename_i b1 st1 h1
      obtain ⟨a1, a2, a3⟩ := Si446x_upsampleStep_frame buf i b b1 st st1 h1
      obtain ⟨c1, c2, c3⟩ := ih _ _ _ _ _ h
      exact ⟨c1.trans a1, c2.trans a2, c3.trans a3⟩

/-- Loading the local buffer changes neither the log nor the input
cursors. -/
theorem Si446x_loadLocalBuffer_frame (layer0 : List Nat) (n : Nat) :
    ∀ st bs st', Si446x_loadLocalBuffer layer0 n st = .ok (bs, st') →
      st'.log = st.log ∧ st'.nEvt = st.nEvt ∧ st'.nRead = st.nRead := by
  induction n with
  | zero =>
    intro st bs st' h
    simp only [Si446x_loadLocalBuffer, Except.ok.injEq, Prod.mk.injEq] at h
    obtain ⟨_, rfl⟩ := h
    exact ⟨rfl, rfl, rfl⟩
  | succ m ih =>
    intro st bs st' h
    unfold Si446x_loadLocalBuffer at h
    split at h
    · simp at h
    · rename_i b1 st1 h1
      obtain ⟨a1, a2, a3⟩ := Si446x_upsampleLoop_frame layer0 8 0 0 b1 st st1 h1
      split at h
      · simp at h
      · rename_i bs2 st2 h2
        simp only [Except.ok.injEq, Prod.mk.injEq] at h
        obtain ⟨_, rfl⟩ := h
        obtain ⟨c1, c2, c3⟩ := ih _ _ _ h2
        exact ⟨c1.trans a1, c2.trans a2, c3.trans a3⟩

theorem Si446x_getTXfreeFIFO_grows (cfg : Si446xDefs) (env : Env) (st : RadioState) :
    Grows Action.noTimeout st (Si446x_getTXfreeFIFO cfg env st).2 :=
  ⟨[_], rfl, by simp [Action.noTimeout, Action.isTimeoutEvt]⟩

theorem Si446x_writeFIFO_grows (st : RadioState) (msg : List Nat) (size : Nat) :
    Grows Action.noTimeout st (Si446x_writeFIFO st msg size) :=
  ⟨[_], rfl, by simp [Action.noTimeout, Action.isTimeoutEvt]⟩

theorem fsk_feed_loop_ends (cfg : Si446xDefs) (env : Env) (layer0 : List Nat) (all : Nat)
    (fuel : Nat) :
    ∀ bufp c lower st fs, fsk_feed_loop cfg env layer0 all fuel bufp c lower st = .ok fs →
      FeedEnds st fs := by
  induction fuel with
  | zero => intro bufp c lower st fs h; simp [fsk_feed_loop] at h
  | succ n ih =>
    intro bufp c lower st fs h
    unfold fsk_feed_loop at h
    simp only [] at h
    split at h
    · generalize (if (Si446x_getTXfreeFIFO cfg env st).1 > all - c then (all - c) % 256
        else (Si446x_getTXfreeFIFO cfg env st).1) = more at h
      generalize (if (Si446x_getTXfreeFIFO cfg env st).1 > lower then
        (Si446x_getTXfreeFIFO cfg env st).1 else lower) = lower1 at h
      have g := Grows_trans (Si446x_getTXfreeFIFO_grows cfg env st)
        (Si446x_writeFIFO_grows (Si446x_getTXfreeFIFO cfg env st).2 (layer0.drop bufp) more)
      split at h
      · rename_i hev
        simp only [Except.ok.injEq] at h
        subst h
        refine FeedEnds_prepend g (Or.inr ⟨rfl, [], 104 * 8 * 10, _, hev, by simp, ?_⟩)
        simp [chEvtWaitAnyTimeout, Si446x_setReadyState, Si446x_write, RadioState.emit]
      · rename_i hev
        refine FeedEnds_prepend (Grows_trans g ?_) (ih _ _ _ _ _ h)
        refine ⟨[_], rfl, ?_⟩
        simp only [chEvtWaitAnyTimeout, ne_eq, Decidable.not_not] at hev
        simp [Action.noTimeout, Action.isTimeoutEvt, hev]
    · simp only [Except.ok.injEq] at h
      subst h
      exact Or.inl ⟨rfl, Grows_refl _ _⟩

theorem afsk_feed_loop_ends (cfg : Si446xDefs) (env : Env) (layer0 : List Nat) (all : Nat)
    (fuel : Nat) :
    ∀ c lower st fs, afsk_feed_loop cfg env layer0 all fuel c lower st = .ok fs →
      FeedEnds st fs := by
  induction fuel with
  | zero => intro c lower st fs h; simp [afsk_feed_loop] at h
  | succ n ih =>
    intro c lower st fs h
    unfold afsk_feed_loop at h
    simp only [] at h
    split at h
    · generalize (if (Si446x_getTXfreeFIFO cfg env st).1 > all - c then (all - c) % 256
        else (Si446x_getTXfreeFIFO cfg env st).1) = more at h
      generalize (if (Si446x_getTXfreeFIFO cfg env st).1 > lower then
        (Si446x_getTXfreeFIFO cfg env st).1 else lower) = lower1 at h
      split at h
      · simp at h
      · rename_i localBuffer st1 hload
        obtain ⟨hlog, _, _⟩ := Si446x_loadLocalBuffer_frame layer0 _ _ _ _ hload
        have g : Grows Action.noTimeout st (Si446x_writeFIFO st1 localBuffer more) := by
          refine Grows_trans (Si446x_getTXfreeFIFO_grows cfg env st)
            (Grows_trans ?_ (Si446x_writeFIFO_grows st1 _ _))
          exact ⟨[], by simp [hlog], by simp⟩
        split at h
        · rename_i hev
          simp only [Except.ok.injEq] at h
          subst h
          refine FeedEnds_prepend g (Or.inr ⟨rfl, [], 833 * 8, _, hev, by simp, ?_⟩)
          simp [chEvtWaitAnyTimeout, Si446x_setReadyState, Si446x_write, RadioState.emit]
        · rename_i hev
          refine FeedEnds_prepend (Grows_trans g ?_) (ih _ _ _ _ h)
          refine ⟨[_], rfl, ?_⟩
          simp only [chEvtWaitAnyTimeout, ne_eq, Decidable.not_not] at hev
          simp [Action.noTimeout, Action.isTimeoutEvt, hev]
    · simp only [Except.ok.injEq] at h
      subst h
      exact Or.inl ⟨rfl, Grows_refl _ _⟩

theorem feeder_wait_tx_end_grows (cfg : Si446xDefs) (env : Env) (exit_msg : msg_t)
    (us fuel : Nat) :
    ∀ st st', feeder_wait_tx_end cfg env exit_msg us fuel st = .ok st' →
      Grows Action.isSetup st st' := by
  induction fuel with
  | zero => intro st st' h; simp [feeder_wait_tx_end] at h
  | succ n ih =>
    intro st st' h
    unfold feeder_wait_tx_end at h
    simp only [] at h
    split at h
    · exact Grows_trans (Si446x_getState_grows cfg env st)
        (Grows_trans (chThdSleep_grows _ _) (ih _ _ h))
    · simp only [Except.ok.injEq] at h
      subst h
      exact Si446x_getState_grows cfg env st

/-- After a timeout the completion wait evaluates its condition once, with
one state request, and does not run its body. -/
theorem feeder_wait_tx_end_timeout (cfg : Si446xDefs) (env : Env) (us fuel : Nat)
    (st : RadioState) :
    feeder_wait_tx_end cfg env .MSG_TIMEOUT us (fuel + 1) st =
      .ok (Si446x_getState cfg env st).2 := by
  unfold feeder_wait_tx_end
  simp

/-- The end of a feeder after a feed loop that ended as `FeedEnds`
describes. -/
theorem feeder_finish_ends (cfg : Si446xDefs) (env : Env) (fuel us : Nat) (st : RadioState)
    (fs : FeedState) (msg : msg_t) (st' : RadioState) (hfs : FeedEnds st fs)
    (h : feeder_finish cfg env fuel us fs = .ok (msg, st')) :
    FeederEnds cfg st msg st' := by
  unfold feeder_finish at h
  simp only [] at h
  split at h
  · simp at h
  · rename_i st1 hw
    simp only [Except.ok.injEq, Prod.mk.injEq] at h
    obtain ⟨rfl, rfl⟩ := h
    rcases hfs with ⟨hm, l0, e0, p0⟩ | ⟨hm, pre, us', e, he, hp, hl⟩
    · obtain ⟨l1, e1, p1⟩ := feeder_wait_tx_end_grows cfg env _ _ _ _ _ hw
      refine ⟨l0 ++ .chVTReset :: l1 ++ [.TRACE_lowest_free fs.lower, .pktReleaseSendObject,
        .pktScheduleThreadRelease, .chThdExit fs.exit_msg], ?_, Or.inl ⟨by simp [hm], ?_⟩⟩
      · simp only [RadioState.emit] at e1 ⊢
        rw [e1, e0]; simp
      · intro a ha
        simp only [List.mem_append, List.mem_cons, List.mem_singleton, List.not_mem_nil,
          or_false] at ha
        rcases ha with ((ha | rfl | ha) | rfl | rfl | rfl | rfl)
        · simpa [Action.noTimeout] using p0 a ha
        · rfl
        · simpa [Action.noTimeout] using Action.isSetup_noTimeout a (p1 a ha)
        all_goals rfl
    · cases fuel with
      | zero => simp [feeder_wait_tx_end] at hw
      | succ n =>
        rw [hm, feeder_wait_tx_end_timeout] at hw
        simp only [Except.ok.injEq] at hw
        subst hw
        refine ⟨pre ++ timeoutTail cfg us' e fs.lower
          ((List.range 4).map (fun i => (env.rxData fs.st.nRead).getD i 0 % 256)), ?_,
          Or.inr ⟨hm, pre, us', e, fs.lower, _, he, ?_, rfl⟩⟩
        · simp [RadioState.emit, Si446x_getState, Si446x_read, hl, timeoutTail, hm]
        · intro a ha; simpa [Action.noTimeout] using hp a ha

theorem fsk_feeder_send_ends (cfg : Si446xDefs) (fl : FloatUnit) (env : Env)
    (layer0 : List Nat) (all fuel : Nat) (pp : packet_t) (st : RadioState) (msg : msg_t)
    (st' : RadioState)
    (h : fsk_feeder_send cfg fl env layer0 all fuel pp st = .ok (msg, st')) :
    FeederEnds cfg st msg st' := by
  unfold fsk_feeder_send at h
  simp only [] at h
  generalize (if all > (Si446x_getTXfreeFIFO cfg env (Si446x_write st [0x15, 0x01])).1 then
    (Si446x_getTXfreeFIFO cfg env (Si446x_write st [0x15, 0x01])).1 else all) = c at h
  have g0 : Grows Action.noTimeout st
      (Si446x_writeFIFO
        ((Si446x_getTXfreeFIFO cfg env (Si446x_write st [0x15, 0x01])).2.emit (.chVTSet 10))
        (layer0.drop 0) c) :=
    Grows_trans (Grows_emit st _ (by rfl))
      (Grows_trans (Si446x_getTXfreeFIFO_grows cfg env _)
        (Grows_trans (Grows_emit _ _ (by rfl)) (Si446x_writeFIFO_grows _ _ _)))
  split at h
  · simp at h
  · rename_i st1 ht
    have g1 := Grows_trans g0 (Grows_mono Action.isTransmitStep_noTimeout
      (Si446x_transmit_grows cfg fl env fuel _ _ _ _ _ _ _ _ _ _ ht))
    split at h
    · simp at h
    · rename_i fs hl
      exact feeder_finish_ends cfg env fuel _ st fs msg st'
        (FeedEnds_prepend g1 (fsk_feed_loop_ends cfg env layer0 all fuel _ _ _ _ _ hl)) h
  · rename_i st1 ht
    have g1 := Grows_trans g0 (Grows_mono Action.isTransmitStep_noTimeout
      (Si446x_transmit_grows cfg fl env fuel _ _ _ _ _ _ _ _ _ _ ht))
    exact feeder_finish_ends cfg env fuel _ st _ msg st' (Or.inl ⟨rfl, g1⟩) h

theorem afsk_feeder_send_ends (cfg : Si446xDefs) (fl : FloatUnit) (env : Env)
    (layer0 : List Nat) (all fuel : Nat) (pp : packet_t) (st : RadioState) (msg : msg_t)
    (st' : RadioState)
    (h : afsk_feeder_send cfg fl env layer0 all fuel pp st = .ok (msg, st')) :
    FeederEnds cfg st msg st' := by
  unfold afsk_feeder_send at h
  simp only [] at h
  generalize (all * SAMPLES_PER_BAUD % 65536) = all' at h
  generalize hst0 : afsk_upsampler_reset (Si446x_write st [0x15, 0x01]) = st0 at h
  have gs : Grows Action.noTimeout st st0 := by
    subst hst0
    exact ⟨[.spiWrite [0x15, 0x01]], rfl, by simp [Action.noTimeout, Action.isTimeoutEvt]⟩
  generalize (if all' > (Si446x_getTXfreeFIFO cfg env st0).1 then
    (Si446x_getTXfreeFIFO cfg env st0).1 else all') = c at h
  split at h
  · simp at h
  · rename_i localBuffer st1 hload
    obtain ⟨hlog, _, _⟩ := Si446x_loadLocalBuffer_frame layer0 _ _ _ _ hload
    have g0 : Grows Action.noTimeout st (Si446x_writeFIFO st1 localBuffer c) := by
      refine Grows_trans gs (Grows_trans (Si446x_getTXfreeFIFO_grows cfg env _)
        (Grows_trans (Grows_emit _ (.chVTSet 10) (by rfl))
          (Grows_trans ?_ (Si446x_writeFIFO_grows _ _ _))))
      exact ⟨[], by simp [hlog], by simp⟩
    split at h
    · simp at h
    · rename_i st2 ht
      have g1 := Grows_trans g0 (Grows_mono Action.isTransmitStep_noTimeout
        (Si446x_transmit_grows cfg fl env fuel _ _ _ _ _ _ _ _ _ _ ht))
      split at h
      · simp at h
      · rename_i fs hl
        exact feeder_finish_ends cfg env fuel _ st fs msg st'
          (FeedEnds_prepend g1 (afsk_feed_loop_ends cfg env layer0 all' fuel _ _ _ _ hl)) h
    · rename_i st2 ht
      have g1 := Grows_trans g0 (Grows_mono Action.isTransmitStep_noTimeout
        (Si446x_transmit_grows cfg fl env fuel _ _ _ _ _ _ _ _ _ _ ht))
      exact feeder_finish_ends cfg env fuel _ st _ msg st' (Or.inl ⟨rfl, g1⟩) h

/-- The exit without data ends a feeder without any timeout event. -/
theorem feeder_no_data_ends (cfg : Si446xDefs) (st : RadioState) :
    FeederEnds cfg st (feeder_no_data st).1 (feeder_no_data st).2 :=
  ⟨[.pktReleaseSendObject, .pktScheduleThreadRelease, .chThdExit .MSG_RESET],
    by simp [feeder_no_data, RadioState.emit],
    Or.inl ⟨by simp [feeder_no_data], by simp [Action.isTimeoutEvt]⟩⟩

theorem setup_log_grows (st st' : RadioState) (l : List Action)
    (hl : st'.log = st.log ++ .pktAcquireRadio :: l ++ [.chVTObjectInit])
    (hs : ∀ a ∈ l, a.isSetup = true) : Grows Action.noTimeout st st' := by
  refine ⟨.pktAcquireRadio :: l ++ [.chVTObjectInit], by rw [hl, List.append_assoc], ?_⟩
  intro a ha
  simp only [List.cons_append, List.mem_cons, List.mem_append, List.mem_singleton,
    List.not_mem_nil, or_false] at ha
  rcases ha with rfl | ha | rfl
  · rfl
  · exact Action.isSetup_noTimeout a (hs a ha)
  · rfl

theorem min_si_fifo_feeder_afsk_ends (cfg : Si446xDefs) (fl : FloatUnit) (env : Env)
    (enc : StreamEncoder) (fuel : Nat) (pp : packet_t) (st : RadioState) (msg : msg_t)
    (st' : RadioState)
    (h : min_si_fifo_feeder_afsk cfg fl env enc fuel pp st = .ok (msg, st')) :
    FeederEnds cfg st msg st' := by
  unfold min_si_fifo_feeder_afsk at h
  split at h
  · simp at h
  · rename_i st1 hs
    obtain ⟨l, hl, hp⟩ := afsk_feeder_setup_log cfg fl env fuel pp st st1 hs
    have g := setup_log_grows st st1 l hl hp
    split at h
    · simp only [Except.ok.injEq] at h
      have := feeder_no_data_ends cfg st1
      rw [h] at this
      exact FeederEnds_prepend g this
    · exact FeederEnds_prepend g (afsk_feeder_send_ends cfg fl env _ _ fuel pp st1 msg st' h)

theorem min_si_fifo_feeder_fsk_ends (cfg : Si446xDefs) (fl : FloatUnit) (env : Env)
    (enc : StreamEncoder) (fuel : Nat) (pp : packet_t) (st : RadioState) (msg : msg_t)
    (st' : RadioState)
    (h : min_si_fifo_feeder_fsk cfg fl env enc fuel pp st = .ok (msg, st')) :
    FeederEnds cfg st msg st' := by
  unfold min_si_fifo_feeder_fsk at h
  split at h
  · simp at h
  · rename_i st1 hs
    obtain ⟨l, hl, hp⟩ := fsk_feeder_setup_log cfg fl env fuel pp st st1 hs
    have g := setup_log_grows st st1 l hl hp
    split at h
    · simp only [Except.ok.injEq] at h
      have := feeder_no_data_ends cfg st1
      rw [h] at this
      exact FeederEnds_prepend g this
    · exact FeederEnds_prepend g (fsk_feeder_send_ends cfg fl env _ _ fuel pp st1 msg st' h)

/-- After a feed loop that ended with `MSG_TIMEOUT` the feeder finishes, with
that message, for every non-zero iteration budget. -/
theorem feeder_finish_timeout (cfg : Si446xDefs) (env : Env) (m us : Nat) (fs : FeedState)
    (h : fs.exit_msg = .MSG_TIMEOUT) :
    ∃ st', feeder_finish cfg env (m + 1) us fs = .ok (.MSG_TIMEOUT, st') := by
  unfold feeder_finish
  simp only [h, feeder_wait_tx_end_timeout]
  exact ⟨_, rfl⟩

/-- A pass of the 2FSK feed loop in which the wait returns the timeout event
ends the loop with `MSG_TIMEOUT`, and the feeder then finishes. -/
theorem fsk_timeout_progress (cfg : Si446xDefs) (env : Env) (layer0 : List Nat)
    (all n m bufp c lower : Nat) (st : RadioState) (hc : c < all)
    (hev : env.evt st.nEvt ≠ 0) :
    ∃ fs st', fsk_feed_loop cfg env layer0 all (n + 1) bufp c lower st = .ok fs ∧
      feeder_finish cfg env (m + 1) (104 * 8 * 10) fs = .ok (.MSG_TIMEOUT, st') := by
  have hL : ∃ fs, fsk_feed_loop cfg env layer0 all (n + 1) bufp c lower st = .ok fs ∧
      fs.exit_msg = .MSG_TIMEOUT := by
    unfold fsk_feed_loop
    simp only [hc, if_true]
    have : (chEvtWaitAnyTimeout env (Si446x_writeFIFO (Si446x_getTXfreeFIFO cfg env st).2
        (layer0.drop bufp) (if (Si446x_getTXfreeFIFO cfg env st).1 > all - c then
          (all - c) % 256 else (Si446x_getTXfreeFIFO cfg env st).1)) (104 * 8 * 10)).1 ≠ 0 :=
      hev
    rw [if_pos this]
    exact ⟨_, rfl, rfl⟩
  obtain ⟨fs, hl, hm⟩ := hL
  obtain ⟨st', h'⟩ := feeder_finish_timeout cfg env m (104 * 8 * 10) fs hm
  exact ⟨fs, st', hl, h'⟩

/-- A pass of the AFSK feed loop in which the local buffer is loaded and the
wait returns the timeout event ends the loop with `MSG_TIMEOUT`, and the
feeder then finishes. -/
theorem afsk_timeout_progress (cfg : Si446xDefs) (env : Env) (layer0 : List Nat)
    (all n m c lower : Nat) (st : RadioState) (hc : c < all)
    (hev : env.evt st.nEvt ≠ 0)
    (hload : ∃ r, Si446x_loadLocalBuffer layer0
      (if (Si446x_getTXfreeFIFO cfg env st).1 > all - c then (all - c) % 256
        else (Si446x_getTXfreeFIFO cfg env st).1) (Si446x_getTXfreeFIFO cfg env st).2 = .ok r) :
    ∃ fs st', afsk_feed_loop cfg env layer0 all (n + 1) c lower st = .ok fs ∧
      feeder_finish cfg env (m + 1) (833 * 8) fs = .ok (.MSG_TIMEOUT, st') := by
  obtain ⟨⟨localBuffer, st1⟩, hl⟩ := hload
  obtain ⟨_, hn, _⟩ := Si446x_loadLocalBuffer_frame layer0 _ _ _ _ hl
  have hL : ∃ fs, afsk_feed_loop cfg env layer0 all (n + 1) c lower st = .ok fs ∧
      fs.exit_msg = .MSG_TIMEOUT := by
    unfold afsk_feed_loop
    simp only [hc, if_true, hl]
    have : (chEvtWaitAnyTimeout env (Si446x_writeFIFO st1 localBuffer
        (if (Si446x_getTXfreeFIFO cfg env st).1 > all - c then (all - c) % 256
          else (Si446x_getTXfreeFIFO cfg env st).1)) (833 * 8)).1 ≠ 0 := by
      show env.evt st1.nEvt ≠ 0
      rw [hn]
      exact hev
    rw [if_pos this]
    exact ⟨_, rfl, rfl⟩
  obtain ⟨fs, hl', hm⟩ := hL
  obtain ⟨st', h'⟩ := feeder_finish_timeout cfg env m (833 * 8) fs hm
  exact ⟨fs, st', hl', h'⟩

/-- C9: in both feeders a wait of the feed loop that returns the timeout
event is followed by the READY command `{0x34, 0x03}`, the timer reset, the
single state request with which the completion wait evaluates its condition
(its body, a sleep, is not run), and the exit with `MSG_TIMEOUT`; no FIFO
write follows. A run that ends otherwise has seen no timeout event. A timeout
event always ends the run: the pass of the feed loop in which it is returned
ends the loop and the feeder finishes with `MSG_TIMEOUT`. -/
theorem C9_timeout_path (cfg : Si446xDefs) (fl : FloatUnit) (env : Env)
    (enc : StreamEncoder) (fuel : Nat) (pp : packet_t) (st : RadioState) (msg : msg_t)
    (st' : RadioState)
    (h : min_si_fifo_feeder_afsk cfg fl env enc fuel pp st = .ok (msg, st') ∨
         min_si_fifo_feeder_fsk cfg fl env enc fuel pp st = .ok (msg, st')) :
    (∃ l, st'.log = st.log ++ l ∧
      ((msg ≠ .MSG_TIMEOUT ∧ ∀ a ∈ l, a.isTimeoutEvt = false) ∨
       (msg = .MSG_TIMEOUT ∧ ∃ pre us e lower rxData, e ≠ 0 ∧
          (∀ a ∈ pre, a.isTimeoutEvt = false) ∧
          l = pre ++ [.chEvtWaitAnyTimeout us e, .spiWrite [0x34, 0x03], .chVTReset,
            .spiRead [cfg.Si446x_REQUEST_DEVICE_STATE % 256] rxData,
            .TRACE_lowest_free lower, .pktReleaseSendObject, .pktScheduleThreadRelease,
            .chThdExit .MSG_TIMEOUT]))) ∧
    (∀ layer0 all n m bufp c lower (st0 : RadioState), c < all → env.evt st0.nEvt ≠ 0 →
      ∃ fs st1, fsk_feed_loop cfg env layer0 all (n + 1) bufp c lower st0 = .ok fs ∧
        feeder_finish cfg env (m + 1) (104 * 8 * 10) fs = .ok (.MSG_TIMEOUT, st1)) ∧
    (∀ layer0 all n m c lower (st0 : RadioState), c < all → env.evt st0.nEvt ≠ 0 →
      (∃ r, Si446x_loadLocalBuffer layer0
        (if (Si446x_getTXfreeFIFO cfg env st0).1 > all - c then (all - c) % 256
          else (Si446x_getTXfreeFIFO cfg env st0).1)
        (Si446x_getTXfreeFIFO cfg env st0).2 = .ok r) →
      ∃ fs st1, afsk_feed_loop cfg env layer0 all (n + 1) c lower st0 = .ok fs ∧
        feeder_finish cfg env (m + 1) (833 * 8) fs = .ok (.MSG_TIMEOUT, st1)) := by
  refine ⟨?_, ?_, ?_⟩
  · rcases h with h | h
    · exact min_si_fifo_feeder_afsk_ends cfg fl env enc fuel pp st msg st' h
    · exact min_si_fifo_feeder_fsk_ends cfg fl env enc fuel pp st msg st' h
  · intro layer0 all n m bufp c lower st0 hc hev
    exact fsk_timeout_progress cfg env layer0 all n m bufp c lower st0 hc hev
  · intro layer0 all n m c lower st0 hc hev hload
    exact afsk_timeout_progress cfg env layer0 all n m c lower st0 hc hev hload

/-- Witness of C9: the 2FSK feeder with a stream of 100 bytes on a chip whose
first feed loop wait returns the timeout event. -/
theorem C9_timeout_path_witness :
    min_si_fifo_feeder_fsk refDefs refFloat refTimeoutEnv refLongEncoder 2 refPacket
        RadioState.powerUp
      = .ok (.MSG_TIMEOUT, exitState (min_si_fifo_feeder_fsk refDefs refFloat refTimeoutEnv
          refLongEncoder 2 refPacket RadioState.powerUp)) ∧
    ∃ l, (exitState (min_si_fifo_feeder_fsk refDefs refFloat refTimeoutEnv refLongEncoder 2
        refPacket RadioState.powerUp)).log = RadioState.powerUp.log ++ l ∧
      ((msg_t.MSG_TIMEOUT ≠ .MSG_TIMEOUT ∧ ∀ a ∈ l, a.isTimeoutEvt = false) ∨
       (msg_t.MSG_TIMEOUT = .MSG_TIMEOUT ∧ ∃ pre us e lower rxData, e ≠ 0 ∧
          (∀ a ∈ pre, a.isTimeoutEvt = false) ∧
          l = pre ++ [.chEvtWaitAnyTimeout us e, .spiWrite [0x34, 0x03], .chVTReset,
            .spiRead [refDefs.Si446x_REQUEST_DEVICE_STATE % 256] rxData,
            .TRACE_lowest_free lower, .pktReleaseSendObject, .pktScheduleThreadRelease,
            .chThdExit .MSG_TIMEOUT])) :=
  ⟨rfl, (C9_timeout_path refDefs refFloat refTimeoutEnv refLongEncoder 2 refPacket
    RadioState.powerUp .MSG_TIMEOUT _ (Or.inr rfl)).1⟩

/-- C8 (failing input): for a packet at 150 MHz the operating frequency is
out of band, `Si446x_transmit` returns false without a START_TX command, and
both feeders, having skipped the feed loop, exit with `MSG_OK`. -/
theorem C8_rejected_transmit_exits_ok :
    Si446x_isRadioInBand refDefs
      (refDefs.pktComputeOperatingFrequency refPacket150.base_frequency
        refPacket150.radio_step refPacket150.radio_chan) = false ∧
    (Si446x_transmit refDefs refFloat refIdleEnv 1 RadioState.powerUp
        refPacket150.base_frequency refPacket150.radio_step refPacket150.radio_chan
        refPacket150.radio_pwr 33 refPacket150.cca_rssi (refDefs.TIME_S2I 10)).toOption.map
      Prod.fst = some false ∧
    exitMsg (min_si_fifo_feeder_afsk refDefs refFloat refIdleEnv refShortEncoder 1 refPacket150
      RadioState.powerUp) = some .MSG_OK ∧
    exitMsg (min_si_fifo_feeder_fsk refDefs refFloat refIdleEnv refShortEncoder 1 refPacket150
      RadioState.powerUp) = some .MSG_OK ∧
    (exitLog (min_si_fifo_feeder_afsk refDefs refFloat refIdleEnv refShortEncoder 1 refPacket150
      RadioState.powerUp)).any Action.isStartTx = false ∧
    (exitLog (min_si_fifo_feeder_fsk refDefs refFloat refIdleEnv refShortEncoder 1 refPacket150
      RadioState.powerUp)).any Action.isStartTx = false := by
  decide

set_option maxRecDepth 20000 in
/-- C10 (failing input): on each exit path of each feeder (outcome OK,
timeout, no data, transmit rejected) the run logs one `pktAcquireRadio` and
no `pktReleaseRadio`. -/
theorem C10_radio_not_released :
    [ exitLog (min_si_fifo_feeder_afsk refDefs refFloat refTxEnv refShortEncoder 2 refPacket
        RadioState.powerUp),
      exitLog (min_si_fifo_feeder_afsk refDefs refFloat refTimeoutEnv refLongEncoder 2 refPacket
        RadioState.powerUp),
      exitLog (min_si_fifo_feeder_afsk refDefs refFloat refIdleEnv refEmptyEncoder 1 refPacket
        RadioState.powerUp),
      exitLog (min_si_fifo_feeder_afsk refDefs refFloat refIdleEnv refShortEncoder 1 refPacket150
        RadioState.powerUp),
      exitLog (min_si_fifo_feeder_fsk refDefs refFloat refTxEnv refShortEncoder 2 refPacket
        RadioState.powerUp),
      exitLog (min_si_fifo_feeder_fsk refDefs refFloat refTimeoutEnv refLongEncoder 2 refPacket
        RadioState.powerUp),
      exitLog (min_si_fifo_feeder_fsk refDefs refFloat refIdleEnv refEmptyEncoder 1 refPacket
        RadioState.powerUp),
      exitLog (min_si_fifo_feeder_fsk refDefs refFloat refIdleEnv refShortEncoder 1 refPacket150
        RadioState.powerUp) ].map
      (fun log => (log.getLast?, log.count .pktAcquireRadio, log.count .pktReleaseRadio))
    = [ (some (.chThdExit .MSG_OK), 1, 0), (some (.chThdExit .MSG_TIMEOUT), 1, 0),
        (some (.chThdExit .MSG_RESET), 1, 0), (some (.chThdExit .MSG_OK), 1, 0),
        (some (.chThdExit .MSG_OK), 1, 0), (some (.chThdExit .MSG_TIMEOUT), 1, 0),
        (some (.chThdExit .MSG_RESET), 1, 0), (some (.chThdExit .MSG_OK), 1, 0) ] := by
  decide

/-! ## Property commands, CCA and initialisation -/

/-- C13: for a 16 bit property address `reg` and value bytes `v1 .. v4`,
`Si446x_setProperty8/16/24/32` write exactly the command
`[0x11, (reg >> 8) & 0xFF, k, reg & 0xFF, v1, ..., vk]` with `k = 1, 2, 3, 4`,
the values in argument order, and nothing else. -/
theorem C13_set_property_layout (st : RadioState) (reg v1 v2 v3 v4 : Nat)
    (hreg : reg < 65536) (h1 : v1 < 256) (h2 : v2 < 256) (h3 : v3 < 256) (h4 : v4 < 256) :
    Si446x_setProperty8 st reg v1 =
      { st with log := st.log ++
        [.spiWrite [0x11, (reg >>> 8) &&& 0xFF, 1, reg &&& 0xFF, v1]] } ∧
    Si446x_setProperty16 st reg v1 v2 =
      { st with log := st.log ++
        [.spiWrite [0x11, (reg >>> 8) &&& 0xFF, 2, reg &&& 0xFF, v1, v2]] } ∧
    Si446x_setProperty24 st reg v1 v2 v3 =
      { st with log := st.log ++
        [.spiWrite [0x11, (reg >>> 8) &&& 0xFF, 3, reg &&& 0xFF, v1, v2, v3]] } ∧
    Si446x_setProperty32 st reg v1 v2 v3 v4 =
      { st with log := st.log ++
        [.spiWrite [0x11, (reg >>> 8) &&& 0xFF, 4, reg &&& 0xFF, v1, v2, v3, v4]] } := by
  simp only [Si446x_setProperty8, Si446x_setProperty16, Si446x_setProperty24,
    Si446x_setProperty32, Si446x_setProperty8_msg, Si446x_setProperty16_msg,
    Si446x_setProperty24_msg, Si446x_setProperty32_msg, Si446x_write, RadioState.emit,
    Nat.mod_eq_of_lt hreg, Nat.mod_eq_of_lt h1, Nat.mod_eq_of_lt h2, Nat.mod_eq_of_lt h3,
    Nat.mod_eq_of_lt h4, and_self]

/-- Witness of C13: property `0x2051` with the values `0x0D, 1, 2, 3`. -/
theorem C13_set_property_layout_witness :
    Si446x_setProperty8 RadioState.powerUp 0x2051 0x0D =
      { RadioState.powerUp with log := RadioState.powerUp.log ++
        [.spiWrite [0x11, (0x2051 >>> 8) &&& 0xFF, 1, 0x2051 &&& 0xFF, 0x0D]] } ∧
    Si446x_setProperty16 RadioState.powerUp 0x2051 0x0D 1 =
      { RadioState.powerUp with log := RadioState.powerUp.log ++
        [.spiWrite [0x11, (0x2051 >>> 8) &&& 0xFF, 2, 0x2051 &&& 0xFF, 0x0D, 1]] } ∧
    Si446x_setProperty24 RadioState.powerUp 0x2051 0x0D 1 2 =
      { RadioState.powerUp with log := RadioState.powerUp.log ++
        [.spiWrite [0x11, (0x2051 >>> 8) &&& 0xFF, 3, 0x2051 &&& 0xFF, 0x0D, 1, 2]] } ∧
    Si446x_setProperty32 RadioState.powerUp 0x2051 0x0D 1 2 3 =
      { RadioState.powerUp with log := RadioState.powerUp.log ++
        [.spiWrite [0x11, (0x2051 >>> 8) &&& 0xFF, 4, 0x2051 &&& 0xFF, 0x0D, 1, 2, 3]] } :=
  C13_set_property_layout RadioState.powerUp 0x2051 0x0D 1 2 3 (by decide) (by decide)
    (by decide) (by decide) (by decide)

/-- The sampling loop adds the next `n` readings to `cca` and advances the
CCA cursor by `n`, as long as the 16 bit counter does not wrap. -/
theorem Si446x_sampleCCA_sum (env : Env) (hcca : ∀ k, env.cca k ≤ 1) (n : Nat) :
    ∀ cca st, cca + n ≤ 65535 →
      (Si446x_sampleCCA env n cca st).1 =
        cca + ((List.range n).map (fun i => env.cca (st.nCca + i))).sum ∧
      (Si446x_sampleCCA env n cca st).2.nCca = st.nCca + n := by
  induction n with
  | zero => intro cca st _; simp [Si446x_sampleCCA]
  | succ m ih =>
    intro cca st hb
    unfold Si446x_sampleCCA
    have h1 := hcca st.nCca
    have hmod : (cca + env.cca st.nCca) % 65536 = cca + env.cca st.nCca := by omega
    simp only [hmod]
    obtain ⟨e1, e2⟩ := ih (cca + env.cca st.nCca)
      (chThdSleep { st with nCca := st.nCca + 1 } 100) (by omega)
    refine ⟨?_, ?_⟩
    · rw [e1, List.range_succ_eq_map]
      simp only [chThdSleep, RadioState.emit, List.map_cons, List.map_map, List.sum_cons,
        Nat.add_zero]
      have : (fun i => env.cca (st.nCca + 1 + i)) =
          ((fun i => env.cca (st.nCca + i)) ∘ Nat.succ) := by
        funext i
        simp only [Function.comp, Nat.succ_eq_add_one]
        congr 1
        omega
      rw [this]
      omega
    · rw [e2]
      simp only [chThdSleep, RadioState.emit]
      omega

/-- C14: for a duration `ms` of at most 255 and CCA readings that are 0 or 1,
`Si446x_getLatchedCCA` takes exactly `10 * ms` readings and returns true
exactly when their sum, the number of active samples, is greater than
`ms`. -/
theorem C14_latched_cca_threshold (env : Env) (st : RadioState) (ms : Nat) (hms : ms < 256)
    (hcca : ∀ k, env.cca k ≤ 1) :
    (Si446x_getLatchedCCA env st ms).2.nCca = st.nCca + 10 * ms ∧
    ((Si446x_getLatchedCCA env st ms).1 = true ↔
      ms < ((List.range (10 * ms)).map (fun i => env.cca (st.nCca + i))).sum) := by
  obtain ⟨e1, e2⟩ := Si446x_sampleCCA_sum env hcca (ms * 10) 0 st (by omega)
  have hm : ms % 256 = ms := Nat.mod_eq_of_lt hms
  rw [Nat.mul_comm ms 10, Nat.zero_add] at e1
  rw [Nat.mul_comm ms 10] at e2
  simp only [Si446x_getLatchedCCA, hm, Nat.mul_comm ms 10, e1, e2, decide_eq_true_eq,
    gt_iff_lt, and_self]

/-- Witness of C14: 2 ms on a line that is active in every third sample: 20
readings, 7 of them active. -/
theorem C14_latched_cca_threshold_witness :
    (Si446x_getLatchedCCA refCcaEnv RadioState.powerUp 2).2.nCca
      = RadioState.powerUp.nCca + 10 * 2 ∧
    ((Si446x_getLatchedCCA refCcaEnv RadioState.powerUp 2).1 = true ↔
      2 < ((List.range (10 * 2)).map
        (fun i => refCcaEnv.cca (RadioState.powerUp.nCca + i))).sum) :=
  C14_latched_cca_threshold refCcaEnv RadioState.powerUp 2 (by decide)
    (fun k => by simp only [refCcaEnv]; split <;> decide)

/-- C15: `Si446x_conditional_init` does nothing when `radio_init` is set; when
it is clear it runs the initialisation sequence and sets it; so the flag is
set afterwards and a second call changes nothing. -/
theorem C15_conditional_init_idempotent (cfg : Si446xDefs) (st : RadioState) :
    (st.radio_init = true → Si446x_conditional_init cfg st = st) ∧
    (st.radio_init = false → Si446x_conditional_init cfg st =
      { st with log := st.log ++ Si446x_init_actions cfg, radio_init := true }) ∧
    (Si446x_conditional_init cfg st).radio_init = true ∧
    Si446x_conditional_init cfg (Si446x_conditional_init cfg st) =
      Si446x_conditional_init cfg st := by
  cases h : st.radio_init <;> simp [Si446x_conditional_init, Si446x_init, h]

/-! ## Temperature cache -/

/-- C16 (counterexample): a first `Si446x_getLastTemperature` measures 3183;
after `Si446x_shutdown` the cache still holds 3183, not `0x7FFF`, and the next
`Si446x_getLastTemperature` returns 3183 again without any SPI transfer: the
only effect added to the log is the GPIO deconfiguration of the shutdown. -/
theorem C16_cache_survives_shutdown :
    (Si446x_getLastTemperature refTempEnv { RadioState.powerUp with radio_init := true }).1
      = 3183 ∧
    (Si446x_shutdown refAfterMeasure).lastTemp = 3183 ∧
    (Si446x_shutdown refAfterMeasure).lastTemp ≠ 0x7FFF ∧
    (Si446x_getLastTemperature refTempEnv (Si446x_shutdown refAfterMeasure)).1 = 3183 ∧
    (Si446x_getLastTemperature refTempEnv (Si446x_shutdown refAfterMeasure)).2.log
      = refAfterMeasure.log ++ [Action.pktDeconfigureRadioGPIO] := by
  decide

/-- C16 (amended): `Si446x_shutdown` clears `radio_init` and leaves `lastTemp`
as it is; once a value other than `0x7FFF` is stored,
`Si446x_getLastTemperature` returns it without a measurement and without
changing the state, before and after a shutdown. -/
theorem C16_cache_kept (env : Env) (st : RadioState) (h : st.lastTemp ≠ 0x7FFF) :
    (Si446x_shutdown st).lastTemp = st.lastTemp ∧
    (Si446x_shutdown st).radio_init = false ∧
    Si446x_getLastTemperature env st = (st.lastTemp, st) ∧
    Si446x_getLastTemperature env (Si446x_shutdown st) =
      (st.lastTemp, Si446x_shutdown st) := by
  refine ⟨rfl, rfl, ?_, ?_⟩
  · simp [Si446x_getLastTemperature, h]
  · have h' : (Si446x_shutdown st).lastTemp ≠ 0x7FFF := h
    simp only [Si446x_getLastTemperature, h', if_false]
    rfl

/-- Witness of C16 (amended) at the state with 2500 stored. -/
theorem C16_cache_kept_witness :
    (Si446x_shutdown refMeasuredState).lastTemp = refMeasuredState.lastTemp ∧
    (Si446x_shutdown refMeasuredState).radio_init = false ∧
    Si446x_getLastTemperature refIdleEnv refMeasuredState =
      (refMeasuredState.lastTemp, refMeasuredState) ∧
    Si446x_getLastTemperature refIdleEnv (Si446x_shutdown refMeasuredState) =
      (refMeasuredState.lastTemp, Si446x_shutdown refMeasuredState) :=
  C16_cache_kept refIdleEnv refMeasuredState (by decide)

/-! ## Restart of the up-sampler -/

theorem Si446x_upsampleStep_move (buf : List Nat) (i b : Nat) (st base : RadioState) :
    Si446x_upsampleStep buf i b (withUpsampler st base) =
      moveResult base (Si446x_upsampleStep buf i b st) := by
  unfold Si446x_upsampleStep
  simp only [withUpsampler]
  split
  · rfl
  · split <;> rfl

theorem Si446x_upsampleLoop_move (buf : List Nat) (n : Nat) :
    ∀ i b st base, Si446x_upsampleLoop buf n i b (withUpsampler st base) =
      moveResult base (Si446x_upsampleLoop buf n i b st) := by
  induction n with
  | zero => intro i b st base; rfl
  | succ m ih =>
    intro i b st base
    unfold Si446x_upsampleLoop
    rw [Si446x_upsampleStep_move]
    cases h : Si446x_upsampleStep buf i b st with
    | error e => rfl
    | ok r =>
      obtain ⟨b1, st1⟩ := r
      simp only [moveResult]
      exact ih _ _ _ _

/-- The bytes produced by the up-sampler, and whether it stops, depend on
the state through the up-sampler variables only. -/
theorem Si446x_loadLocalBuffer_move (buf : List Nat) (n : Nat) :
    ∀ st base, Si446x_loadLocalBuffer buf n (withUpsampler st base) =
      moveResult base (Si446x_loadLocalBuffer buf n st) := by
  induction n with
  | zero => intro st base; rfl
  | succ m ih =>
    intro st base
    unfold Si446x_loadLocalBuffer Si446x_getUpsampledAFSKbits
    rw [Si446x_upsampleLoop_move]
    cases h : Si446x_upsampleLoop buf 8 0 0 st with
    | error e => rfl
    | ok r =>
      obtain ⟨b1, st1⟩ := r
      simp only [moveResult]
      rw [ih]
      cases h2 : Si446x_loadLocalBuffer buf m st1 with
      | error e => rfl
      | ok r2 =>
        obtain ⟨bs, st2⟩ := r2
        rfl

/-- C18: after the reset of the up-sampler variables made by the AFSK feeder,
the bytes returned by any number `n` of successive
`Si446x_getUpsampledAFSKbits` calls over a buffer (and whether a call stops
by reading past the buffer) are the same whatever the state before the
reset was. -/
theorem C18_upsampler_restartable (buf : List Nat) (n : Nat) (st1 st2 : RadioState) :
    (Si446x_loadLocalBuffer buf n (afsk_upsampler_reset st1)).map Prod.fst =
      (Si446x_loadLocalBuffer buf n (afsk_upsampler_reset st2)).map Prod.fst := by
  have h : afsk_upsampler_reset st1 = withUpsampler (afsk_upsampler_reset st2) st1 := rfl
  rw [h, Si446x_loadLocalBuffer_move]
  cases Si446x_loadLocalBuffer buf n (afsk_upsampler_reset st2) with
  | error e => rfl
  | ok r => rfl

/-! ## Release of the packet services at CLOSE -/

/-- C19 (failing input): an OPEN followed by a CLOSE with decoder type FSK,
and likewise with the type not set, creates the buffer manager and the
callback manager and then only returns the two task objects: no service is
released and the closed semaphore is not signalled. With type AFSK the same
sequence releases both services and signals the semaphore. -/
theorem C19_close_without_decoder_releases_nothing :
    refOpenCloseLog .DECODE_FSK =
      some [.pktBufferManagerCreate 1, .pktCallbackManagerCreate 1, .Si446x_conditional_init,
            .chFifoReturnObject 44, .chFifoReturnObject 45] ∧
    refOpenCloseLog .DECODE_NOT_SET =
      some [.pktBufferManagerCreate 1, .pktCallbackManagerCreate 1, .Si446x_conditional_init,
            .chFifoReturnObject 44, .chFifoReturnObject 45] ∧
    (refOpenCloseLog .DECODE_AFSK).map (fun l => l.filter MgrAction.isRelease) =
      some [.pktBufferManagerRelease 1, .pktCallbackManagerRelease 1, .chBSemSignal 1] := by
  decide

/-! ## Task object API -/

/-- C20: `pktGetRadioTaskObject` returns `MSG_TIMEOUT` exactly when the pool
yields no object, and `MSG_OK` exactly when it yields one; the pointer stored
in `*rt` is `NULL` in the first case and in the second case the object taken
from the pool, with its `handler` field set to the handler argument and its
other fields as they were. -/
theorem C20_get_task_object (handler : Nat) (taken : Option radio_task_object_t)
    (task_fifo : TaskFifo) :
    ((pktGetRadioTaskObject handler taken task_fifo).1 = .MSG_TIMEOUT ↔ taken = none) ∧
    ((pktGetRadioTaskObject handler taken task_fifo).1 = .MSG_OK ↔ taken.isSome = true) ∧
    (pktGetRadioTaskObject handler taken task_fifo).2.1 =
      taken.map (fun rt => { rt with handler := handler }) ∧
    ((pktGetRadioTaskObject handler taken task_fifo).2.1.map (·.handler) =
      taken.map (fun _ => handler)) ∧
    ((pktGetRadioTaskObject handler taken task_fifo).2.1.map (·.id) = taken.map (·.id)) := by
  cases taken <;> simp [pktGetRadioTaskObject]

/-! ## Reported FIFO level -/

set_option maxRecDepth 100000 in
/-- C12 (failing input): with 64 bytes free before the transmission and 20
and then 30 bytes free at the two passes of the feed loop, both feeders end
with `MSG_OK` and report 30 as the lowest free level, while the lowest level
read in the feed loop is 20: the update keeps the larger of the old and the
new value, starting from 0. -/
theorem C12_reported_level_is_highest :
    exitMsg refLevelRunFsk = some .MSG_OK ∧
    feedLoopFree refDefs (exitLog refLevelRunFsk) = [20, 30] ∧
    (feedLoopFree refDefs (exitLog refLevelRunFsk)).min? = some 20 ∧
    reportedLowest (exitLog refLevelRunFsk) = some 30 ∧
    exitMsg refLevelRunAfsk = some .MSG_OK ∧
    feedLoopFree refDefs (exitLog refLevelRunAfsk) = [20, 30] ∧
    (feedLoopFree refDefs (exitLog refLevelRunAfsk)).min? = some 20 ∧
    reportedLowest (exitLog refLevelRunAfsk) = some 30 := by
  decide

/-! ## Bytes written to the FIFO -/

theorem fifoPayload_append (l1 l2 : List Action) :
    fifoPayload (l1 ++ l2) = fifoPayload l1 ++ fifoPayload l2 := by
  induction l1 with
  | nil => rfl
  | cons a l ih => simp [fifoPayload, ih]

theorem Action.fifoBytes_of_not_fifo (a : Action) (h : a.isFifoWrite = false) :
    a.fifoBytes = [] := by
  cases a <;> simp_all [Action.fifoBytes, Action.isFifoWrite]

theorem fifoPayload_of_not_fifo (l : List Action) (h : ∀ a ∈ l, a.isFifoWrite = false) :
    fifoPayload l = [] := by
  induction l with
  | nil => rfl
  | cons a l ih =>
    simp only [fifoPayload]
    rw [Action.fifoBytes_of_not_fifo a (h a (List.mem_cons_self _ _)),
      ih (fun b hb => h b (List.mem_cons_of_mem _ hb))]
    rfl

theorem Action.isSetup_not_fifo (a : Action) (h : a.isSetup = true) : a.isFifoWrite = false := by
  cases a <;> simp_all [Action.isSetup, Action.isFifoWrite]

theorem Action.isTransmitStep_not_fifo (a : Action) (h : a.isTransmitStep = true) :
    a.isFifoWrite = false := by
  cases a <;> simp_all [Action.isTransmitStep, Action.isSetup, Action.isStartTx,
    Action.isFifoWrite]
  intro h2
  rw [h2] at h
  simp at h

theorem Writes_refl (st : RadioState) : Writes [] st st :=
  ⟨[], by simp, rfl⟩

theorem Writes_trans {p q : List Nat} {st1 st2 st3 : RadioState}
    (h1 : Writes p st1 st2) (h2 : Writes q st2 st3) : Writes (p ++ q) st1 st3 := by
  obtain ⟨l1, e1, p1⟩ := h1
  obtain ⟨l2, e2, p2⟩ := h2
  exact ⟨l1 ++ l2, by rw [e2, e1, List.append_assoc], by rw [fifoPayload_append, p1, p2]⟩

theorem Writes_of_grows {P : Action → Bool} {st st' : RadioState}
    (hP : ∀ a, P a = true → a.isFifoWrite = false) (h : Grows P st st') : Writes [] st st' := by
  obtain ⟨l, e, p⟩ := h
  exact ⟨l, e, fifoPayload_of_not_fifo l (fun a ha => hP a (p a ha))⟩

theorem Writes_emit (st : RadioState) (a : Action) (h : a.isFifoWrite = false) :
    Writes [] st (st.emit a) :=
  ⟨[a], rfl, by simp [fifoPayload, Action.fifoBytes_of_not_fifo a h]⟩

theorem Si446x_writeFIFO_writes (st : RadioState) (msg : List Nat) (size : Nat)
    (h : size < 256) : Writes (msg.take size) st (Si446x_writeFIFO st msg size) :=
  ⟨[_], rfl, by simp [fifoPayload, Action.fifoBytes, Nat.mod_eq_of_lt h]⟩

theorem Si446x_getTXfreeFIFO_lt (cfg : Si446xDefs) (env : Env) (st : RadioState) :
    (Si446x_getTXfreeFIFO cfg env st).1 < 256 := by
  simp only [Si446x_getTXfreeFIFO, Si446x_read]
  have : List.range 4 = [0, 1, 2, 3] := by decide
  rw [this]
  simp only [List.map, List.getD_cons_succ, List.getD_cons_zero]
  exact Nat.mod_lt _ (by decide)

theorem Si446x_getTXfreeFIFO_writes (cfg : Si446xDefs) (env : Env) (st : RadioState) :
    Writes [] st (Si446x_getTXfreeFIFO cfg env st).2 :=
  ⟨[_], rfl, rfl⟩

/-- The feed loop of the 2FSK feeder, entered with `c` bytes written, writes
the rest of the buffer in order when it ends with `MSG_OK`, and the cursor
then equals the length of the buffer. -/
theorem fsk_feed_loop_writes (cfg : Si446xDefs) (env : Env) (layer0 : List Nat)
    (hlen : layer0.length < 65536) (fuel : Nat) :
    ∀ c lower st fs, c ≤ layer0.length →
      fsk_feed_loop cfg env layer0 layer0.length fuel c c lower st = .ok fs →
      fs.exit_msg = .MSG_OK → Writes (layer0.drop c) st fs.st ∧ fs.c = layer0.length := by
  induction fuel with
  | zero => intro c lower st fs _ h; simp [fsk_feed_loop] at h
  | succ n ih =>
    intro c lower st fs hc h hmsg
    unfold fsk_feed_loop at h
    simp only [] at h
    split at h
    · rename_i hlt
      have hf := Si446x_getTXfreeFIFO_lt cfg env st
      obtain ⟨more, hmore⟩ : ∃ m, m = (if (Si446x_getTXfreeFIFO cfg env st).1 >
          layer0.length - c then (layer0.length - c) % 256
          else (Si446x_getTXfreeFIFO cfg env st).1) := ⟨_, rfl⟩
      have hm : more ≤ layer0.length - c ∧ more < 256 := by
        rw [hmore]
        split
        · rename_i hgt
          have : layer0.length - c < 256 := by omega
          rw [Nat.mod_eq_of_lt this]
          omega
        · omega
      rw [← hmore] at h
      generalize (if (Si446x_getTXfreeFIFO cfg env st).1 > lower then
        (Si446x_getTXfreeFIFO cfg env st).1 else lower) = lower1 at h
      have g := Writes_trans (Si446x_getTXfreeFIFO_writes cfg env st)
        (Si446x_writeFIFO_writes (Si446x_getTXfreeFIFO cfg env st).2 (layer0.drop c) more hm.2)
      split at h
      · simp only [Except.ok.injEq] at h
        subst h
        simp at hmsg
      · have hcm : (c + more) % 65536 = c + more := Nat.mod_eq_of_lt (by omega)
        rw [hcm] at h
        obtain ⟨w, hw⟩ := ih (c + more) lower1 _ fs (by omega) h hmsg
        refine ⟨?_, hw⟩
        have gw : Writes [] (Si446x_writeFIFO (Si446x_getTXfreeFIFO cfg env st).2
            (layer0.drop c) more)
            (chEvtWaitAnyTimeout env (Si446x_writeFIFO (Si446x_getTXfreeFIFO cfg env st).2
              (layer0.drop c) more) (104 * 8 * 10)).2 := ⟨[_], rfl, rfl⟩
        have t := Writes_trans (Writes_trans g gw) w
        have e : [] ++ List.take more (List.drop c layer0) ++ [] ++
            List.drop (c + more) layer0 = List.drop c layer0 := by
          simp only [List.nil_append, List.append_nil]
          rw [← List.drop_drop]
          exact List.take_append_drop _ _
        rw [e] at t
        exact t
    · rename_i hge
      simp only [Except.ok.injEq] at h
      subst h
      have : c = layer0.length := by omega
      subst this
      exact ⟨by simpa using Writes_refl st, rfl⟩

/-- Once the operating frequency is in the band of the radio,
`Si446x_transmit` does not refuse. -/
theorem Si446x_transmit_accepts (cfg : Si446xDefs) (fl : FloatUnit) (env : Env) (fuel : Nat)
    (st st' : RadioState) (freq step chan power size rssi sql_timeout : Nat) (b : Bool)
    (hband : Si446x_isRadioInBand cfg (cfg.pktComputeOperatingFrequency freq step chan) = true)
    (h : Si446x_transmit cfg fl env fuel st freq step chan power size rssi sql_timeout
      = .ok (b, st')) : b = true := by
  unfold Si446x_transmit at h
  simp only [hband, Bool.not_true, Bool.false_eq_true, if_false] at h
  split at h
  · simp at h
  · split at h
    · simp at h
    · split at h
      · simp at h
      · simp only [Except.ok.injEq, Prod.mk.injEq] at h
        exact h.1.symm

/-- The end of a feeder writes nothing to the FIFO and exits with the message
of the feed loop. -/
theorem feeder_finish_writes (cfg : Si446xDefs) (env : Env) (fuel us : Nat) (fs : FeedState)
    (msg : msg_t) (st' : RadioState) (h : feeder_finish cfg env fuel us fs = .ok (msg, st')) :
    Writes [] fs.st st' ∧ msg = fs.exit_msg := by
  unfold feeder_finish at h
  simp only [] at h
  split at h
  · simp at h
  · rename_i st1 hw
    simp only [Except.ok.injEq, Prod.mk.injEq] at h
    obtain ⟨rfl, rfl⟩ := h
    have g1 := Writes_of_grows Action.isSetup_not_fifo
      (feeder_wait_tx_end_grows cfg env _ _ _ _ _ hw)
    have t := Writes_trans (Writes_trans (Writes_trans (Writes_trans (Writes_trans
      (Writes_emit fs.st .chVTReset rfl) g1)
      (Writes_emit st1 (.TRACE_lowest_free fs.lower) rfl))
      (Writes_emit _ .pktReleaseSendObject rfl))
      (Writes_emit _ .pktScheduleThreadRelease rfl))
      (Writes_emit _ (.chThdExit fs.exit_msg) rfl)
    exact ⟨by simpa using t, rfl⟩

/-- The cursor of the 2FSK feed loop stays within the length of the stream. -/
theorem fsk_feed_loop_cursor (cfg : Si446xDefs) (env : Env) (layer0 : List Nat) (all : Nat)
    (hall : all < 65536) (fuel : Nat) :
    ∀ bufp c lower st fs, c ≤ all →
      fsk_feed_loop cfg env layer0 all fuel bufp c lower st = .ok fs → fs.c ≤ all := by
  induction fuel with
  | zero => intro bufp c lower st fs _ h; simp [fsk_feed_loop] at h
  | succ n ih =>
    intro bufp c lower st fs hc h
    unfold fsk_feed_loop at h
    simp only [] at h
    split at h
    · have hf := Si446x_getTXfreeFIFO_lt cfg env st
      obtain ⟨more, hmore⟩ : ∃ m, m = (if (Si446x_getTXfreeFIFO cfg env st).1 >
          all - c then (all - c) % 256 else (Si446x_getTXfreeFIFO cfg env st).1) := ⟨_, rfl⟩
      have hm : more ≤ all - c := by
        rw [hmore]
        split
        · exact Nat.mod_le _ _
        · omega
      rw [← hmore] at h
      have hcm : (c + more) % 65536 = c + more := Nat.mod_eq_of_lt (by omega)
      rw [hcm] at h
      split at h
      · simp only [Except.ok.injEq] at h
        subst h
        show c + more ≤ all
        omega
      · exact ih _ _ _ _ _ (by omega) h
    · simp only [Except.ok.injEq] at h
      subst h
      exact hc

/-- The part of the 2FSK feeder from the encoding pass on, when the transmit
request is accepted and the exit message is `MSG_OK`, writes the stream to
the FIFO. -/
theorem fsk_feeder_send_writes (cfg : Si446xDefs) (fl : FloatUnit) (env : Env)
    (layer0 : List Nat) (hlen : layer0.length < 65536) (fuel : Nat) (pp : packet_t)
    (st : RadioState) (msg : msg_t) (st' : RadioState)
    (hband : Si446x_isRadioInBand cfg
      (cfg.pktComputeOperatingFrequency pp.base_frequency pp.radio_step pp.radio_chan) = true)
    (h : fsk_feeder_send cfg fl env layer0 layer0.length fuel pp st = .ok (msg, st'))
    (hmsg : msg = .MSG_OK) : Writes layer0 st st' := by
  unfold fsk_feeder_send at h
  simp only [Nat.zero_add, List.drop_zero] at h
  have hf := Si446x_getTXfreeFIFO_lt cfg env (Si446x_write st [0x15, 0x01])
  obtain ⟨c, hcdef⟩ : ∃ c, c = (if layer0.length >
      (Si446x_getTXfreeFIFO cfg env (Si446x_write st [0x15, 0x01])).1 then
      (Si446x_getTXfreeFIFO cfg env (Si446x_write st [0x15, 0x01])).1 else layer0.length) :=
    ⟨_, rfl⟩
  have hc : c ≤ layer0.length ∧ c < 256 := by
    rw [hcdef]
    split <;> omega
  rw [← hcdef] at h
  have g0 : Writes (layer0.take c) st
      (Si446x_writeFIFO
        ((Si446x_getTXfreeFIFO cfg env (Si446x_write st [0x15, 0x01])).2.emit (.chVTSet 10))
        layer0 c) := by
    have t := Writes_trans (Writes_trans (Writes_trans
      (Writes_emit st (.spiWrite [0x15, 0x01]) rfl)
      (Si446x_getTXfreeFIFO_writes cfg env (Si446x_write st [0x15, 0x01])))
      (Writes_emit _ (.chVTSet 10) rfl))
      (Si446x_writeFIFO_writes _ layer0 c hc.2)
    simpa [Si446x_write] using t
  split at h
  · simp at h
  · rename_i st1 ht
    have g1 := Writes_of_grows Action.isTransmitStep_not_fifo
      (Si446x_transmit_grows cfg fl env fuel _ _ _ _ _ _ _ _ _ _ ht)
    split at h
    · simp at h
    · rename_i fs hl
      obtain ⟨gf, hm⟩ := feeder_finish_writes cfg env fuel _ fs msg st' h
      obtain ⟨gl, _⟩ := fsk_feed_loop_writes cfg env layer0 hlen fuel c 0 st1 fs hc.1 hl
        (by rw [← hm]; exact hmsg)
      have t := Writes_trans (Writes_trans (Writes_trans g0 g1) gl) gf
      simpa using t
  · rename_i st1 ht
    have := Si446x_transmit_accepts cfg fl env fuel _ _ _ _ _ _ _ _ _ _ hband ht
    simp at this

/-- C11: when the 2FSK feeder ends with `MSG_OK` (no timeout event) for a
packet whose operating frequency is in the band of the radio (the transmit
request is accepted), whatever free FIFO values the chip reports, the
payloads of its FIFO writes, concatenated in the order of the writes, are
exactly the encoded buffer `layer0`, whose length is the length `all` of the
sizing pass, not 0. At every point of the run the bytes written so far are
an initial part of the buffer, so their number is at most its length; and
the cursor `c` with which the feed loop ends is at most that length. -/
theorem C11_fsk_bytes_in_order (cfg : Si446xDefs) (fl : FloatUnit) (env : Env)
    (enc : StreamEncoder) (fuel : Nat) (pp : packet_t) (st : RadioState) (msg : msg_t)
    (st' : RadioState)
    (hband : Si446x_isRadioInBand cfg
      (cfg.pktComputeOperatingFrequency pp.base_frequency pp.radio_step pp.radio_chan) = true)
    (hrun : min_si_fifo_feeder_fsk cfg fl env enc fuel pp st = .ok (msg, st'))
    (hmsg : msg = .MSG_OK) :
    (∃ l, st'.log = st.log ++ l ∧ fifoPayload l = enc.layer0 ∧
      ∀ pre suf, l = pre ++ suf →
        fifoPayload pre <+: enc.layer0 ∧ (fifoPayload pre).length ≤ enc.all) ∧
    enc.layer0.length = enc.all ∧ 0 < enc.all ∧
    (∀ n bufp c lower s fs, c ≤ enc.all →
      fsk_feed_loop cfg env enc.layer0 enc.all n bufp c lower s = .ok fs → fs.c ≤ enc.all) := by
  have hlen : enc.layer0.length = enc.all := by simp [StreamEncoder.layer0]
  have hall : enc.all < 65536 := Nat.mod_lt _ (by decide)
  unfold min_si_fifo_feeder_fsk at hrun
  split at hrun
  · simp at hrun
  · rename_i st1 hs
    split at hrun
    · simp only [feeder_no_data, Except.ok.injEq, Prod.mk.injEq] at hrun
      rw [hmsg] at hrun
      simp at hrun
    · rename_i hne
      obtain ⟨l0, e0, p0⟩ := fsk_feeder_setup_log cfg fl env fuel pp st st1 hs
      have gs : Writes [] st st1 := by
        refine ⟨.pktAcquireRadio :: l0 ++ [.chVTObjectInit], by rw [e0, List.append_assoc], ?_⟩
        apply fifoPayload_of_not_fifo
        intro a ha
        simp only [List.cons_append, List.mem_cons, List.mem_append, List.mem_singleton,
          List.not_mem_nil, or_false] at ha
        rcases ha with rfl | ha | rfl
        · rfl
        · exact Action.isSetup_not_fifo a (p0 a ha)
        · rfl
      rw [← hlen] at hrun
      have gw := fsk_feeder_send_writes cfg fl env enc.layer0 (by rw [hlen]; exact hall) fuel pp
        st1 msg st' hband hrun hmsg
      obtain ⟨l, el, pl⟩ := Writes_trans gs gw
      refine ⟨⟨l, el, by simpa using pl, ?_⟩, hlen, Nat.pos_of_ne_zero hne, ?_⟩
      · intro pre suf hsplit
        have hp : fifoPayload pre ++ fifoPayload suf = enc.layer0 := by
          rw [← fifoPayload_append, ← hsplit]; simpa using pl
        have hpre : fifoPayload pre <+: enc.layer0 := ⟨_, hp⟩
        exact ⟨hpre, by rw [← hlen]; exact hpre.length_le⟩
      · intro n bufp c lower s fs hc hl
        exact fsk_feed_loop_cursor cfg env enc.layer0 enc.all hall n bufp c lower s fs hc hl

set_option maxRecDepth 100000 in
/-- Witness of C11: the 2FSK feeder on a stream of 100 bytes, written as 64,
20 and 16 bytes. -/
theorem C11_fsk_bytes_in_order_witness :
    refLevelRunFsk = .ok (.MSG_OK, exitState refLevelRunFsk) ∧
    (∃ l, (exitState refLevelRunFsk).log = RadioState.powerUp.log ++ l ∧
      fifoPayload l = refLongEncoder.layer0 ∧
      ∀ pre suf, l = pre ++ suf →
        fifoPayload pre <+: refLongEncoder.layer0 ∧
        (fifoPayload pre).length ≤ refLongEncoder.all) ∧
    refLongEncoder.layer0.length = 100 :=
  ⟨rfl, (C11_fsk_bytes_in_order refDefs refFloat refLevelEnv refLongEncoder 10 refPacket
    RadioState.powerUp .MSG_OK (exitState refLevelRunFsk) (by decide) rfl rfl).1,
    by decide⟩

/-! ## Reference for the AFSK up-sampler -/

theorem srcByte_bit (buf : List Nat) (m : Nat) :
    (srcByte buf m &&& 1 ≠ 0) = (refSourceBit buf m = true) := by
  simp only [srcByte, refSourceBit, Nat.testBit, Nat.and_comm 1, bne_iff_ne, ne_eq,
    Nat.one_and_eq_mod_two, Nat.and_one_is_mod]

theorem srcByte_same (buf : List Nat) (n : Nat) (h : n % 11 ≠ 0) :
    srcByte buf (n - 1) = srcByte buf n := by
  have : (n - 1) / 11 = n / 11 := by omega
  simp only [srcByte, this]

theorem srcByte_next (buf : List Nat) (n : Nat) (h : n % 11 = 0) (h8 : n / 11 % 8 ≠ 0) :
    srcByte buf (n - 1) / 2 = srcByte buf n := by
  have e1 : (n - 1) / 11 = n / 11 - 1 := by omega
  have e2 : (n / 11 - 1) / 8 = n / 11 / 8 := by omega
  have e3 : n / 11 % 8 = (n / 11 - 1) % 8 + 1 := by omega
  simp only [srcByte, e1, e2]
  rw [e3, Nat.shiftRight_succ]

theorem srcByte_load (buf : List Nat) (n : Nat) (h8 : n / 11 % 8 = 0)
    (hb : n / 88 < buf.length) : buf[n / 11 / 8]? = some (srcByte buf n) := by
  have e : n / 11 / 8 = n / 88 := by omega
  simp only [srcByte, h8, e, Nat.shiftRight_zero]
  rw [List.getD_eq_getElem?_getD, List.getElem?_eq_getElem hb]
  rfl

/-- One pass of the loop of `Si446x_getUpsampledAFSKbits` for sample `n`
overall follows the reference: it sets bit `i` of the output byte to bit 16
of the reference phase and keeps the relation `UpInv`. -/
theorem Si446x_upsampleStep_ref (buf : List Nat) (i b n : Nat) (st : RadioState)
    (hinv : UpInv buf n st) (hb : n / 88 < buf.length) (hlen : buf.length < 2^29) :
    ∃ st', Si446x_upsampleStep buf i b st =
        .ok ((b ||| (((refPhase buf (n + 1) >>> 16) &&& 1) <<< i)) % 256, st') ∧
      UpInv buf (n + 1) st' := by
  obtain ⟨hph, hpp, hcs, hcb⟩ := hinv
  have hload : (if st.current_sample_in_baud = 0 then
        if st.packet_pos &&& 7 = 0 then buf[st.packet_pos >>> 3]?
        else some (st.current_byte / 2)
      else some st.current_byte) = some (srcByte buf n) := by
    rw [hcs, hpp]
    have e7 : n / 11 &&& 7 = n / 11 % 8 := Nat.and_pow_two_sub_one_eq_mod (n / 11) 3
    have e3 : (n / 11) >>> 3 = n / 11 / 8 := Nat.shiftRight_eq_div_pow (n / 11) 3
    rw [e7, e3]
    by_cases h0 : n % 11 = 0
    · rw [if_pos h0]
      by_cases h8 : n / 11 % 8 = 0
      · rw [if_pos h8]
        exact srcByte_load buf n h8 hb
      · rw [if_neg h8]
        rcases hcb with rfl | hcb
        · simp at h8
        · rw [hcb, srcByte_next buf n h0 h8]
    · rw [if_neg h0]
      rcases hcb with rfl | hcb
      · simp at h0
      · rw [hcb, srcByte_same buf n h0]
  have hphase : (st.phase + (if srcByte buf n &&& 1 ≠ 0 then PHASE_DELTA_1200
      else PHASE_DELTA_2200)) % 2^32 = refPhase buf (n + 1) := by
    have d1 : PHASE_DELTA_1200 = 11915 := by decide
    have d2 : PHASE_DELTA_2200 = 21845 := by decide
    rw [hph, d1, d2]
    by_cases hs : refSourceBit buf n = true
    · have hs' : srcByte buf n &&& 1 ≠ 0 := by rw [srcByte_bit]; exact hs
      rw [if_pos hs']
      simp only [refPhase, hs, if_true]
    · have hs' : ¬ (srcByte buf n &&& 1 ≠ 0) := by rw [srcByte_bit]; exact hs
      rw [if_neg hs']
      simp only [refPhase, hs, if_false]
      rfl
  unfold Si446x_upsampleStep
  simp only [hload, hphase]
  rw [hcs]
  have hmod : (n % 11 + 1) % 2^32 = n % 11 + 1 := Nat.mod_eq_of_lt (by omega)
  rw [hmod]
  by_cases h10 : n % 11 + 1 = SAMPLES_PER_BAUD
  · rw [if_pos h10]
    refine ⟨_, rfl, rfl, ?_, ?_, Or.inr rfl⟩
    · show (st.packet_pos + 1) % 2^32 = (n + 1) / 11
      have h10' : n % 11 + 1 = 11 := h10
      rw [hpp, Nat.mod_eq_of_lt (by omega)]
      omega
    · show 0 = (n + 1) % 11
      have h10' : n % 11 + 1 = 11 := h10
      omega
  · rw [if_neg h10]
    have h10' : n % 11 + 1 ≠ 11 := h10
    refine ⟨_, rfl, rfl, ?_, ?_, Or.inr rfl⟩
    · show st.packet_pos = (n + 1) / 11
      rw [hpp]; omega
    · show n % 11 + 1 = (n + 1) % 11
      omega

/-- Setting bit `i` of a byte whose bits from `i` on are clear. -/
theorem or_shift_bit (b s i : Nat) (hb : b < 2^i) (hi : i < 8) :
    (b ||| ((s &&& 1) <<< i)) % 256 < 2^(i + 1) ∧
    (∀ j, j < i → ((b ||| ((s &&& 1) <<< i)) % 256).testBit j = b.testBit j) ∧
    ((b ||| ((s &&& 1) <<< i)) % 256).testBit i = s.testBit 0 := by
  have e : b ||| ((s &&& 1) <<< i) = 2^i * (s % 2) + b := by
    rw [Nat.and_one_is_mod, Nat.shiftLeft_eq, Nat.lor_comm, Nat.mul_comm,
      ← Nat.mul_add_lt_is_or hb]
  have hs : s % 2 = 0 ∨ s % 2 = 1 := by omega
  have hlt : 2^i * (s % 2) + b < 2^(i + 1) := by
    rw [Nat.pow_succ]
    rcases hs with h | h <;> rw [h] <;> omega
  have h256 : 2^(i + 1) ≤ 256 := by
    have : (2 : Nat)^(i + 1) ≤ 2^8 := Nat.pow_le_pow_right (by decide) (by omega)
    simpa using this
  rw [e, Nat.mod_eq_of_lt (by omega)]
  refine ⟨hlt, ?_, ?_⟩
  · intro j hj
    rw [Nat.testBit_mul_pow_two_add _ hb, if_pos hj]
  · rw [Nat.testBit_mul_pow_two_add _ hb, if_neg (by omega), Nat.sub_self]
    rw [Nat.testBit_zero, Nat.testBit_zero]
    simp

/-- The loop of one `Si446x_getUpsampledAFSKbits` call, for output byte `k`,
follows the reference. -/
theorem Si446x_upsampleLoop_ref (buf : List Nat) (k : Nat) (hlen : buf.length < 2^29)
    (hk : 8 * k + 8 ≤ 88 * buf.length) :
    ∀ passes i b st, i + passes = 8 → b < 2^i →
      (∀ j, j < i → b.testBit j = refOutBit buf (8 * k + j)) → UpInv buf (8 * k + i) st →
      ∃ b' st', Si446x_upsampleLoop buf passes i b st = .ok (b', st') ∧ b' < 256 ∧
        (∀ j, j < 8 → b'.testBit j = refOutBit buf (8 * k + j)) ∧
        UpInv buf (8 * k + 8) st' := by
  intro passes
  induction passes with
  | zero =>
    intro i b st hi hb hbits hinv
    have : i = 8 := by omega
    subst this
    exact ⟨b, st, rfl, by simpa using hb, hbits, hinv⟩
  | succ m ih =>
    intro i b st hi hb hbits hinv
    obtain ⟨st1, hstep, hinv1⟩ := Si446x_upsampleStep_ref buf i b (8 * k + i) st hinv
      (by omega) hlen
    obtain ⟨h1, h2, h3⟩ := or_shift_bit b (refPhase buf (8 * k + i + 1) >>> 16) i hb (by omega)
    unfold Si446x_upsampleLoop
    rw [hstep]
    simp only []
    refine ih (i + 1) _ st1 (by omega) h1 ?_ hinv1
    intro j hj
    by_cases hji : j < i
    · rw [h2 j hji]
      exact hbits j hji
    · have : j = i := by omega
      subst this
      rw [h3, Nat.testBit_shiftRight]
      rfl

/-- Successive `Si446x_getUpsampledAFSKbits` calls, the first of them
producing output byte `k0`, follow the reference as long as the buffer is
not exhausted. -/
theorem Si446x_loadLocalBuffer_ref (buf : List Nat) (hlen : buf.length < 2^29) :
    ∀ cnt k0 st, k0 + cnt ≤ 11 * buf.length → UpInv buf (8 * k0) st →
      ∃ bytes st', Si446x_loadLocalBuffer buf cnt st = .ok (bytes, st') ∧ bytes.length = cnt ∧
        (∀ m, m < cnt → bytes.getD m 0 < 256 ∧
          ∀ i, i < 8 → (bytes.getD m 0).testBit i = refOutBit buf (8 * (k0 + m) + i)) ∧
        UpInv buf (8 * (k0 + cnt)) st' := by
  intro cnt
  induction cnt with
  | zero =>
    intro k0 st _ hinv
    exact ⟨[], st, rfl, rfl, by intro m hm; omega, hinv⟩
  | succ c ih =>
    intro k0 st hk hinv
    obtain ⟨b, st1, hloop, hb, hbits, hinv1⟩ := Si446x_upsampleLoop_ref buf k0 hlen (by omega)
      8 0 0 st rfl (by decide) (by intro j hj; omega) hinv
    have e1 : 8 * k0 + 8 = 8 * (k0 + 1) := by omega
    rw [e1] at hinv1
    obtain ⟨bs, st2, hrest, hl, hbs, hinv2⟩ := ih (k0 + 1) st1 (by omega) hinv1
    refine ⟨b :: bs, st2, ?_, by simp [hl], ?_, ?_⟩
    · unfold Si446x_loadLocalBuffer Si446x_getUpsampledAFSKbits
      rw [hloop]
      simp only [hrest]
    · intro m hm
      cases m with
      | zero => exact ⟨hb, hbits⟩
      | succ m' =>
        have := hbs m' (by omega)
        have e2 : k0 + 1 + m' = k0 + (m' + 1) := by omega
        rw [e2] at this
        simpa using this
    · have e3 : k0 + 1 + c = k0 + (c + 1) := by omega
      rw [e3] at hinv2
      exact hinv2

/-- C17: from a state with `phase = 0`, `packet_pos = 0` and
`current_sample_in_baud = 0`, `k` successive `Si446x_getUpsampledAFSKbits`
calls over a buffer of at least `k / 11` bytes all return, and they equal the
reference: bit `i` of the `m`-th byte returned is bit 16 of the reference phase
after sample `j = 8 m + i`, where the reference phase advances modulo `2^32`
by 11915 when bit `(j / 11) % 8` of `buf[(j / 11) / 8]` is 1 and by 21845 when
it is 0. After the `k` calls `phase` is the reference phase after `8 k`
samples, `packet_pos = (8 k) / 11` and `current_sample_in_baud = (8 k) % 11`. -/
theorem C17_upsampler_reference (buf : List Nat) (k : Nat) (st : RadioState)
    (hphase : st.phase = 0) (hpos : st.packet_pos = 0)
    (hsamp : st.current_sample_in_baud = 0)
    (hk : k ≤ 11 * buf.length) (hlen : buf.length < 2^29) :
    ∃ bytes st', Si446x_loadLocalBuffer buf k st = .ok (bytes, st') ∧ bytes.length = k ∧
      (∀ m i, m < k → i < 8 → bytes.getD m 0 < 256 ∧
        (bytes.getD m 0).testBit i = refOutBit buf (8 * m + i)) ∧
      st'.phase = refPhase buf (8 * k) ∧
      st'.packet_pos = 8 * k / 11 ∧ st'.current_sample_in_baud = 8 * k % 11 := by
  have hinv : UpInv buf (8 * 0) st := ⟨hphase, hpos, hsamp, Or.inl rfl⟩
  obtain ⟨bytes, st', hrun, hl, hb, hph, hpp, hcs, _⟩ :=
    Si446x_loadLocalBuffer_ref buf hlen k 0 st (by omega) hinv
  rw [Nat.zero_add] at hph hpp hcs
  refine ⟨bytes, st', hrun, hl, ?_, hph, hpp, hcs⟩
  intro m i hm hi
  have := hb m hm
  rw [Nat.zero_add] at this
  exact ⟨this.1, this.2 i hi⟩

/-- Witness of C17: eleven calls over the one byte buffer `[0x7E]` from the
reset state of the AFSK feeder. -/
theorem C17_upsampler_reference_witness :
    ∃ bytes st', Si446x_loadLocalBuffer [0x7E] 11 (afsk_upsampler_reset RadioState.powerUp)
        = .ok (bytes, st') ∧ bytes.length = 11 ∧
      (∀ m i, m < 11 → i < 8 → bytes.getD m 0 < 256 ∧
        (bytes.getD m 0).testBit i = refOutBit [0x7E] (8 * m + i)) ∧
      st'.phase = refPhase [0x7E] (8 * 11) ∧
      st'.packet_pos = 8 * 11 / 11 ∧ st'.current_sample_in_baud = 8 * 11 % 11 :=
  C17_upsampler_reference [0x7E] 11 (afsk_upsampler_reset RadioState.powerUp) rfl rfl rfl
    (by decide) (by decide)

/-! ## Band check of transmit and receive -/

/-- C21: when the operating frequency computed from base frequency, step and
channel is not in `[Si446x_MIN_FREQ, Si446x_MAX_FREQ)`, `Si446x_transmit` and
`Si446x_receiveNoLock` return false at once, for every iteration budget, in
the state in which they were called: the log of SPI transfers and every
other part of the state are unchanged. -/
theorem C21_out_of_band_no_spi (cfg : Si446xDefs) (fl : FloatUnit) (env : Env) (fuel : Nat)
    (st : RadioState) (freq step chan power size rssi sql_timeout : Nat) (mod : mod_t)
    (h : ¬ (cfg.Si446x_MIN_FREQ ≤ cfg.pktComputeOperatingFrequency freq step chan ∧
            cfg.pktComputeOperatingFrequency freq step chan < cfg.Si446x_MAX_FREQ)) :
    Si446x_isRadioInBand cfg (cfg.pktComputeOperatingFrequency freq step chan) = false ∧
    Si446x_transmit cfg fl env fuel st freq step chan power size rssi sql_timeout
      = .ok (false, st) ∧
    Si446x_receiveNoLock cfg env fuel st freq step chan rssi mod = .ok (false, st) := by
  have hb : Si446x_isRadioInBand cfg (cfg.pktComputeOperatingFrequency freq step chan)
      = false := by
    simp only [Si446x_isRadioInBand, Bool.and_eq_false_iff, decide_eq_false_iff_not]
    by_cases h1 : cfg.Si446x_MIN_FREQ ≤ cfg.pktComputeOperatingFrequency freq step chan
    · exact Or.inr (fun h2 => h ⟨h1, h2⟩)
    · exact Or.inl h1
  refine ⟨hb, ?_, ?_⟩
  · unfold Si446x_transmit
    simp [hb]
  · unfold Si446x_receiveNoLock
    simp [hb]

/-- Witness of C21: the packet at 150 MHz on a radio with the band 144 to
148 MHz. -/
theorem C21_out_of_band_no_spi_witness :
    Si446x_isRadioInBand refDefs (refDefs.pktComputeOperatingFrequency 150000000 12500 0)
      = false ∧
    Si446x_transmit refDefs refFloat refIdleEnv 5 RadioState.powerUp 150000000 12500 0 0x7F 33
      0x4F 50000 = .ok (false, RadioState.powerUp) ∧
    Si446x_receiveNoLock refDefs refIdleEnv 5 RadioState.powerUp 150000000 12500 0 0x4F
      .MOD_AFSK = .ok (false, RadioState.powerUp) :=
  C21_out_of_band_no_spi refDefs refFloat refIdleEnv 5 RadioState.powerUp 150000000 12500 0
    0x7F 33 0x4F 50000 .MOD_AFSK (by decide)

/-! ## Order of the state commands of a transmission -/

/-- C22: a finished `Si446x_transmit` that returns false has left the state as
it was, so no START_TX was issued. One that returns true has issued exactly
one START_TX command: what it added to the log is set-up traffic (no command
`0x31`), then the READY command `{0x34, 0x03}`, the power level write and the
START_TX command `0x31` whose third byte is `Si446x_STATE_READY << 4`, these
three in direct succession, so that no START_RX command `0x32` lies between
READY and START_TX, and after them only state requests and delays. -/
theorem C22_ready_before_start_tx (cfg : Si446xDefs) (fl : FloatUnit) (env : Env) (fuel : Nat)
    (st st' : RadioState) (freq step chan power size rssi sql_timeout : Nat) (b : Bool)
    (h : Si446x_transmit cfg fl env fuel st freq step chan power size rssi sql_timeout
      = .ok (b, st')) :
    (b = false ∧ st' = st) ∨
    (b = true ∧ ∃ pre post, st'.log = st.log ++ pre ++
        [.spiWrite [0x34, 0x03], .spiWrite [0x11, 0x22, 0x01, 0x01, power % 256],
         .spiWrite [0x31, chan % 256, (cfg.Si446x_STATE_READY <<< 4) % 256,
                    ((size % 65536) >>> 8) &&& 0x1F, size % 65536 &&& 0xFF]] ++ post ∧
      (∀ a ∈ pre, a.isSetup = true ∧ a.isStartTx = false) ∧
      (∀ a ∈ post, a.isSetup = true ∧ a.isStartTx = false)) := by
  unfold Si446x_transmit at h
  simp only [] at h
  split at h
  · simp only [Except.ok.injEq, Prod.mk.injEq] at h
    obtain ⟨rfl, rfl⟩ := h
    exact Or.inl ⟨rfl, rfl⟩
  · have g0 : Grows Action.isSetup st
        (if (Si446x_getState cfg env st).1 = cfg.Si446x_STATE_RX then
          chThdSleep (Si446x_setReadyState (Si446x_getState cfg env st).2) 1000
         else (Si446x_getState cfg env st).2) := by
      split
      · exact Grows_trans (Si446x_getState_grows cfg env st)
          (Grows_trans (Si446x_write_grows _ _ (by rfl)) (chThdSleep_grows _ _))
      · exact Si446x_getState_grows cfg env st
    have g1 := Grows_trans g0 (Si446x_write_grows _
      (Si446x_setProperty8_msg (cfg.prop .Si446x_MODEM_RSSI_THRESH) rssi) (by rfl))
    split at h
    · simp at h
    · rename_i b1 st1 hb
      have g2 := Grows_trans g1 (Si446x_setBandParameters_grows cfg fl _ _ _ _ _ hb).1
      have g3 := Grows_trans g2 (Si446x_write_grows st1
        [0x32, chan % 256, 0x00, 0x00, 0x00, 0x00, 0x08, 0x08] (by rfl))
      have g4 := Grows_trans g3 (Si446x_channelBusy_grows cfg env (Si446x_setRXState st1 chan))
      split at h
      · simp at h
      · rename_i st2 hw
        have g5 : Grows Action.isSetup st st2 := by
          split at hw
          · refine Grows_trans g4 (Grows_trans ?_
              (Si446x_waitClearChannel_grows cfg env _ _ _ _ _ hw))
            exact ⟨[], by simp [chVTGetSystemTime], by simp⟩
          · simp only [Except.ok.injEq] at hw
            subst hw
            exact g4
        split at h
        · simp at h
        · rename_i st3 ht
          simp only [Except.ok.injEq, Prod.mk.injEq] at h
          obtain ⟨rfl, rfl⟩ := h
          obtain ⟨pre, epre, ppre⟩ := g5
          obtain ⟨post, epost, ppost⟩ := Si446x_waitTXState_grows cfg env fuel _ _ ht
          refine Or.inr ⟨rfl, pre, post, ?_,
            fun a ha => ⟨ppre a ha, (Action.isSetup_quiet a (ppre a ha)).2.1⟩,
            fun a ha => ⟨ppost a ha, (Action.isSetup_quiet a (ppost a ha)).2.1⟩⟩
          rw [epost]
          simp only [Si446x_setTXState, Si446x_setTXState_msg, Si446x_setPowerLevel,
            Si446x_setReadyState, Si446x_write, RadioState.emit, epre, List.append_assoc,
            List.singleton_append, List.cons_append, List.nil_append]

/-- Witness of C22: the transmit request of the reference packet on a chip
that reports TX. -/
theorem C22_ready_before_start_tx_witness :
    refTransmitRun = .ok (true, endState refTransmitRun) ∧
    ((true = false ∧ endState refTransmitRun = RadioState.powerUp) ∨
    (true = true ∧ ∃ pre post, (endState refTransmitRun).log =
          RadioState.powerUp.log ++ pre ++
        [.spiWrite [0x34, 0x03], .spiWrite [0x11, 0x22, 0x01, 0x01, 0x7F % 256],
         .spiWrite [0x31, 0 % 256, (refDefs.Si446x_STATE_READY <<< 4) % 256,
                    ((100 % 65536) >>> 8) &&& 0x1F, 100 % 65536 &&& 0xFF]] ++ post ∧
      (∀ a ∈ pre, a.isSetup = true ∧ a.isStartTx = false) ∧
      (∀ a ∈ post, a.isSetup = true ∧ a.isStartTx = false))) :=
  ⟨rfl, C22_ready_before_start_tx refDefs refFloat refTxEnv 5 RadioState.powerUp
    (endState refTransmitRun) 144800000 12500 0 0x7F 100 0x4F 50000 true rfl⟩

/-! ## Receive flag of the manager -/

/-- The command `switch` sets the receive flag as the reference says. -/
theorem pktRadioManager_command_rx_active (env : MgrEnv) (fuel : Nat)
    (task : radio_task_object_t) (st st' : MgrState)
    (h : pktRadioManager_command env fuel task st = .ok st') :
    st'.rx_active = rxActiveAfter task.command st.rx_active := by
  obtain ⟨id, command, type, bf, sq, cb, hd⟩ := task
  cases command
  case PKT_RADIO_OPEN =>
    cases type <;> simp only [pktRadioManager_command, Except.ok.injEq] at h <;> subst h <;> rfl
  case PKT_RADIO_RX =>
    simp only [pktRadioManager_command, Except.ok.injEq] at h; subst h; rfl
  case PKT_RADIO_RX_STOP =>
    simp only [pktRadioManager_command, Except.ok.injEq] at h; subst h; rfl
  case PKT_RADIO_TX =>
    simp only [pktRadioManager_command, Except.ok.injEq] at h; subst h
    cases hrx : st.rx_active <;> simp [hrx, rxActiveAfter, MgrState.emit]
  case PKT_RADIO_CLOSE =>
    cases type
    case DECODE_NOT_SET =>
      simp only [pktRadioManager_command, Except.ok.injEq] at h; subst h; rfl
    case DECODE_FSK =>
      simp only [pktRadioManager_command, Except.ok.injEq] at h; subst h; rfl
    case DECODE_AFSK =>
      simp only [pktRadioManager_command] at h
      split at h
      · simp at h
      · split at h
        · simp at h
        · split at h
          · simp at h
          · rename_i st1 hw
            simp only [Except.ok.injEq] at h
            subst h
            have := (pktRadioManager_close_wait_log env fuel _ _ hw).1
            simpa [MgrState.emit, rxActiveAfter] using this
  case other n =>
    simp only [pktRadioManager_command, Except.ok.injEq] at h; subst h; rfl

/-- One pass of the manager loop sets the receive flag as the reference
says. -/
theorem pktRadioManager_iteration_rx_active (env : MgrEnv) (fuel : Nat)
    (task : radio_task_object_t) (st st' : MgrState)
    (h : pktRadioManager_iteration env fuel (some task) st = .ok st') :
    st'.rx_active = rxActiveAfter task.command st.rx_active := by
  simp only [pktRadioManager_iteration] at h
  split at h
  · simp at h
  · rename_i st1 hc
    simp only [Except.ok.injEq] at h
    subst h
    rw [← pktRadioManager_command_rx_active env fuel task st st1 hc]
    cases task.callback <;> rfl

/-- C24: the manager starts with `rx_active` false, and after any history
of queue polls that the manager has worked off, the flag is the one obtained
from the value before by setting it to true at each RX command, to false at
each RX_STOP command and leaving it as it is at every other command (OPEN,
TX, CLOSE, a value without a case) and at a poll that timed out; so for a
single task it is true after RX, false after RX_STOP and unchanged
otherwise. -/
theorem C24_rx_active_history (env : MgrEnv) (fuel : Nat)
    (polls : List (Option radio_task_object_t)) (st st' : MgrState)
    (h : pktRadioManager env fuel polls st = .ok st') :
    st'.rx_active = rxActiveHistory polls st.rx_active ∧
    (∀ link_controller, (MgrState.start link_controller).rx_active = false) := by
  refine ⟨?_, fun _ => rfl⟩
  induction polls generalizing st with
  | nil =>
    simp only [pktRadioManager, Except.ok.injEq] at h
    subst h; rfl
  | cons p rest ih =>
    simp only [pktRadioManager] at h
    split at h
    · simp at h
    · rename_i st1 hi
      cases p with
      | none =>
        simp only [pktRadioManager_iteration, Except.ok.injEq] at hi
        subst hi
        exact ih st h
      | some task =>
        rw [ih st1 h, pktRadioManager_iteration_rx_active env fuel task st st1 hi]
        rfl

/-- Witness of C24: the history RX, TX, timed out poll, RX_STOP, OPEN, RX,
CLOSE from the start state, after which the flag is true. -/
theorem C24_rx_active_history_witness :
    refHistoryRun = .ok (mgrEndState refHistoryRun) ∧
    (mgrEndState refHistoryRun).rx_active = true ∧
    ((mgrEndState refHistoryRun).rx_active =
        rxActiveHistory refHistory (MgrState.start (fun _ => none)).rx_active ∧
      (∀ link_controller, (MgrState.start link_controller).rx_active = false)) :=
  ⟨rfl, rfl, C24_rx_active_history refMgrEnv 3 refHistory (MgrState.start (fun _ => none))
    (mgrEndState refHistoryRun) rfl⟩

/-! ## Range of the temperature -/

/-- The ADC value built from response bytes is an 11 bit value. -/
theorem Si446x_temperature_adc_le (env : Env) (st : RadioState) :
    Si446x_temperature_adc (Si446x_read env st [0x14, 0x10] 8).1 ≤ 2047 := by
  have hr : List.range 8 = [0, 1, 2, 3, 4, 5, 6, 7] := by decide
  simp only [Si446x_temperature_adc, Si446x_read, hr, List.map, List.getD_cons_succ,
    List.getD_cons_zero]
  have h7 : (env.rxData st.nRead).getD 7 0 % 256 < 2^11 := by
    have := Nat.mod_lt ((env.rxData st.nRead).getD 7 0) (by decide : 0 < 256)
    omega
  have h6 : ((env.rxData st.nRead).getD 6 0 % 256 &&& 0x7) <<< 8 < 2^11 := by
    have : (env.rxData st.nRead).getD 6 0 % 256 &&& 0x7 ≤ 7 := Nat.and_le_right
    rw [Nat.shiftLeft_eq]
    omega
  have := Nat.or_lt_two_pow h7 h6
  have hle := Nat.mod_le ((env.rxData st.nRead).getD 7 0 % 256 |||
    ((env.rxData st.nRead).getD 6 0 % 256 &&& 0x7) <<< 8) 65536
  omega

/-- C27: for every response of the chip the ADC value
`rxData[7] | ((rxData[6] & 7) << 8)` is at most 2047, the value returned by
`Si446x_getTemperature` is `(89900 * adc) / 4096 - 29300` without truncation
to 16 bits, lies between -29300 and 15628 and differs from `0x7FFF`; so after a
measurement made by `Si446x_getLastTemperature` on an initialised radio with
an empty cache, `lastTemp` is not the value `0x7FFF` of an empty cache. -/
theorem C27_temperature_range (env : Env) (st : RadioState) :
    Si446x_temperature_adc (Si446x_read env st [0x14, 0x10] 8).1 ≤ 2047 ∧
    (Si446x_getTemperature env st).1 =
      (89900 * (Si446x_temperature_adc (Si446x_read env st [0x14, 0x10] 8).1 : Int)) / 4096
        - 29300 ∧
    -29300 ≤ (Si446x_getTemperature env st).1 ∧ (Si446x_getTemperature env st).1 ≤ 15628 ∧
    (Si446x_getTemperature env st).1 ≠ 0x7FFF ∧
    (Si446x_getLastTemperature env
      { st with lastTemp := 0x7FFF, radio_init := true }).2.lastTemp ≠ 0x7FFF ∧
    (Si446x_getLastTemperature env { st with lastTemp := 0x7FFF, radio_init := true }).1 =
      (Si446x_getLastTemperature env
        { st with lastTemp := 0x7FFF, radio_init := true }).2.lastTemp := by
  have key : ∀ s : RadioState,
      Si446x_temperature_adc (Si446x_read env s [0x14, 0x10] 8).1 ≤ 2047 ∧
      (Si446x_getTemperature env s).1 =
        (89900 * (Si446x_temperature_adc (Si446x_read env s [0x14, 0x10] 8).1 : Int)) / 4096
          - 29300 ∧
      -29300 ≤ (Si446x_getTemperature env s).1 ∧ (Si446x_getTemperature env s).1 ≤ 15628 := by
    intro s
    have ha := Si446x_temperature_adc_le env s
    simp only [Si446x_getTemperature, Si446x_temperature_of_adc, toInt16]
    generalize Si446x_temperature_adc (Si446x_read env s [0x14, 0x10] 8).1 = adc at ha ⊢
    have hq : 0 ≤ (89900 * (adc : Int)) / 4096 ∧ (89900 * (adc : Int)) / 4096 ≤ 44928 := by
      omega
    generalize (89900 * (adc : Int)) / 4096 = q at hq ⊢
    have hm : (q - 29300 + 32768) % 65536 = q - 29300 + 32768 :=
      Int.emod_eq_of_lt (by omega) (by omega)
    rw [hm]
    omega
  obtain ⟨h1, h2, h3, h4⟩ := key st
  refine ⟨h1, h2, h3, h4, by omega, ?_, ?_⟩
  · have := key ({ st with lastTemp := 0x7FFF, radio_init := true }.emit .pktAcquireRadio)
    simp only [Si446x_getLastTemperature, if_true, RadioState.emit]
    simp only [RadioState.emit] at this
    omega
  · simp [Si446x_getLastTemperature]

/-! ## References to the task FIFO -/

/-- C30 (failing input): a `pktGetRadioTaskObject` that obtains an object,
followed by `pktSubmitRadioTask` of that object, makes two finds and one
release, so one more reference to the task FIFO is outstanding than before;
this holds for every handler, object, callback and FIFO state. A
`pktGetRadioTaskObject` that times out makes one find and one release and
leaves the number unchanged. -/
theorem C30_find_reference_kept (handler : Nat) (obj : radio_task_object_t) (cb : Option Nat)
    (task_fifo : TaskFifo) :
    (pktGetRadioTaskObject handler (some obj) task_fifo).1 = .MSG_OK ∧
    (pktSubmitRadioTask handler { obj with handler := handler } cb
      (pktGetRadioTaskObject handler (some obj) task_fifo).2.2).finds = task_fifo.finds + 2 ∧
    (pktSubmitRadioTask handler { obj with handler := handler } cb
      (pktGetRadioTaskObject handler (some obj) task_fifo).2.2).releases
        = task_fifo.releases + 1 ∧
    (pktGetRadioTaskObject handler none task_fifo).1 = .MSG_TIMEOUT ∧
    (pktGetRadioTaskObject handler none task_fifo).2.2.finds = task_fifo.finds + 1 ∧
    (pktGetRadioTaskObject handler none task_fifo).2.2.releases = task_fifo.releases + 1 ∧
    (pktSubmitRadioTask 1 { refTxTask with handler := 1 } none
      (pktGetRadioTaskObject 1 (some refTxTask) refTaskFifo).2.2).finds = 2 ∧
    (pktSubmitRadioTask 1 { refTxTask with handler := 1 } none
      (pktGetRadioTaskObject 1 (some refTxTask) refTaskFifo).2.2).releases = 1 := by
  simp [pktGetRadioTaskObject, pktSubmitRadioTask, refTaskFifo]

/-! ## PLL and channel step arithmetic -/

/-- The exact scaled fraction in integer arithmetic. -/
theorem pll_m_exact_eq (freq f_pfd n : Nat) (hf : 0 < f_pfd) (hn : n * f_pfd ≤ freq) :
    pll_m_exact freq f_pfd n = ((freq * 524288 / f_pfd - n * 524288 : Nat) : Int) := by
  have hfq : (f_pfd : ℚ) ≠ 0 := by exact_mod_cast hf.ne'
  have e : ((freq : ℚ) / (f_pfd : ℚ) - (n : ℚ)) * 524288 =
      (((freq * 524288 : Nat) : Int) + (-(n * 524288 : Nat) : Int) * (f_pfd : Int) : Int)
        / ((f_pfd : Nat) : ℚ) := by
    push_cast
    field_simp
    ring
  have hle : n * 524288 ≤ freq * 524288 / f_pfd := by
    rw [Nat.le_div_iff_mul_le hf]
    calc n * 524288 * f_pfd = n * f_pfd * 524288 := by ring
      _ ≤ freq * 524288 := Nat.mul_le_mul_right _ hn
  unfold pll_m_exact
  rw [e, Rat.floor_intCast_div_natCast, Int.add_mul_ediv_right _ _ (by exact_mod_cast hf.ne')]
  rw [Nat.cast_sub hle]
  push_cast
  ring

/-- Bounds of the exact scaled fraction for `n = F / f_pfd - 1`. -/
theorem pll_m_bounds (freq f_pfd : Nat) (hf : 0 < f_pfd) (hq : f_pfd ≤ freq) :
    1 ≤ freq / f_pfd ∧ (freq / f_pfd - 1 + 1) * f_pfd ≤ freq ∧
    freq < (freq / f_pfd - 1 + 2) * f_pfd ∧
    524288 ≤ freq * 524288 / f_pfd - (freq / f_pfd - 1) * 524288 ∧
    freq * 524288 / f_pfd - (freq / f_pfd - 1) * 524288 < 1048576 := by
  have h1 : 1 ≤ freq / f_pfd := (Nat.one_le_div_iff hf).mpr hq
  have h2 : freq / f_pfd * f_pfd ≤ freq := Nat.div_mul_le_self freq f_pfd
  have h3 : freq < (freq / f_pfd + 1) * f_pfd := by
    rw [Nat.mul_comm]; exact Nat.lt_mul_div_succ freq hf
  have e1 : freq / f_pfd - 1 + 1 = freq / f_pfd := by omega
  have e2 : freq / f_pfd - 1 + 2 = freq / f_pfd + 1 := by omega
  have h4 : freq / f_pfd * 524288 ≤ freq * 524288 / f_pfd := by
    rw [Nat.le_div_iff_mul_le hf]
    calc freq / f_pfd * 524288 * f_pfd = freq / f_pfd * f_pfd * 524288 := by ring
      _ ≤ freq * 524288 := Nat.mul_le_mul_right _ h2
  have h5 : freq * 524288 / f_pfd < (freq / f_pfd + 1) * 524288 := by
    rw [Nat.div_lt_iff_lt_mul hf]
    calc freq * 524288 < (freq / f_pfd + 1) * f_pfd * 524288 :=
          Nat.mul_lt_mul_of_pos_right h3 (by decide)
      _ = (freq / f_pfd + 1) * 524288 * f_pfd := by ring
  rw [e1, e2]
  refine ⟨h1, h2, h3, ?_, ?_⟩ <;> omega

set_option maxRecDepth 100000 in
/-- C26 (failing input): at 145166621 Hz, an accepted frequency with divider
24, and a 26 MHz clock, `f_pfd = 2166666 <= F`, the PLL integer is
`n = F / f_pfd - 1 = 65` without underflow, `66 * f_pfd <= F < 67 * f_pfd`, and
the exact scaled fraction `floor((F / f_pfd - 65) * 2^19)` is `2^20 - 1`. In
single precision `(float)F` is 145166624 and the quotient rounds to 67.0, so
`rest` is 2.0 and the code computes `m = 2^20`, outside `[2^19, 2^20)`: the
frequency command carries `m2, m1, m0 = 16, 0, 0`, not `15, 255, 255`. -/
theorem C26_fraction_reaches_two :
    ¬ (145166621 < 144000000 ∨ 145166621 > 900000000) ∧
    (Si446x_selectBand 145166621).1 = 24 ∧
    2 * (refDefs.Si446x_CCLK % 2^32) % 2^32 / 24 = 2166666 ∧ 2166666 ≤ 145166621 ∧
    145166621 / 2166666 - 1 = 65 ∧
    (65 + 1) * 2166666 ≤ 145166621 ∧ 145166621 < (65 + 2) * 2166666 ∧
    pll_m_exact 145166621 2166666 65 = 2^20 - 1 ∧
    roundToFloat 24 145166621 1 = (145166624, 1) ∧
    roundToFloat 24 (145166624 * 1) (1 * 2166666) = (67 * 2^17, 2^17) ∧
    refFloat.pll_m 145166621 2166666 65 = 2^20 ∧
    (Si446x_setBandParameters refDefs refFloat { RadioState.powerUp with radio_init := true }
        145166621 12500).toOption.map (fun r => (r.1, r.2.log)) =
      some (true, [.spiWrite [0x11, 0x20, 0x01, 0x51, 13],
                   .spiWrite [0x11, 0x40, 0x04, 0x00, 65, 16, 0, 0, 0x00, 0x33],
                   .spiWrite [0x11, 0x20, 0x03, 0x0a, 0, 2, 117]]) := by
  refine ⟨by decide, by decide, by decide, by decide, by decide, by decide, by decide, ?_,
    by decide, by decide, by decide, by decide⟩
  rw [pll_m_exact_eq 145166621 2166666 65 (by decide) (by decide)]
  decide

set_option maxRecDepth 100000 in
/-- C25 (failing input): at 144.8 MHz, an accepted frequency with divider 24,
and a channel step of 12500 Hz on a 26 MHz clock the exact channel increment
is `2^19 * 24 * 12500 / 52000000 = 3024`, bytes `0x0B, 0xD0`. The product
`524288 * 24 * 12500` exceeds `2^32`; the command written carries the quotient
51 of the wrapped product in its last two bytes `0x00, 0x33`. -/
theorem C25_channel_step_wraps :
    ¬ (144800000 < 144000000 ∨ 144800000 > 900000000) ∧
    (Si446x_selectBand 144800000).1 = 24 ∧
    2^32 ≤ 524288 * 24 * 12500 ∧
    524288 * 24 * 12500 / (2 * 26000000) = 3024 ∧ 3024 = 0x0B * 256 + 0xD0 ∧
    524288 * 24 * 12500 % 2^32 / (2 * 26000000) = 51 ∧
    (Si446x_setBandParameters refDefs refFloat { RadioState.powerUp with radio_init := true }
        144800000 12500).toOption.map (fun r => (r.1, r.2.log)) =
      some (true, [.spiWrite [0x11, 0x20, 0x01, 0x51, 13],
                   .spiWrite [0x11, 0x40, 0x04, 0x00, 65, 14, 165, 116, 0x00, 0x33],
                   .spiWrite [0x11, 0x20, 0x03, 0x0a, 0, 2, 117]]) := by
  decide

/-! ## Length of the transmission -/

/-- The length carried by a START_TX command is the size modulo `2^13`. -/
theorem Si446x_setTXState_length (cfg : Si446xDefs) (chan size : Nat) :
    (Si446x_setTXState_msg cfg chan size).getD 3 0 * 256 +
      (Si446x_setTXState_msg cfg chan size).getD 4 0 = size % 65536 % 8192 := by
  simp only [Si446x_setTXState_msg, List.getD_cons_succ, List.getD_cons_zero]
  have e1 : ((size % 65536) >>> 8) &&& 0x1F = (size % 65536) / 256 % 32 := by
    rw [Nat.shiftRight_eq_div_pow]
    exact Nat.and_pow_two_sub_one_eq_mod _ 5
  have e2 : size % 65536 &&& 0xFF = size % 65536 % 256 :=
    Nat.and_pow_two_sub_one_eq_mod _ 8
  rw [e1, e2]
  omega

set_option maxRecDepth 100000 in
/-- C29 (failing input): for an encoded stream of `L = 745` bytes the AFSK
feeder requests a transmission of `11 * 745 = 8195` bytes, and the START_TX
command it writes carries the length 3: the length field has 13 bits and
`8195 = 8192 + 3`. -/
theorem C29_start_tx_length_truncated :
    refEncoder745.all = 745 ∧ 11 * 745 = 8195 ∧
    startTxLength (exitLog refLongRunAfsk) = some 3 ∧
    (Si446x_setTXState_msg refDefs 0 (11 * 745)).drop 3 = [0, 3] := by
  decide

/-! ## Initial FIFO fill -/

/-- The 2FSK feeder continues from its initial fill with the transmit
request. -/
theorem fsk_feeder_send_fill (cfg : Si446xDefs) (fl : FloatUnit) (env : Env)
    (layer0 : List Nat) (all fuel : Nat) (pp : packet_t) (st : RadioState) :
    fsk_feeder_send cfg fl env layer0 all fuel pp st =
      match Si446x_transmit cfg fl env fuel (fsk_feeder_fill cfg env layer0 all st).2
          pp.base_frequency pp.radio_step pp.radio_chan pp.radio_pwr all pp.cca_rssi
          (cfg.TIME_S2I 10) with
      | .error e => .error e
      | .ok (true, st1) =>
        match fsk_feed_loop cfg env layer0 all fuel
            (0 + (fsk_feeder_fill cfg env layer0 all st).1)
            (fsk_feeder_fill cfg env layer0 all st).1 0 st1 with
        | .error e => .error e
        | .ok fs => feeder_finish cfg env fuel (104 * 8 * 10) fs
      | .ok (false, st1) =>
        feeder_finish cfg env fuel (104 * 8 * 10)
          { exit_msg := .MSG_OK, c := (fsk_feeder_fill cfg env layer0 all st).1, lower := 0,
            st := st1 } := rfl

/-- The AFSK feeder continues from its initial fill with the transmit
request. -/
theorem afsk_feeder_send_fill (cfg : Si446xDefs) (fl : FloatUnit) (env : Env)
    (layer0 : List Nat) (all fuel : Nat) (pp : packet_t) (st : RadioState) :
    afsk_feeder_send cfg fl env layer0 all fuel pp st =
      match afsk_feeder_fill cfg env layer0 all st with
      | .error e => .error e
      | .ok (c, st0) =>
        match Si446x_transmit cfg fl env fuel st0 pp.base_frequency pp.radio_step
            pp.radio_chan pp.radio_pwr (all * SAMPLES_PER_BAUD % 65536) pp.cca_rssi
            (cfg.TIME_S2I 10) with
        | .error e => .error e
        | .ok (true, st1) =>
          match afsk_feed_loop cfg env layer0 (all * SAMPLES_PER_BAUD % 65536) fuel c 0 st1 with
          | .error e => .error e
          | .ok fs => feeder_finish cfg env fuel (833 * 8) fs
        | .ok (false, st1) =>
          feeder_finish cfg env fuel (833 * 8)
            { exit_msg := .MSG_OK, c := c, lower := 0, st := st1 } := by
  unfold afsk_feeder_send afsk_feeder_fill
  simp only []
  split <;> rfl

theorem fill_count_eq_min (all free : Nat) :
    (if all > free then free else all) = min free all := by
  rw [Nat.min_def]
  split <;> split <;> omega

theorem Si446x_loadLocalBuffer_length (layer0 : List Nat) (n : Nat) :
    ∀ st bs st', Si446x_loadLocalBuffer layer0 n st = .ok (bs, st') → bs.length = n := by
  induction n with
  | zero =>
    intro st bs st' h
    simp only [Si446x_loadLocalBuffer, Except.ok.injEq, Prod.mk.injEq] at h
    obtain ⟨rfl, _⟩ := h
    rfl
  | succ m ih =>
    intro st bs st' h
    unfold Si446x_loadLocalBuffer at h
    split at h
    · simp at h
    · split at h
      · simp at h
      · rename_i bs1 st2 h2
        simp only [Except.ok.injEq, Prod.mk.injEq] at h
        obtain ⟨rfl, _⟩ := h
        simp [ih _ _ _ h2]

/-- C23: in the 2FSK feeder the first FIFO write follows the FIFO reset
`{0x15, 0x01}`, the FIFO info request and the start of the timer, and its
payload is the first `c = min(free, all)` bytes of the encoded buffer, `free`
being byte 3 of the response to that request and `all` the encoded length. In
the AFSK feeder, for an encoded length with `11 * all < 65536`, the same
sequence is produced with a payload of `c = min(free, 11 * all)` up-sampled
bytes, and the up-sampler delivers them without reading past the buffer. In
both `c <= free` and `c` is at most the total number of FIFO bytes. -/
theorem C23_initial_fill (cfg : Si446xDefs) (env : Env) (enc : StreamEncoder)
    (st : RadioState) (h11 : enc.all * 11 < 65536) :
    (∃ rx payload c st1, fsk_feeder_fill cfg env enc.layer0 enc.all st = (c, st1) ∧
      st1.log = st.log ++ [.spiWrite [0x15, 0x01],
        .spiRead [cfg.Si446x_FIFO_INFO % 256, 0x00] rx, .chVTSet 10,
        .spiWrite (0x66 :: payload)] ∧
      c = min (rx.getD 3 0) enc.all ∧ payload.length = c ∧ payload = enc.layer0.take c ∧
      c ≤ rx.getD 3 0 ∧ c ≤ enc.all) ∧
    (∃ rx payload c st1, afsk_feeder_fill cfg env enc.layer0 enc.all st = .ok (c, st1) ∧
      st1.log = st.log ++ [.spiWrite [0x15, 0x01],
        .spiRead [cfg.Si446x_FIFO_INFO % 256, 0x00] rx, .chVTSet 10,
        .spiWrite (0x66 :: payload)] ∧
      c = min (rx.getD 3 0) (11 * enc.all) ∧ payload.length = c ∧
      c ≤ rx.getD 3 0 ∧ c ≤ 11 * enc.all) := by
  have hlen : enc.layer0.length = enc.all := by simp [StreamEncoder.layer0]
  have hall : enc.all < 65536 := Nat.mod_lt _ (by decide)
  constructor
  · have hf := Si446x_getTXfreeFIFO_lt cfg env (Si446x_write st [0x15, 0x01])
    refine ⟨(Si446x_read env (Si446x_write st [0x15, 0x01])
      [cfg.Si446x_FIFO_INFO % 256, 0x00] 4).1,
      enc.layer0.take (min (Si446x_getTXfreeFIFO cfg env (Si446x_write st [0x15, 0x01])).1
        enc.all), _, _, rfl, ?_, ?_, ?_, ?_, ?_, ?_⟩
    · have hc : min (Si446x_getTXfreeFIFO cfg env (Si446x_write st [0x15, 0x01])).1 enc.all
          % 256 = min (Si446x_getTXfreeFIFO cfg env (Si446x_write st [0x15, 0x01])).1
            enc.all := Nat.mod_eq_of_lt (by omega)
      simp only [fsk_feeder_fill, fill_count_eq_min, Si446x_writeFIFO, hc, List.drop_zero]
      simp [Si446x_getTXfreeFIFO, Si446x_read, Si446x_write, RadioState.emit]
    · simp only [fsk_feeder_fill, fill_count_eq_min]
      rfl
    · simp only [fsk_feeder_fill, fill_count_eq_min, List.length_take, hlen]
      omega
    · simp only [fsk_feeder_fill, fill_count_eq_min]
    · simp only [fsk_feeder_fill, fill_count_eq_min]
      exact Nat.min_le_left _ _
    · simp only [fsk_feeder_fill, fill_count_eq_min]
      exact Nat.min_le_right _ _
  · have hs : SAMPLES_PER_BAUD = 11 := by decide
    have hall11 : enc.all * SAMPLES_PER_BAUD % 65536 = 11 * enc.all := by
      rw [hs, Nat.mod_eq_of_lt h11, Nat.mul_comm]
    have hf := Si446x_getTXfreeFIFO_lt cfg env
      (afsk_upsampler_reset (Si446x_write st [0x15, 0x01]))
    obtain ⟨c, hcdef⟩ : ∃ c, c = min (Si446x_getTXfreeFIFO cfg env
        (afsk_upsampler_reset (Si446x_write st [0x15, 0x01]))).1 (11 * enc.all) := ⟨_, rfl⟩
    have hc256 : c % 256 = c := Nat.mod_eq_of_lt (by omega)
    have hinv : UpInv enc.layer0 (8 * 0) ((Si446x_getTXfreeFIFO cfg env
        (afsk_upsampler_reset (Si446x_write st [0x15, 0x01]))).2.emit (.chVTSet 10)) :=
      ⟨rfl, rfl, rfl, Or.inl rfl⟩
    obtain ⟨bytes, st1, hrun, hl, _, _⟩ := Si446x_loadLocalBuffer_ref enc.layer0
      (by rw [hlen]; omega) c 0 _ (by rw [hlen]; omega) hinv
    obtain ⟨hlog, _, _⟩ := Si446x_loadLocalBuffer_frame enc.layer0 _ _ _ _ hrun
    refine ⟨(Si446x_read env (afsk_upsampler_reset (Si446x_write st [0x15, 0x01]))
      [cfg.Si446x_FIFO_INFO % 256, 0x00] 4).1, bytes, c,
      Si446x_writeFIFO st1 bytes c, ?_, ?_, ?_, hl, ?_, ?_⟩
    · simp only [afsk_feeder_fill, hall11, fill_count_eq_min, ← hcdef, hrun]
    · simp only [Si446x_writeFIFO, Si446x_write, RadioState.emit, hlog, hc256]
      rw [List.take_of_length_le (by omega)]
      simp [Si446x_getTXfreeFIFO, Si446x_read, Si446x_write, RadioState.emit,
        afsk_upsampler_reset]
    · rw [hcdef]; rfl
    · rw [hcdef]; exact Nat.min_le_left _ _
    · rw [hcdef]; exact Nat.min_le_right _ _

/-- Witness of C23: a stream of 10 bytes with 64 bytes of free FIFO space:
the 2FSK feeder loads 10 bytes and the AFSK feeder 64 of its 110. -/
theorem C23_initial_fill_witness :
    (∃ rx payload c st1, fsk_feeder_fill refDefs refLevelEnv refTenEncoder.layer0
        refTenEncoder.all RadioState.powerUp = (c, st1) ∧
      st1.log = RadioState.powerUp.log ++ [.spiWrite [0x15, 0x01],
        .spiRead [refDefs.Si446x_FIFO_INFO % 256, 0x00] rx, .chVTSet 10,
        .spiWrite (0x66 :: payload)] ∧
      c = min (rx.getD 3 0) refTenEncoder.all ∧ payload.length = c ∧
      payload = refTenEncoder.layer0.take c ∧
      c ≤ rx.getD 3 0 ∧ c ≤ refTenEncoder.all) ∧
    (∃ rx payload c st1, afsk_feeder_fill refDefs refLevelEnv refTenEncoder.layer0
        refTenEncoder.all RadioState.powerUp = .ok (c, st1) ∧
      st1.log = RadioState.powerUp.log ++ [.spiWrite [0x15, 0x01],
        .spiRead [refDefs.Si446x_FIFO_INFO % 256, 0x00] rx, .chVTSet 10,
        .spiWrite (0x66 :: payload)] ∧
      c = min (rx.getD 3 0) (11 * refTenEncoder.all) ∧ payload.length = c ∧
      c ≤ rx.getD 3 0 ∧ c ≤ 11 * refTenEncoder.all) :=
  C23_initial_fill refDefs refLevelEnv refTenEncoder RadioState.powerUp (by decide)

/-! ## The up-sampler stays inside the encoded buffer -/

theorem UpInv_of_upsamplerOf (buf : List Nat) (n : Nat) (st st' : RadioState)
    (h : upsamplerOf st' = upsamplerOf st) (hinv : UpInv buf n st) : UpInv buf n st' := by
  simp only [upsamplerOf, Prod.mk.injEq] at h
  obtain ⟨h1, h2, h3, h4⟩ := h
  obtain ⟨i1, i2, i3, i4⟩ := hinv
  exact ⟨h1.trans i1, h2.trans i2, h3.trans i3, by rw [h4]; exact i4⟩

theorem Si446x_conditional_init_keeps (cfg : Si446xDefs) (st : RadioState) :
    upsamplerOf (Si446x_conditional_init cfg st) = upsamplerOf st := by
  unfold Si446x_conditional_init
  split <;> rfl

theorem Si446x_setBandParameters_quiet (cfg : Si446xDefs) (fl : FloatUnit) (st : RadioState)
    (freq step : Nat) : QuietP st (Si446x_setBandParameters cfg fl st freq step) := by
  unfold Si446x_setBandParameters
  simp only []
  split
  · exact rfl
  · split
    · exact (by decide : Halt.divZero ≠ Halt.outOfBounds)
    · split
      · exact (by decide : Halt.divZero ≠ Halt.outOfBounds)
      · split
        · exact (by decide : Halt.divZero ≠ Halt.outOfBounds)
        · exact Si446x_conditional_init_keeps cfg st

theorem Si446x_pauseReceive_wait_quiet (cfg : Si446xDefs) (env : Env) (fuel : Nat) :
    ∀ st, QuietS st (Si446x_pauseReceive_wait cfg env fuel st) := by
  induction fuel with
  | zero => intro st; exact (by decide : Halt.fuel ≠ Halt.outOfBounds)
  | succ n ih =>
    intro st
    unfold Si446x_pauseReceive_wait
    simp only []
    split
    · exact ih _
    · exact rfl

theorem Si446x_pauseReceive_quiet (cfg : Si446xDefs) (env : Env) (fuel : Nat)
    (st : RadioState) : QuietS st (Si446x_pauseReceive cfg env fuel st) := by
  unfold Si446x_pauseReceive
  simp only []
  split
  · exact Si446x_pauseReceive_wait_quiet cfg env fuel _
  · exact rfl

theorem Si446x_sampleCCA_keeps (env : Env) (n : Nat) :
    ∀ cca st, upsamplerOf (Si446x_sampleCCA env n cca st).2 = upsamplerOf st := by
  induction n with
  | zero => intro cca st; rfl
  | succ m ih =>
    intro cca st
    unfold Si446x_sampleCCA
    exact ih _ _

theorem Si446x_getLatchedCCA_keeps (env : Env) (st : RadioState) (ms : Nat) :
    upsamplerOf (Si446x_getLatchedCCA env st ms).2 = upsamplerOf st :=
  Si446x_sampleCCA_keeps env ((ms % 256) * 10) 0 st

theorem Si446x_channelBusy_keeps (cfg : Si446xDefs) (env : Env) (st : RadioState) :
    upsamplerOf (Si446x_channelBusy cfg env st).2 = upsamplerOf st := by
  unfold Si446x_channelBusy
  simp only []
  split
  · rfl
  · exact Eq.trans (Si446x_getLatchedCCA_keeps env (Si446x_getState cfg env st).2 50) rfl

theorem Si446x_waitClearChannel_quiet (cfg : Si446xDefs) (env : Env) (t0 sql_timeout : Nat)
    (fuel : Nat) : ∀ st, QuietS st (Si446x_waitClearChannel cfg env t0 sql_timeout fuel st) := by
  induction fuel with
  | zero => intro st; exact (by decide : Halt.fuel ≠ Halt.outOfBounds)
  | succ n ih =>
    intro st
    have hb := Si446x_channelBusy_keeps cfg env st
    unfold Si446x_waitClearChannel
    simp only []
    split
    · split
      · have := ih (chThdSleep (chVTGetSystemTime env (Si446x_channelBusy cfg env st).2).2 100)
        revert this
        generalize Si446x_waitClearChannel cfg env t0 sql_timeout n
          (chThdSleep (chVTGetSystemTime env (Si446x_channelBusy cfg env st).2).2 100) = r
        intro this
        cases r with
        | error e => exact this
        | ok s => exact Eq.trans this hb
      · exact hb
    · exact hb

theorem Si446x_waitTXState_quiet (cfg : Si446xDefs) (env : Env) (fuel : Nat) :
    ∀ st, QuietS st (Si446x_waitTXState cfg env fuel st) := by
  induction fuel with
  | zero => intro st; exact (by decide : Halt.fuel ≠ Halt.outOfBounds)
  | succ n ih =>
    intro st
    unfold Si446x_waitTXState
    simp only []
    split
    · exact ih _
    · exact rfl

theorem Si446x_transmit_quiet (cfg : Si446xDefs) (fl : FloatUnit) (env : Env) (fuel : Nat)
    (st : RadioState) (freq step chan power size rssi sql_timeout : Nat) :
    QuietP st (Si446x_transmit cfg fl env fuel st freq step chan power size rssi
      sql_timeout) := by
  unfold Si446x_transmit
  simp only []
  split
  · exact rfl
  · have k0 : upsamplerOf
        (Si446x_setProperty8
          (if (Si446x_getState cfg env st).1 = cfg.Si446x_STATE_RX then
            chThdSleep (Si446x_setReadyState (Si446x_getState cfg env st).2) 1000
           else (Si446x_getState cfg env st).2)
          (cfg.prop .Si446x_MODEM_RSSI_THRESH) rssi) = upsamplerOf st := by
      split <;> rfl
    have q1 := Si446x_setBandParameters_quiet cfg fl
      (Si446x_setProperty8
          (if (Si446x_getState cfg env st).1 = cfg.Si446x_STATE_RX then
            chThdSleep (Si446x_setReadyState (Si446x_getState cfg env st).2) 1000
           else (Si446x_getState cfg env st).2)
          (cfg.prop .Si446x_MODEM_RSSI_THRESH) rssi) freq step
    split
    · rename_i e he
      rw [he] at q1
      exact q1
    · rename_i b1 st1 hb
      rw [hb] at q1
      have k1 : upsamplerOf st1 = upsamplerOf st := Eq.trans q1 k0
      have k2 : upsamplerOf (Si446x_channelBusy cfg env (Si446x_setRXState st1 chan)).2
          = upsamplerOf st :=
        Eq.trans (Si446x_channelBusy_keeps cfg env (Si446x_setRXState st1 chan)) k1
      split
      · rename_i e hw
        split at hw
        · have q2 := Si446x_waitClearChannel_quiet cfg env
            (chVTGetSystemTime env (Si446x_channelBusy cfg env (Si446x_setRXState st1 chan)).2).1
            sql_timeout fuel
            (chVTGetSystemTime env (Si446x_channelBusy cfg env (Si446x_setRXState st1 chan)).2).2
          rw [hw] at q2
          exact q2
        · simp at hw
      · rename_i st2 hw
        have k3 : upsamplerOf st2 = upsamplerOf st := by
          split at hw
          · have q2 := Si446x_waitClearChannel_quiet cfg env
              (chVTGetSystemTime env
                (Si446x_channelBusy cfg env (Si446x_setRXState st1 chan)).2).1
              sql_timeout fuel
              (chVTGetSystemTime env
                (Si446x_channelBusy cfg env (Si446x_setRXState st1 chan)).2).2
            rw [hw] at q2
            exact Eq.trans q2 k2
          · simp only [Except.ok.injEq] at hw
            subst hw
            exact k2
        have q3 := Si446x_waitTXState_quiet cfg env fuel
          (Si446x_setTXState cfg (Si446x_setPowerLevel (Si446x_setReadyState st2) power)
            chan size)
        split
        · rename_i e ht
          rw [ht] at q3
          exact q3
        · rename_i st3 ht
          rw [ht] at q3
          exact Eq.trans q3 k3

theorem feeder_wait_tx_end_quiet (cfg : Si446xDefs) (env : Env) (exit_msg : msg_t)
    (us fuel : Nat) : ∀ st, QuietS st (feeder_wait_tx_end cfg env exit_msg us fuel st) := by
  induction fuel with
  | zero => intro st; exact (by decide : Halt.fuel ≠ Halt.outOfBounds)
  | succ n ih =>
    intro st
    unfold feeder_wait_tx_end
    simp only []
    split
    · exact ih _
    · exact rfl

theorem feeder_finish_quiet (cfg : Si446xDefs) (env : Env) (fuel us : Nat) (fs : FeedState) :
    QuietP fs.st (feeder_finish cfg env fuel us fs) := by
  unfold feeder_finish
  simp only []
  have q := feeder_wait_tx_end_quiet cfg env fs.exit_msg us fuel (fs.st.emit .chVTReset)
  split
  · rename_i e he
    rw [he] at q
    exact q
  · rename_i st1 hw
    rw [hw] at q
    exact q

theorem afsk_feeder_setup_quiet (cfg : Si446xDefs) (fl : FloatUnit) (env : Env) (fuel : Nat)
    (pp : packet_t) (st : RadioState) : QuietS st (afsk_feeder_setup cfg fl env fuel pp st) := by
  unfold afsk_feeder_setup
  simp only []
  have q1 := Si446x_setBandParameters_quiet cfg fl
    (Si446x_conditional_init cfg (st.emit .pktAcquireRadio)) pp.base_frequency pp.radio_step
  split
  · rename_i e he
    rw [he] at q1
    exact q1
  · rename_i b st1 hb
    rw [hb] at q1
    have q2 := Si446x_pauseReceive_quiet cfg env fuel st1
    split
    · rename_i e he
      rw [he] at q2
      exact q2
    · rename_i st2 hp
      rw [hp] at q2
      exact Eq.trans (Eq.trans q2 q1) (Si446x_conditional_init_keeps cfg _)

/-- The feed loop of the AFSK feeder, entered after `c` up-sampler calls with
`c <= all <= 11 * buf.length`, makes at most `all` calls in total and never
reads past the buffer. -/
theorem afsk_feed_loop_safe (cfg : Si446xDefs) (env : Env) (buf : List Nat) (all : Nat)
    (hall : all ≤ 11 * buf.length) (h16 : all < 65536) (hlen : buf.length < 2^29)
    (fuel : Nat) :
    ∀ c lower st, c ≤ all → UpInv buf (8 * c) st →
      SafeEnd buf all (afsk_feed_loop cfg env buf all fuel c lower st) := by
  induction fuel with
  | zero => intro c lower st _ _; exact (by decide : Halt.fuel ≠ Halt.outOfBounds)
  | succ n ih =>
    intro c lower st hc hinv
    generalize hr : afsk_feed_loop cfg env buf all (n + 1) c lower st = r
    unfold afsk_feed_loop at hr
    simp only [] at hr
    split at hr
    · have hf := Si446x_getTXfreeFIFO_lt cfg env st
      obtain ⟨more, hmore⟩ : ∃ m, m = (if (Si446x_getTXfreeFIFO cfg env st).1 >
          all - c then (all - c) % 256 else (Si446x_getTXfreeFIFO cfg env st).1) := ⟨_, rfl⟩
      have hm : more ≤ all - c := by
        rw [hmore]
        split
        · exact Nat.mod_le _ _
        · omega
      rw [← hmore] at hr
      generalize (if (Si446x_getTXfreeFIFO cfg env st).1 > lower then
        (Si446x_getTXfreeFIFO cfg env st).1 else lower) = lower1 at hr
      have hinv0 : UpInv buf (8 * c) (Si446x_getTXfreeFIFO cfg env st).2 :=
        UpInv_of_upsamplerOf buf _ st _ rfl hinv
      obtain ⟨bytes, st1, hrun, _, _, hinv1⟩ := Si446x_loadLocalBuffer_ref buf hlen more c
        (Si446x_getTXfreeFIFO cfg env st).2 (by omega) hinv0
      rw [hrun] at hr
      simp only [] at hr
      have hcm : (c + more) % 65536 = c + more := Nat.mod_eq_of_lt (by omega)
      rw [hcm] at hr
      split at hr
      · subst hr
        exact ⟨by show c + more ≤ all; omega, UpInv_of_upsamplerOf buf _ st1 _ rfl hinv1⟩
      · subst hr
        exact ih (c + more) lower1 _ (by omega) (UpInv_of_upsamplerOf buf _ st1 _ rfl hinv1)
    · subst hr
      exact ⟨hc, hinv⟩

/-- C28: for an encoded buffer of `L` bytes with `11 * L <= 65535` and every
sequence of free FIFO values, chip states and events, the AFSK feeder never
stops because `Si446x_getUpsampledAFSKbits` reads `buf[packet_pos >> 3]` at an
index of `L` or more; and when the feeder has sent a stream that is not empty,
the up-sampler variables are those after `k` calls since the reset of the
feeder, for a `k` of at most `11 * L`: `packet_pos = 8 k / 11` and
`current_sample_in_baud = 8 k mod 11`. -/
theorem C28_upsampler_in_bounds (cfg : Si446xDefs) (fl : FloatUnit) (env : Env)
    (enc : StreamEncoder) (fuel : Nat) (pp : packet_t) (st : RadioState)
    (h11 : 11 * enc.all ≤ 65535) :
    min_si_fifo_feeder_afsk cfg fl env enc fuel pp st ≠ .error .outOfBounds ∧
    (∀ msg st', min_si_fifo_feeder_afsk cfg fl env enc fuel pp st = .ok (msg, st') →
      enc.all ≠ 0 →
      ∃ k, k ≤ 11 * enc.all ∧ st'.packet_pos = 8 * k / 11 ∧
        st'.current_sample_in_baud = 8 * k % 11 ∧ st'.packet_pos ≤ 8 * enc.layer0.length) := by
  have hlen : enc.layer0.length = enc.all := by simp [StreamEncoder.layer0]
  have hs : SAMPLES_PER_BAUD = 11 := by decide
  have hall11 : enc.all * SAMPLES_PER_BAUD % 65536 = 11 * enc.all := by
    rw [hs, Nat.mod_eq_of_lt (by omega), Nat.mul_comm]
  have key : ∀ r, min_si_fifo_feeder_afsk cfg fl env enc fuel pp st = r →
      match r with
      | .error e => e ≠ .outOfBounds
      | .ok (_, st') => enc.all ≠ 0 → ∃ k, k ≤ 11 * enc.all ∧ UpInv enc.layer0 (8 * k) st' := by
    intro r hr
    unfold min_si_fifo_feeder_afsk at hr
    have q0 := afsk_feeder_setup_quiet cfg fl env fuel pp st
    split at hr
    · rename_i e he
      rw [he] at q0
      subst hr
      exact q0
    · rename_i st0 hs0
      split at hr
      · subst hr
        intro h0
        contradiction
      · rw [afsk_feeder_send_fill] at hr
        have hf := Si446x_getTXfreeFIFO_lt cfg env
          (afsk_upsampler_reset (Si446x_write st0 [0x15, 0x01]))
        obtain ⟨c, hcdef⟩ : ∃ c, c = min (Si446x_getTXfreeFIFO cfg env
            (afsk_upsampler_reset (Si446x_write st0 [0x15, 0x01]))).1 (11 * enc.all) :=
          ⟨_, rfl⟩
        have hc : c ≤ 11 * enc.all := by rw [hcdef]; exact Nat.min_le_right _ _
        have hinv : UpInv enc.layer0 (8 * 0) ((Si446x_getTXfreeFIFO cfg env
            (afsk_upsampler_reset (Si446x_write st0 [0x15, 0x01]))).2.emit (.chVTSet 10)) :=
          ⟨rfl, rfl, rfl, Or.inl rfl⟩
        obtain ⟨bytes, st1, hrun, _, _, hinv1⟩ := Si446x_loadLocalBuffer_ref enc.layer0
          (by rw [hlen]; omega) c 0 _ (by rw [hlen]; omega) hinv
        rw [Nat.zero_add] at hinv1
        have hfill : afsk_feeder_fill cfg env enc.layer0 enc.all st0 =
            .ok (c, Si446x_writeFIFO st1 bytes c) := by
          simp only [afsk_feeder_fill, hall11, fill_count_eq_min, ← hcdef, hrun]
        rw [hfill] at hr
        simp only [hall11] at hr
        have hinv2 : UpInv enc.layer0 (8 * c) (Si446x_writeFIFO st1 bytes c) :=
          UpInv_of_upsamplerOf _ _ st1 _ rfl hinv1
        have qt := Si446x_transmit_quiet cfg fl env fuel (Si446x_writeFIFO st1 bytes c)
          pp.base_frequency pp.radio_step pp.radio_chan pp.radio_pwr (11 * enc.all)
          pp.cca_rssi (cfg.TIME_S2I 10)
        split at hr
        · rename_i e he
          rw [he] at qt
          subst hr
          exact qt
        · rename_i st2 ht
          rw [ht] at qt
          have hinv3 : UpInv enc.layer0 (8 * c) st2 :=
            UpInv_of_upsamplerOf _ _ _ _ qt hinv2
          have hsafe := afsk_feed_loop_safe cfg env enc.layer0 (11 * enc.all)
            (by rw [hlen]) (by omega) (by rw [hlen]; omega) fuel c 0 st2 hc hinv3
          split at hr
          · rename_i e hl
            rw [hl] at hsafe
            subst hr
            exact hsafe
          · rename_i fs hl
            rw [hl] at hsafe
            have qf := feeder_finish_quiet cfg env fuel (833 * 8) fs
            rw [hr] at qf
            cases r with
            | error e => exact qf
            | ok p =>
              obtain ⟨msg, st'⟩ := p
              intro _
              exact ⟨fs.c, hsafe.1, UpInv_of_upsamplerOf _ _ _ _ qf hsafe.2⟩
        · rename_i st2 ht
          rw [ht] at qt
          have qf := feeder_finish_quiet cfg env fuel (833 * 8)
            { exit_msg := .MSG_OK, c := c, lower := 0, st := st2 }
          rw [hr] at qf
          cases r with
          | error e => exact qf
          | ok p =>
            obtain ⟨msg, st'⟩ := p
            intro _
            exact ⟨c, hc, UpInv_of_upsamplerOf _ _ _ _ (Eq.trans qf qt) hinv2⟩
  constructor
  · intro h
    exact key _ h rfl
  · intro msg st' h h0
    obtain ⟨k, hk, _, hpp, hcs, _⟩ := key _ h h0
    refine ⟨k, hk, hpp, hcs, ?_⟩
    rw [hpp, hlen]
    omega

set_option maxRecDepth 100000 in
/-- Witness of C28: the AFSK feeder on a stream of 10 bytes, which ends with
`MSG_OK` after all 110 up-sampler calls, `packet_pos = 80`. -/
theorem C28_upsampler_in_bounds_witness :
    11 * refTenEncoder.all ≤ 65535 ∧
    exitMsg refLevelRunAfsk = some .MSG_OK ∧
    (exitState refLevelRunAfsk).packet_pos = 80 ∧
    (exitState refLevelRunAfsk).current_sample_in_baud = 0 ∧
    (refLevelRunAfsk ≠ .error .outOfBounds ∧
    (∀ msg st', refLevelRunAfsk = .ok (msg, st') → refTenEncoder.all ≠ 0 →
      ∃ k, k ≤ 11 * refTenEncoder.all ∧ st'.packet_pos = 8 * k / 11 ∧
        st'.current_sample_in_baud = 8 * k % 11 ∧
        st'.packet_pos ≤ 8 * refTenEncoder.layer0.length)) :=
  ⟨by decide, by decide, by decide, by decide,
    C28_upsampler_in_bounds refDefs refFloat refLevelEnv refTenEncoder 10 refPacket
      RadioState.powerUp (by decide)⟩

end PecanPico
